import Mathlib

/-!
# sdl_sph: GPU particle simulation driver

A shallow embedding of `src/main.c`, `src/render.c` and `src/shader_utils.c`.

The program is a sequence of calls into the SDL3 GPU library.  Each C function
is embedded as a pure function from

* its arguments,
* an *environment* record holding what the library calls made by the function
  return (handles, success flags, sizes), and

to its return value, the memory it leaves behind, and the *trace*: the list of
library calls it issued, in program order, each with its arguments and result.

Conventions
* A pointer-like SDL object is a `Handle`; `0` is `NULL`.
* `int` values are `Int`; the result of `int` arithmetic is reduced to 32 bits
  explicitly.  Where the exact result leaves the range of `int` the C
  expression has no defined value; every theorem about such a value assumes
  that the exact result is in range.
* `float` values are carried as IEEE-754 binary32 bit patterns (`F32`).  The
  only floating-point operation of the embedded code is the conversion
  `(float)i` of an `int` (`f32_of_int`), which rounds to nearest, ties to even.
* Logging calls (`SDL_Log`, `SDL_LogError`) and host heap frees of temporary
  arrays are not part of the trace.
-/

namespace SdlSph

/-! ## Machine integers -/

/-- An SDL object pointer; `0` stands for `NULL`. -/
abbrev Handle := Nat

/-- An IEEE-754 binary32 value, as its bit pattern. -/
abbrev F32 := Nat

/-- Bit pattern of `0.0f`. -/
def f32_zero : F32 := 0

/-- Bit pattern of `1.0f`. -/
def f32_one : F32 := 0x3F800000

/-- Largest value of a C `int` (32 bits). -/
def INT_MAX : Int := 2147483647

/-- Smallest value of a C `int` (32 bits). -/
def INT_MIN : Int := -2147483648

/-- Result of 32-bit signed arithmetic.  For an exact result inside
`[-2^31, 2^31)` this is the exact result.  Signed overflow is undefined in C;
outside the range the function returns the two's complement reduction only to
stay total, and no theorem below depends on that choice. -/
def wrapInt32 (i : Int) : Int := (i + 2147483648) % 4294967296 - 2147483648

/-- The conversion `(Uint32)i` of a C `int`. -/
def toUint32 (i : Int) : Nat := (i % 4294967296).toNat

/-- The macro `SDL_max(a, b)` on `int`. -/
def SDL_max (a b : Int) : Int := if a > b then a else b

/-! ## Conversion of `int` to `float` -/

/-- Position of the highest set bit of `v` (`0` for `v < 2`), for every
`v < 2 ^ fuel`. -/
def log2Fuel : Nat → Nat → Nat
  | 0, _ => 0
  | fuel + 1, v => if v < 2 then 0 else log2Fuel fuel (v / 2) + 1

/-- Bit pattern of the binary32 value nearest to the natural number
`v < 2 ^ 32`, ties going to the even significand (the default IEEE-754
rounding): biased exponent `e + 127` in bits 23-30 and the 24-bit significand
without its leading one in bits 0-22.  Up to `2 ^ 24` the significand holds `v`
exactly; above, the low `e - 23` bits are rounded away and a significand that
rounds up to `2 ^ 24` carries into the exponent. -/
def f32_of_nat (v : Nat) : F32 :=
  if v = 0 then 0
  else
    let e := log2Fuel 32 v
    if e ≤ 23 then (e + 127) * 2 ^ 23 + (v * 2 ^ (23 - e) - 2 ^ 23)
    else
      let shift := e - 23
      let q := v / 2 ^ shift
      let r := v % 2 ^ shift
      let half := 2 ^ (shift - 1)
      let rounded := if r > half ∨ (r = half ∧ q % 2 = 1) then q + 1 else q
      (e + 127) * 2 ^ 23 + (rounded - 2 ^ 23)

/-- The conversion `(float)i` of a C `int`: the sign bit and the rounded
magnitude. -/
def f32_of_int (i : Int) : F32 :=
  if i < 0 then 2 ^ 31 + f32_of_nat i.natAbs else f32_of_nat i.natAbs

/-- The number that a finite binary32 bit pattern stands for. -/
def f32_value (b : F32) : ℚ :=
  let sign : Nat := b / 2 ^ 31 % 2
  let e : Nat := b / 2 ^ 23 % 256
  let m : Nat := b % 2 ^ 23
  let magnitude : ℚ :=
    if e = 0 then (m : ℚ) * (2 : ℚ) ^ (-149 : Int)
    else ((2 ^ 23 + m : Nat) : ℚ) * (2 : ℚ) ^ ((e : Int) - 150)
  if sign = 1 then -magnitude else magnitude

/-! ## Data model (`main.c`, `render.h`, SDL3 descriptors) -/

/-- Return codes of the application callbacks. -/
inductive SDL_AppResult where
  | SDL_APP_CONTINUE
  | SDL_APP_SUCCESS
  | SDL_APP_FAILURE
  deriving DecidableEq, Repr

/-- The record `RenderState` of `render.h`. -/
structure RenderState where
  vertexShader : Handle
  fragmentShader : Handle
  pipeline : Handle
  deriving DecidableEq, Repr

/-- The record `AppContext` of `main.c`. -/
structure AppContext where
  window : Handle
  device : Handle
  render : RenderState
  computePipeline : Handle
  xCurrBuffer : Handle
  yCurrBuffer : Handle
  xPrevBuffer : Handle
  yPrevBuffer : Handle
  massBuffer : Handle
  densityBuffer : Handle
  numParticles : Int
  deriving DecidableEq, Repr

/-- Shader formats named in the source. -/
inductive SDL_GPUShaderFormat where
  | SDL_GPU_SHADERFORMAT_SPIRV
  | SDL_GPU_SHADERFORMAT_DXIL
  | SDL_GPU_SHADERFORMAT_MSL
  deriving DecidableEq, Repr

/-- Shader stages. -/
inductive SDL_GPUShaderStage where
  | SDL_GPU_SHADERSTAGE_VERTEX
  | SDL_GPU_SHADERSTAGE_FRAGMENT
  deriving DecidableEq, Repr

/-- Buffer usage flags; a usage mask is the list of flags or-ed together. -/
inductive SDL_GPUBufferUsageFlag where
  | SDL_GPU_BUFFERUSAGE_GRAPHICS_STORAGE_READ
  | SDL_GPU_BUFFERUSAGE_COMPUTE_STORAGE_READ
  | SDL_GPU_BUFFERUSAGE_COMPUTE_STORAGE_WRITE
  deriving DecidableEq, Repr

/-- Transfer buffer usage. -/
inductive SDL_GPUTransferBufferUsage where
  | SDL_GPU_TRANSFERBUFFERUSAGE_UPLOAD
  | SDL_GPU_TRANSFERBUFFERUSAGE_DOWNLOAD
  deriving DecidableEq, Repr

/-- Primitive topologies. -/
inductive SDL_GPUPrimitiveType where
  | SDL_GPU_PRIMITIVETYPE_TRIANGLELIST
  | SDL_GPU_PRIMITIVETYPE_TRIANGLESTRIP
  | SDL_GPU_PRIMITIVETYPE_LINELIST
  | SDL_GPU_PRIMITIVETYPE_LINESTRIP
  | SDL_GPU_PRIMITIVETYPE_POINTLIST
  deriving DecidableEq, Repr

/-- Rasterizer fill modes. -/
inductive SDL_GPUFillMode where
  | SDL_GPU_FILLMODE_FILL
  | SDL_GPU_FILLMODE_LINE
  deriving DecidableEq, Repr

/-- Rasterizer cull modes. -/
inductive SDL_GPUCullMode where
  | SDL_GPU_CULLMODE_NONE
  | SDL_GPU_CULLMODE_FRONT
  | SDL_GPU_CULLMODE_BACK
  deriving DecidableEq, Repr

/-- Winding of front faces. -/
inductive SDL_GPUFrontFace where
  | SDL_GPU_FRONTFACE_COUNTER_CLOCKWISE
  | SDL_GPU_FRONTFACE_CLOCKWISE
  deriving DecidableEq, Repr

/-- Comparison operators of the depth test. -/
inductive SDL_GPUCompareOp where
  | SDL_GPU_COMPAREOP_INVALID
  | SDL_GPU_COMPAREOP_ALWAYS
  deriving DecidableEq, Repr

/-- Blend factors. -/
inductive SDL_GPUBlendFactor where
  | SDL_GPU_BLENDFACTOR_INVALID
  | SDL_GPU_BLENDFACTOR_ZERO
  | SDL_GPU_BLENDFACTOR_ONE
  deriving DecidableEq, Repr

/-- Blend operators. -/
inductive SDL_GPUBlendOp where
  | SDL_GPU_BLENDOP_INVALID
  | SDL_GPU_BLENDOP_ADD
  deriving DecidableEq, Repr

/-- Texture formats named in the source. -/
inductive SDL_GPUTextureFormat where
  | SDL_GPU_TEXTUREFORMAT_INVALID
  | SDL_GPU_TEXTUREFORMAT_R8G8B8A8_UNORM
  deriving DecidableEq, Repr

/-- Load operations of a colour target. -/
inductive SDL_GPULoadOp where
  | SDL_GPU_LOADOP_LOAD
  | SDL_GPU_LOADOP_CLEAR
  | SDL_GPU_LOADOP_DONT_CARE
  deriving DecidableEq, Repr

/-- Store operations of a colour target. -/
inductive SDL_GPUStoreOp where
  | SDL_GPU_STOREOP_STORE
  | SDL_GPU_STOREOP_DONT_CARE
  deriving DecidableEq, Repr

/-- Descriptor passed to `SDL_CreateGPUComputePipeline`. -/
structure SDL_GPUComputePipelineCreateInfo where
  code_size : Nat
  code : Option (List Nat)
  entrypoint : String
  format : SDL_GPUShaderFormat
  num_samplers : Nat
  num_readonly_storage_textures : Nat
  num_readonly_storage_buffers : Nat
  num_readwrite_storage_textures : Nat
  num_readwrite_storage_buffers : Nat
  num_uniform_buffers : Nat
  threadcount_x : Nat
  threadcount_y : Nat
  threadcount_z : Nat
  props : Nat
  deriving DecidableEq, Repr

/-- Descriptor passed to `SDL_CreateGPUShader`. -/
structure SDL_GPUShaderCreateInfo where
  code : Option (List Nat)
  code_size : Nat
  entrypoint : String
  format : SDL_GPUShaderFormat
  stage : SDL_GPUShaderStage
  num_samplers : Nat
  num_storage_textures : Nat
  num_storage_buffers : Nat
  num_uniform_buffers : Nat
  deriving DecidableEq, Repr

/-- Blend state of a colour target.  Fields the source leaves out of the
designated initialiser are zero. -/
structure SDL_GPUColorTargetBlendState where
  src_color_blendfactor : SDL_GPUBlendFactor
  dst_color_blendfactor : SDL_GPUBlendFactor
  color_blend_op : SDL_GPUBlendOp
  src_alpha_blendfactor : SDL_GPUBlendFactor
  dst_alpha_blendfactor : SDL_GPUBlendFactor
  alpha_blend_op : SDL_GPUBlendOp
  color_write_mask : Nat
  enable_blend : Bool
  enable_color_write_mask : Bool
  deriving DecidableEq, Repr

/-- Description of one colour target of a graphics pipeline. -/
structure SDL_GPUColorTargetDescription where
  format : SDL_GPUTextureFormat
  blend_state : SDL_GPUColorTargetBlendState
  deriving DecidableEq, Repr

/-- Vertex input state; the two arrays are given by their element counts, a
`NULL` array being the count `0` with `none`. -/
structure SDL_GPUVertexInputState where
  vertex_buffer_descriptions : Option (List Nat)
  num_vertex_buffers : Nat
  vertex_attributes : Option (List Nat)
  num_vertex_attributes : Nat
  deriving DecidableEq, Repr

/-- Rasterizer state. -/
structure SDL_GPURasterizerState where
  fill_mode : SDL_GPUFillMode
  cull_mode : SDL_GPUCullMode
  front_face : SDL_GPUFrontFace
  depth_bias_constant_factor : F32
  depth_bias_clamp : F32
  depth_bias_slope_factor : F32
  enable_depth_bias : Bool
  enable_depth_clip : Bool
  deriving DecidableEq, Repr

/-- Depth and stencil state; the two stencil-op records are all-zero in the
source and are carried as the number `0`. -/
structure SDL_GPUDepthStencilState where
  enable_depth_test : Bool
  enable_depth_write : Bool
  enable_stencil_test : Bool
  compare_op : SDL_GPUCompareOp
  front_stencil_state : Nat
  back_stencil_state : Nat
  compare_mask : Nat
  write_mask : Nat
  deriving DecidableEq, Repr

/-- Multisample state. -/
structure SDL_GPUMultisampleState where
  sample_count : Nat
  deriving DecidableEq, Repr

/-- Render targets of a graphics pipeline. -/
structure SDL_GPUGraphicsPipelineTargetInfo where
  color_target_descriptions : List SDL_GPUColorTargetDescription
  num_color_targets : Nat
  depth_stencil_format : Nat
  has_depth_stencil_target : Bool
  deriving DecidableEq, Repr

/-- Descriptor passed to `SDL_CreateGPUGraphicsPipeline`. -/
structure SDL_GPUGraphicsPipelineCreateInfo where
  vertex_shader : Handle
  fragment_shader : Handle
  vertex_input_state : SDL_GPUVertexInputState
  primitive_type : SDL_GPUPrimitiveType
  rasterizer_state : SDL_GPURasterizerState
  depth_stencil_state : SDL_GPUDepthStencilState
  multisample_state : SDL_GPUMultisampleState
  target_info : SDL_GPUGraphicsPipelineTargetInfo
  deriving DecidableEq, Repr

/-- Descriptor passed to `SDL_CreateGPUBuffer`; `size` is in bytes. -/
structure SDL_GPUBufferCreateInfo where
  usage : List SDL_GPUBufferUsageFlag
  size : Nat
  deriving DecidableEq, Repr

/-- Descriptor passed to `SDL_CreateGPUTransferBuffer`; `size` is in bytes. -/
structure SDL_GPUTransferBufferCreateInfo where
  usage : SDL_GPUTransferBufferUsage
  size : Nat
  deriving DecidableEq, Repr

/-- One read-write storage buffer binding of a compute pass. -/
structure SDL_GPUStorageBufferReadWriteBinding where
  buffer : Handle
  cycle : Bool
  deriving DecidableEq, Repr

/-- Source of an upload: a transfer buffer and a byte offset. -/
structure SDL_GPUTransferBufferLocation where
  transfer_buffer : Handle
  offset : Nat
  deriving DecidableEq, Repr

/-- Destination of an upload: a buffer, a byte offset and a byte size. -/
structure SDL_GPUBufferRegion where
  buffer : Handle
  offset : Nat
  size : Nat
  deriving DecidableEq, Repr

/-- Colour target of a render pass. -/
structure SDL_GPUColorTargetInfo where
  texture : Handle
  cycle : Bool
  load_op : SDL_GPULoadOp
  store_op : SDL_GPUStoreOp
  clear_color : F32 × F32 × F32 × F32
  deriving DecidableEq, Repr

/-- Viewport of a render pass (six `float` fields). -/
structure SDL_GPUViewport where
  x : F32
  y : F32
  w : F32
  h : F32
  min_depth : F32
  max_depth : F32
  deriving DecidableEq, Repr

/-! ## Library calls -/

/-- One call into SDL, with its arguments and, where the program looks at it,
the value it returned (last argument `ret`).  `SDL_WaitForGPUIdle` belongs to
the interface of the library; no function of the program issues it. -/
inductive Call where
  | SDL_SetAppMetadata
  | srand
  | SDL_Init (ret : Bool)
  | SDL_CreateWindow (w h : Nat) (ret : Handle)
  | SDL_CreateGPUDevice (ret : Handle)
  | SDL_GetGPUDeviceDriver (device : Handle)
  | SDL_ClaimWindowForGPUDevice (device window : Handle) (ret : Bool)
  | SDL_CreateGPUComputePipeline (device : Handle)
      (info : SDL_GPUComputePipelineCreateInfo) (ret : Handle)
  | SDL_CreateGPUShader (device : Handle) (info : SDL_GPUShaderCreateInfo) (ret : Handle)
  | SDL_CreateGPUGraphicsPipeline (device : Handle)
      (info : SDL_GPUGraphicsPipelineCreateInfo) (ret : Handle)
  | SDL_CreateGPUBuffer (device : Handle) (info : SDL_GPUBufferCreateInfo) (ret : Handle)
  | SDL_CreateGPUTransferBuffer (device : Handle)
      (info : SDL_GPUTransferBufferCreateInfo) (ret : Handle)
  | SDL_MapGPUTransferBuffer (device tx : Handle) (cycle : Bool) (ret : Bool)
  | SDL_memcpy (tx : Handle) (data : List F32) (size : Nat)
  | SDL_UnmapGPUTransferBuffer (device tx : Handle)
  | SDL_AcquireGPUCommandBuffer (device : Handle) (ret : Handle)
  | SDL_BeginGPUCopyPass (cmdBuf : Handle) (ret : Handle)
  | SDL_UploadToGPUBuffer (copyPass : Handle) (src : SDL_GPUTransferBufferLocation)
      (dst : SDL_GPUBufferRegion) (cycle : Bool)
  | SDL_EndGPUCopyPass (copyPass : Handle)
  | SDL_SubmitGPUCommandBuffer (cmdBuf : Handle)
  | SDL_BeginGPUComputePass (cmdBuf : Handle) (numTextureBindings : Nat)
      (rwBindings : List SDL_GPUStorageBufferReadWriteBinding) (ret : Handle)
  | SDL_BindGPUComputePipeline (computePass pipeline : Handle)
  | SDL_BindGPUComputeStorageBuffers (computePass : Handle) (firstSlot : Nat)
      (buffers : List Handle)
  | SDL_DispatchGPUCompute (computePass : Handle) (x y z : Nat)
  | SDL_EndGPUComputePass (computePass : Handle)
  | SDL_WaitAndAcquireGPUSwapchainTexture (cmdBuf window : Handle) (ret : Bool)
      (texture : Handle)
  | SDL_BeginGPURenderPass (cmdBuf : Handle) (targets : List SDL_GPUColorTargetInfo)
      (ret : Handle)
  | SDL_GetWindowSizeInPixels (window : Handle) (w h : Int)
  | SDL_SetGPUViewport (renderPass : Handle) (viewport : SDL_GPUViewport)
  | SDL_BindGPUGraphicsPipeline (renderPass pipeline : Handle)
  | SDL_BindGPUVertexStorageBuffers (renderPass : Handle) (firstSlot : Nat)
      (buffers : List Handle)
  | SDL_DrawGPUPrimitives (renderPass : Handle)
      (numVertices numInstances firstVertex firstInstance : Nat)
  | SDL_EndGPURenderPass (renderPass : Handle)
  | SDL_ReleaseGPUComputePipeline (device pipeline : Handle)
  | SDL_ReleaseGPUGraphicsPipeline (device pipeline : Handle)
  | SDL_ReleaseGPUShader (device shader : Handle)
  | SDL_ReleaseGPUBuffer (device buffer : Handle)
  | SDL_ReleaseGPUTransferBuffer (device tx : Handle)
  | SDL_ReleaseWindowFromGPUDevice (device window : Handle)
  | SDL_DestroyWindow (window : Handle)
  | SDL_DestroyGPUDevice (device : Handle)
  | SDL_WaitForGPUIdle (device : Handle)
  | SDL_free_context
  | SDL_Quit
  deriving DecidableEq, Repr

/-! ## `render.c`: `Render_Draw` and `Render_Destroy` -/

/-- What the library returns to one call of `Render_Draw`. -/
structure DrawEnv where
  /-- Return value of `SDL_WaitAndAcquireGPUSwapchainTexture`. -/
  acquireOk : Bool
  /-- The texture it stores; `0` when no image is available. -/
  swapchainTexture : Handle
  /-- Return value of `SDL_BeginGPURenderPass`. -/
  renderPass : Handle
  /-- Width stored by `SDL_GetWindowSizeInPixels`. -/
  viewportWidth : Int
  /-- Height stored by `SDL_GetWindowSizeInPixels`. -/
  viewportHeight : Int

/-- The colour target built by `Render_Draw` (render.c:153-157). -/
def drawTargetInfo (swapchainTexture : Handle) : SDL_GPUColorTargetInfo :=
  { texture := swapchainTexture
    cycle := true
    load_op := SDL_GPULoadOp.SDL_GPU_LOADOP_CLEAR
    store_op := SDL_GPUStoreOp.SDL_GPU_STOREOP_STORE
    clear_color := (f32_zero, f32_zero, f32_zero, f32_one) }

/-- The viewport built by `Render_Draw` (render.c:169-174). -/
def drawViewport (viewportWidth viewportHeight : Int) : SDL_GPUViewport :=
  { x := f32_zero
    y := f32_zero
    w := f32_of_int (SDL_max viewportWidth 1)
    h := f32_of_int (SDL_max viewportHeight 1)
    min_depth := f32_zero
    max_depth := f32_one }

/-- `Render_Draw` (render.c:139-187): its return value and the calls it makes. -/
def Render_Draw (state : RenderState) (cmdBuf window xCurr yCurr : Handle)
    (numParticles : Int) (env : DrawEnv) : Bool × List Call :=
  let t0 := [Call.SDL_WaitAndAcquireGPUSwapchainTexture cmdBuf window env.acquireOk
    env.swapchainTexture]
  if !env.acquireOk then (false, t0)
  else if env.swapchainTexture = 0 then (true, t0)
  else
    let targetInfo := drawTargetInfo env.swapchainTexture
    let t1 := t0 ++ [Call.SDL_BeginGPURenderPass cmdBuf [targetInfo] env.renderPass]
    if env.renderPass = 0 then (false, t1)
    else
      let viewport := drawViewport env.viewportWidth env.viewportHeight
      let buffers := [xCurr, yCurr]
      (true, t1 ++
        [ Call.SDL_GetWindowSizeInPixels window env.viewportWidth env.viewportHeight,
          Call.SDL_SetGPUViewport env.renderPass viewport,
          Call.SDL_BindGPUGraphicsPipeline env.renderPass state.pipeline,
          Call.SDL_BindGPUVertexStorageBuffers env.renderPass 0 buffers,
          Call.SDL_DrawGPUPrimitives env.renderPass (toUint32 numParticles) 1 0 0,
          Call.SDL_EndGPURenderPass env.renderPass ])

/-- `Render_Destroy` (render.c:124-137).  The argument `state` is a pointer
that may be `NULL` (`none`).  The result is the calls made together with the
record the pointer refers to after the call: the function writes no field. -/
def Render_Destroy (state : Option RenderState) (device : Handle) :
    Option RenderState × List Call :=
  match state with
  | none => (none, [])
  | some st =>
    if device = 0 then (some st, [])
    else
      (some st,
        (if st.pipeline ≠ 0 then [Call.SDL_ReleaseGPUGraphicsPipeline device st.pipeline]
          else []) ++
        (if st.vertexShader ≠ 0 then [Call.SDL_ReleaseGPUShader device st.vertexShader]
          else []) ++
        (if st.fragmentShader ≠ 0 then [Call.SDL_ReleaseGPUShader device st.fragmentShader]
          else []))

/-! ## `main.c`: `SDL_AppIterate` -/

/-- What the library returns during one call of `SDL_AppIterate`. -/
structure FrameEnv where
  /-- Return value of `SDL_AcquireGPUCommandBuffer`. -/
  cmdBuf : Handle
  /-- Return value of `SDL_BeginGPUComputePass`. -/
  computePass : Handle
  /-- Results of the calls made inside `Render_Draw`. -/
  draw : DrawEnv

/-- The expression `(Uint32)((context->numParticles + 63) / 64)` (main.c:496):
`int` addition, `int` division truncating toward zero, conversion to `Uint32`. -/
def groupCountX (numParticles : Int) : Nat :=
  toUint32 (Int.tdiv (wrapInt32 (numParticles + 63)) 64)

/-- The array `rwBindings` of `SDL_AppIterate` (main.c:497-504). -/
def rwBindings (context : AppContext) : List SDL_GPUStorageBufferReadWriteBinding :=
  [ { buffer := context.xCurrBuffer, cycle := false },
    { buffer := context.yCurrBuffer, cycle := false },
    { buffer := context.xPrevBuffer, cycle := false },
    { buffer := context.yPrevBuffer, cycle := false },
    { buffer := context.massBuffer, cycle := false },
    { buffer := context.densityBuffer, cycle := false } ]

/-- The array `computeBuffers` of `SDL_AppIterate` (main.c:514-516). -/
def computeBuffers (context : AppContext) : List Handle :=
  [ context.xCurrBuffer, context.yCurrBuffer, context.xPrevBuffer,
    context.yPrevBuffer, context.massBuffer, context.densityBuffer ]

/-- `SDL_AppIterate` (main.c:477-536): its return value and the calls it makes.
The context is only read. -/
def SDL_AppIterate (context : AppContext) (env : FrameEnv) : SDL_AppResult × List Call :=
  let cmdBuf := env.cmdBuf
  let t0 := [Call.SDL_AcquireGPUCommandBuffer context.device cmdBuf]
  if cmdBuf = 0 then (SDL_AppResult.SDL_APP_FAILURE, t0)
  else
    let computePass := env.computePass
    let t1 := t0 ++
      [Call.SDL_BeginGPUComputePass cmdBuf 0 (rwBindings context) computePass]
    if computePass = 0 then (SDL_AppResult.SDL_APP_FAILURE, t1)
    else
      let t2 := t1 ++
        [ Call.SDL_BindGPUComputePipeline computePass context.computePipeline,
          Call.SDL_BindGPUComputeStorageBuffers computePass 0 (computeBuffers context),
          Call.SDL_DispatchGPUCompute computePass (groupCountX context.numParticles) 1 1,
          Call.SDL_EndGPUComputePass computePass ]
      let drawn := Render_Draw context.render cmdBuf context.window context.xCurrBuffer
        context.yCurrBuffer context.numParticles env.draw
      if !drawn.1 then (SDL_AppResult.SDL_APP_FAILURE, t2 ++ drawn.2)
      else
        (SDL_AppResult.SDL_APP_CONTINUE,
          t2 ++ drawn.2 ++ [Call.SDL_SubmitGPUCommandBuffer cmdBuf])

/-! ## `main.c`: `SDL_AppQuit` -/

/-- `SDL_AppQuit` (main.c:561-606): the calls it makes.  The argument is the
pointer `appState`, `none` for `NULL`. -/
def SDL_AppQuit (appState : Option AppContext) : List Call :=
  (match appState with
   | none => []
   | some context =>
     (if context.device ≠ 0 then
        (if context.computePipeline ≠ 0 then
           [Call.SDL_ReleaseGPUComputePipeline context.device context.computePipeline]
         else []) ++
        (Render_Destroy (some context.render) context.device).2 ++
        (if context.xCurrBuffer ≠ 0 then
           [Call.SDL_ReleaseGPUBuffer context.device context.xCurrBuffer] else []) ++
        (if context.yCurrBuffer ≠ 0 then
           [Call.SDL_ReleaseGPUBuffer context.device context.yCurrBuffer] else []) ++
        (if context.xPrevBuffer ≠ 0 then
           [Call.SDL_ReleaseGPUBuffer context.device context.xPrevBuffer] else []) ++
        (if context.yPrevBuffer ≠ 0 then
           [Call.SDL_ReleaseGPUBuffer context.device context.yPrevBuffer] else []) ++
        (if context.massBuffer ≠ 0 then
           [Call.SDL_ReleaseGPUBuffer context.device context.massBuffer] else []) ++
        (if context.densityBuffer ≠ 0 then
           [Call.SDL_ReleaseGPUBuffer context.device context.densityBuffer] else []) ++
        (if context.window ≠ 0 then
           [ Call.SDL_ReleaseWindowFromGPUDevice context.device context.window,
             Call.SDL_DestroyWindow context.window ]
         else []) ++
        [Call.SDL_DestroyGPUDevice context.device]
      else []) ++
     [Call.SDL_free_context]) ++
  [Call.SDL_Quit]

/-! ## `shader_utils.c`: `LoadShaderFile` -/

/-- What the C library returns to one call of `LoadShaderFile` on a path. -/
structure FileEnv where
  /-- Whether `fopen` returns a stream. -/
  fopenOk : Bool
  /-- Return value of `fseek(file, 0, SEEK_END)`. -/
  seekEnd : Int
  /-- Return value of `ftell`. -/
  tell : Int
  /-- Return value of `fseek(file, 0, SEEK_SET)`. -/
  seekSet : Int
  /-- Whether `SDL_malloc` returns a block. -/
  mallocOk : Bool
  /-- Bytes of the file, in order. -/
  contents : List Nat
  /-- Number of bytes after which `fread` stops early (error or end of data). -/
  readLimit : Nat

/-- `LoadShaderFile` (shader_utils.c:5-49).  The two output parameters are
passed as their values before the call and returned as their values after it. -/
def LoadShaderFile (env : FileEnv) (outBuffer : Option (List Nat)) (outSize : Nat) :
    Bool × Option (List Nat) × Nat :=
  if !env.fopenOk then (false, outBuffer, outSize)
  else if env.seekEnd ≠ 0 then (false, outBuffer, outSize)
  else
    let length := env.tell
    if length < 0 then (false, outBuffer, outSize)
    else if env.seekSet ≠ 0 then (false, outBuffer, outSize)
    else if !env.mallocOk then (false, outBuffer, outSize)
    else
      let got := (env.contents.take env.readLimit).take length.toNat
      let read := got.length
      if read ≠ length.toNat then (false, outBuffer, outSize)
      else (true, some (got ++ [0]), length.toNat)

/-! ## `render.c`: `Render_Init` -/

/-- What the library returns during one call of `Render_Init`. -/
structure RenderInitEnv where
  /-- Outcome of the file operations, per path. -/
  fs : String → FileEnv
  /-- Return value of the first `SDL_CreateGPUShader`. -/
  vertexShader : Handle
  /-- Return value of the second `SDL_CreateGPUShader`. -/
  fragmentShader : Handle
  /-- Return value of `SDL_CreateGPUGraphicsPipeline`. -/
  pipeline : Handle

/-- The record `vertShaderCreateInfo` (render.c:14-24). -/
def vertShaderCreateInfo (vertCode : Option (List Nat)) (vertSize : Nat)
    (shaderFormat : SDL_GPUShaderFormat) : SDL_GPUShaderCreateInfo :=
  { code := vertCode
    code_size := vertSize
    entrypoint := "mainVS"
    format := shaderFormat
    stage := SDL_GPUShaderStage.SDL_GPU_SHADERSTAGE_VERTEX
    num_samplers := 0
    num_storage_textures := 0
    num_storage_buffers := 7
    num_uniform_buffers := 0 }

/-- The record `fragShaderCreateInfo` (render.c:42-51). -/
def fragShaderCreateInfo (fragCode : Option (List Nat)) (fragSize : Nat)
    (shaderFormat : SDL_GPUShaderFormat) : SDL_GPUShaderCreateInfo :=
  { code := fragCode
    code_size := fragSize
    entrypoint := "mainPS"
    format := shaderFormat
    stage := SDL_GPUShaderStage.SDL_GPU_SHADERSTAGE_FRAGMENT
    num_samplers := 0
    num_storage_textures := 0
    num_storage_buffers := 0
    num_uniform_buffers := 0 }

/-- The record `colorTargetDesc` (render.c:63-70). -/
def colorTargetDesc : SDL_GPUColorTargetDescription :=
  { format := SDL_GPUTextureFormat.SDL_GPU_TEXTUREFORMAT_R8G8B8A8_UNORM
    blend_state :=
      { src_color_blendfactor := SDL_GPUBlendFactor.SDL_GPU_BLENDFACTOR_ONE
        dst_color_blendfactor := SDL_GPUBlendFactor.SDL_GPU_BLENDFACTOR_ZERO
        color_blend_op := SDL_GPUBlendOp.SDL_GPU_BLENDOP_ADD
        src_alpha_blendfactor := SDL_GPUBlendFactor.SDL_GPU_BLENDFACTOR_ONE
        dst_alpha_blendfactor := SDL_GPUBlendFactor.SDL_GPU_BLENDFACTOR_ZERO
        alpha_blend_op := SDL_GPUBlendOp.SDL_GPU_BLENDOP_ADD
        color_write_mask := 0
        enable_blend := false
        enable_color_write_mask := false } }

/-- The record `pipelineCreateInfo` (render.c:72-106). -/
def pipelineCreateInfo (vertexShader fragmentShader : Handle) :
    SDL_GPUGraphicsPipelineCreateInfo :=
  { vertex_shader := vertexShader
    fragment_shader := fragmentShader
    vertex_input_state :=
      { vertex_buffer_descriptions := none
        num_vertex_buffers := 0
        vertex_attributes := none
        num_vertex_attributes := 0 }
    primitive_type := SDL_GPUPrimitiveType.SDL_GPU_PRIMITIVETYPE_POINTLIST
    rasterizer_state :=
      { fill_mode := SDL_GPUFillMode.SDL_GPU_FILLMODE_FILL
        cull_mode := SDL_GPUCullMode.SDL_GPU_CULLMODE_NONE
        front_face := SDL_GPUFrontFace.SDL_GPU_FRONTFACE_COUNTER_CLOCKWISE
        depth_bias_constant_factor := f32_zero
        depth_bias_clamp := f32_zero
        depth_bias_slope_factor := f32_zero
        enable_depth_bias := false
        enable_depth_clip := true }
    depth_stencil_state :=
      { enable_depth_test := false
        enable_depth_write := false
        enable_stencil_test := false
        compare_op := SDL_GPUCompareOp.SDL_GPU_COMPAREOP_ALWAYS
        front_stencil_state := 0
        back_stencil_state := 0
        compare_mask := 0
        write_mask := 0 }
    multisample_state := { sample_count := 1 }
    target_info :=
      { color_target_descriptions := [colorTargetDesc]
        num_color_targets := 1
        depth_stencil_format := 0
        has_depth_stencil_target := false } }

/-- `Render_Init` (render.c:5-122): return value, the record `*state` after the
call, and the calls made. -/
def Render_Init (state : RenderState) (device : Handle)
    (shaderFormat : SDL_GPUShaderFormat) (vertexShaderPath fragmentShaderPath : String)
    (env : RenderInitEnv) : Bool × RenderState × List Call :=
  let vert := LoadShaderFile (env.fs vertexShaderPath) none 0
  if !vert.1 then (false, state, [])
  else
    let vertexShader := env.vertexShader
    let t0 := [Call.SDL_CreateGPUShader device
      (vertShaderCreateInfo vert.2.1 vert.2.2 shaderFormat) vertexShader]
    if vertexShader = 0 then (false, state, t0)
    else
      let frag := LoadShaderFile (env.fs fragmentShaderPath) none 0
      if !frag.1 then (false, state, t0 ++ [Call.SDL_ReleaseGPUShader device vertexShader])
      else
        let fragmentShader := env.fragmentShader
        let t1 := t0 ++ [Call.SDL_CreateGPUShader device
          (fragShaderCreateInfo frag.2.1 frag.2.2 shaderFormat) fragmentShader]
        if fragmentShader = 0 then
          (false, state, t1 ++ [Call.SDL_ReleaseGPUShader device vertexShader])
        else
          let pipeline := env.pipeline
          let t2 := t1 ++ [Call.SDL_CreateGPUGraphicsPipeline device
            (pipelineCreateInfo vertexShader fragmentShader) pipeline]
          if pipeline = 0 then
            (false, state, t2 ++
              [ Call.SDL_ReleaseGPUShader device vertexShader,
                Call.SDL_ReleaseGPUShader device fragmentShader ])
          else
            (true,
              { vertexShader := vertexShader
                fragmentShader := fragmentShader
                pipeline := pipeline },
              t2)

/-! ## `main.c`: `SDL_AppInit` -/

/-- The four position values the loop body of `SDL_AppInit` (main.c:203-221)
computes for one particle from `rand()` and the drawable size.  The
floating-point expressions themselves are not evaluated by the embedding;
their results are supplied by the environment. -/
structure ParticleSeed where
  xCurr : F32
  yCurr : F32
  xPrev : F32
  yPrev : F32

/-- What the library returns during one call of `SDL_AppInit`. -/
structure InitEnv where
  /-- Return value of `SDL_Init`. -/
  sdlInitOk : Bool
  /-- Return value of `SDL_CreateWindow`. -/
  window : Handle
  /-- Return value of `SDL_CreateGPUDevice`. -/
  device : Handle
  /-- Return value of `SDL_GetGPUDeviceDriver`; `none` is `NULL`. -/
  driverName : Option String
  /-- Return value of `SDL_ClaimWindowForGPUDevice`. -/
  claimOk : Bool
  /-- Outcome of the file operations, per path. -/
  fs : String → FileEnv
  /-- Return value of `SDL_CreateGPUComputePipeline`. -/
  computePipeline : Handle
  /-- Return values of the two `SDL_CreateGPUShader` calls of `Render_Init`. -/
  vertexShader : Handle
  fragmentShader : Handle
  /-- Return value of `SDL_CreateGPUGraphicsPipeline`. -/
  pipeline : Handle
  /-- Sizes stored by `SDL_GetWindowSizeInPixels`. -/
  drawableWidth : Int
  drawableHeight : Int
  /-- Whether each of the six `SDL_malloc` calls returns a block. -/
  mallocXCurr : Bool
  mallocYCurr : Bool
  mallocXPrev : Bool
  mallocYPrev : Bool
  mallocMass : Bool
  mallocDensity : Bool
  /-- Values computed by the loop body for particle `i`. -/
  particle : Nat → ParticleSeed
  /-- Return values of the six `SDL_CreateGPUBuffer` calls. -/
  xCurrBuffer : Handle
  yCurrBuffer : Handle
  xPrevBuffer : Handle
  yPrevBuffer : Handle
  massBuffer : Handle
  densityBuffer : Handle
  /-- Return values of the six `SDL_CreateGPUTransferBuffer` calls. -/
  txXCurr : Handle
  txYCurr : Handle
  txXPrev : Handle
  txYPrev : Handle
  txMass : Handle
  txDensity : Handle
  /-- Whether `SDL_MapGPUTransferBuffer` returns a mapping, per loop index. -/
  mapOk : Nat → Bool
  /-- Return value of `SDL_AcquireGPUCommandBuffer`. -/
  uploadCmdBuf : Handle
  /-- Return value of `SDL_BeginGPUCopyPass`. -/
  copyPass : Handle
  /-- Whether `SDL_calloc` returns a block for the context. -/
  contextAllocOk : Bool

/-- The constant `numParticles` of `SDL_AppInit` (main.c:175). -/
def numParticles : Int := 1024

/-- The C expression `sizeof(float)`. -/
def sizeof_float : Nat := 4

/-- The value `floatBufferSize` (main.c:178), a `size_t`. -/
def floatBufferSize : Nat := sizeof_float * numParticles.toNat

/-- The record `computeCreateInfo` (main.c:125-141). -/
def computeCreateInfo (compCode : Option (List Nat)) (compSize : Nat)
    (shaderFormat : SDL_GPUShaderFormat) : SDL_GPUComputePipelineCreateInfo :=
  { code_size := compSize
    code := compCode
    entrypoint := "mainCS"
    format := shaderFormat
    num_samplers := 0
    num_readonly_storage_textures := 0
    num_readonly_storage_buffers := 0
    num_readwrite_storage_textures := 0
    num_readwrite_storage_buffers := 6
    num_uniform_buffers := 0
    threadcount_x := 64
    threadcount_y := 1
    threadcount_z := 1
    props := 0 }

/-- The record `bufferCreateInfo` (main.c:223-227); its `size` field is a
`Uint32`. -/
def bufferCreateInfo : SDL_GPUBufferCreateInfo :=
  { usage :=
      [ SDL_GPUBufferUsageFlag.SDL_GPU_BUFFERUSAGE_GRAPHICS_STORAGE_READ,
        SDL_GPUBufferUsageFlag.SDL_GPU_BUFFERUSAGE_COMPUTE_STORAGE_READ,
        SDL_GPUBufferUsageFlag.SDL_GPU_BUFFERUSAGE_COMPUTE_STORAGE_WRITE ]
    size := floatBufferSize % 4294967296 }

/-- The descriptor of each staging buffer (main.c:258-281). -/
def transferCreateInfo : SDL_GPUTransferBufferCreateInfo :=
  { usage := SDL_GPUTransferBufferUsage.SDL_GPU_TRANSFERBUFFERUSAGE_UPLOAD
    size := floatBufferSize % 4294967296 }

/-- One element of the array `uploads` (main.c:310-318). -/
structure Upload where
  tx : Handle
  data : List F32
  gpuBuf : Handle

/-- The host arrays after the loop main.c:203-221: index `i` of each array
holds the value computed for particle `i`. -/
def hostXCurr (env : InitEnv) : List F32 :=
  (List.range numParticles.toNat).map (fun i => (env.particle i).xCurr)

/-- Host array `yCurr`. -/
def hostYCurr (env : InitEnv) : List F32 :=
  (List.range numParticles.toNat).map (fun i => (env.particle i).yCurr)

/-- Host array `xPrev`. -/
def hostXPrev (env : InitEnv) : List F32 :=
  (List.range numParticles.toNat).map (fun i => (env.particle i).xPrev)

/-- Host array `yPrev`. -/
def hostYPrev (env : InitEnv) : List F32 :=
  (List.range numParticles.toNat).map (fun i => (env.particle i).yPrev)

/-- Host array `mass`: every element is `1.0f`. -/
def hostMass : List F32 :=
  (List.range numParticles.toNat).map (fun _ => f32_one)

/-- Host array `density`: every element is `0.0f`. -/
def hostDensity : List F32 :=
  (List.range numParticles.toNat).map (fun _ => f32_zero)

/-- The array `uploads` (main.c:314-318). -/
def uploads (env : InitEnv) : List Upload :=
  [ { tx := env.txXCurr, data := hostXCurr env, gpuBuf := env.xCurrBuffer },
    { tx := env.txYCurr, data := hostYCurr env, gpuBuf := env.yCurrBuffer },
    { tx := env.txXPrev, data := hostXPrev env, gpuBuf := env.xPrevBuffer },
    { tx := env.txYPrev, data := hostYPrev env, gpuBuf := env.yPrevBuffer },
    { tx := env.txMass, data := hostMass, gpuBuf := env.massBuffer },
    { tx := env.txDensity, data := hostDensity, gpuBuf := env.densityBuffer } ]

/-- The mapping loop main.c:321-331, from index `i` on: the calls made and the
final value of `mappingFailed` contributed by these iterations. -/
def mapLoop (device : Handle) (mapOk : Nat → Bool) : Nat → List Upload → List Call × Bool
  | _, [] => ([], false)
  | i, u :: us =>
    let rest := mapLoop device mapOk (i + 1) us
    if mapOk i then
      (Call.SDL_MapGPUTransferBuffer device u.tx false true ::
        Call.SDL_memcpy u.tx u.data floatBufferSize ::
        Call.SDL_UnmapGPUTransferBuffer device u.tx :: rest.1, rest.2)
    else
      (Call.SDL_MapGPUTransferBuffer device u.tx false false :: rest.1, true)

/-- The copy loop main.c:413-419. -/
def copyLoop (copyPass : Handle) (us : List Upload) : List Call :=
  us.map (fun u =>
    Call.SDL_UploadToGPUBuffer copyPass
      { transfer_buffer := u.tx, offset := 0 }
      { buffer := u.gpuBuf, offset := 0, size := floatBufferSize % 4294967296 }
      false)

/-- The six `SDL_ReleaseGPUTransferBuffer` calls that open the cleanup blocks
and close the successful upload (main.c:287-292 and its repetitions). -/
def releaseTransferBuffers (device : Handle) (env : InitEnv) : List Call :=
  [ Call.SDL_ReleaseGPUTransferBuffer device env.txXCurr,
    Call.SDL_ReleaseGPUTransferBuffer device env.txYCurr,
    Call.SDL_ReleaseGPUTransferBuffer device env.txXPrev,
    Call.SDL_ReleaseGPUTransferBuffer device env.txYPrev,
    Call.SDL_ReleaseGPUTransferBuffer device env.txMass,
    Call.SDL_ReleaseGPUTransferBuffer device env.txDensity ]

/-- The six `SDL_ReleaseGPUBuffer` calls of the cleanup blocks (main.c:240-245
and its repetitions). -/
def releaseBuffers (device : Handle) (env : InitEnv) : List Call :=
  [ Call.SDL_ReleaseGPUBuffer device env.xCurrBuffer,
    Call.SDL_ReleaseGPUBuffer device env.yCurrBuffer,
    Call.SDL_ReleaseGPUBuffer device env.xPrevBuffer,
    Call.SDL_ReleaseGPUBuffer device env.yPrevBuffer,
    Call.SDL_ReleaseGPUBuffer device env.massBuffer,
    Call.SDL_ReleaseGPUBuffer device env.densityBuffer ]

/-- Outcome of `SDL_AppInit`: return value, the pointer `*appState` after the
call, and the calls made. -/
structure InitOutcome where
  result : SDL_AppResult
  appState : Option AppContext
  trace : List Call

/-- `SDL_AppInit` (main.c:40-475).  `appState` is the value of `*appState`
before the call; it is overwritten only on the successful path. -/
def SDL_AppInit (appState : Option AppContext) (env : InitEnv) : InitOutcome :=
  let fail := fun (t : List Call) =>
    InitOutcome.mk SDL_AppResult.SDL_APP_FAILURE appState t
  let t0 := [Call.SDL_SetAppMetadata, Call.srand, Call.SDL_Init env.sdlInitOk]
  if !env.sdlInitOk then fail t0 else
  let window := env.window
  let t1 := t0 ++ [Call.SDL_CreateWindow 800 600 window]
  if window = 0 then fail t1 else
  let device := env.device
  let t2 := t1 ++ [Call.SDL_CreateGPUDevice device]
  if device = 0 then fail t2 else
  let useMSLShaders := decide (env.driverName = some "metal")
  let t3 := t2 ++
    [ Call.SDL_GetGPUDeviceDriver device,
      Call.SDL_ClaimWindowForGPUDevice device window env.claimOk ]
  if !env.claimOk then fail t3 else
  let vertexShaderPath :=
    if useMSLShaders then "assets/particles.vert.msl" else "assets/particles.vert.spv"
  let fragmentShaderPath :=
    if useMSLShaders then "assets/particles.frag.msl" else "assets/particles.frag.spv"
  let computeShaderPath :=
    if useMSLShaders then "assets/particles.comp.msl" else "assets/particles.comp.spv"
  let shaderFormat :=
    if useMSLShaders then SDL_GPUShaderFormat.SDL_GPU_SHADERFORMAT_MSL
    else SDL_GPUShaderFormat.SDL_GPU_SHADERFORMAT_SPIRV
  let comp := LoadShaderFile (env.fs computeShaderPath) none 0
  if !comp.1 then fail t3 else
  let computePipeline := env.computePipeline
  let t4 := t3 ++ [Call.SDL_CreateGPUComputePipeline device
    (computeCreateInfo comp.2.1 comp.2.2 shaderFormat) computePipeline]
  if computePipeline = 0 then fail t4 else
  let inited := Render_Init { vertexShader := 0, fragmentShader := 0, pipeline := 0 }
    device shaderFormat vertexShaderPath fragmentShaderPath
    { fs := env.fs, vertexShader := env.vertexShader,
      fragmentShader := env.fragmentShader, pipeline := env.pipeline }
  let render := inited.2.1
  let t5 := t4 ++ inited.2.2
  if !inited.1 then
    fail (t5 ++ [Call.SDL_ReleaseGPUComputePipeline device computePipeline])
  else
  let t6 := t5 ++
    [Call.SDL_GetWindowSizeInPixels window env.drawableWidth env.drawableHeight]
  let destroyRender := (Render_Destroy (some render) device).2
  let releasePipeline := [Call.SDL_ReleaseGPUComputePipeline device computePipeline]
  if !env.mallocXCurr || !env.mallocYCurr || !env.mallocXPrev || !env.mallocYPrev ||
      !env.mallocMass || !env.mallocDensity then
    fail (t6 ++ destroyRender ++ releasePipeline)
  else
  let t7 := t6 ++
    [ Call.SDL_CreateGPUBuffer device bufferCreateInfo env.xCurrBuffer,
      Call.SDL_CreateGPUBuffer device bufferCreateInfo env.yCurrBuffer,
      Call.SDL_CreateGPUBuffer device bufferCreateInfo env.xPrevBuffer,
      Call.SDL_CreateGPUBuffer device bufferCreateInfo env.yPrevBuffer,
      Call.SDL_CreateGPUBuffer device bufferCreateInfo env.massBuffer,
      Call.SDL_CreateGPUBuffer device bufferCreateInfo env.densityBuffer ]
  if env.xCurrBuffer = 0 ∨ env.yCurrBuffer = 0 ∨ env.xPrevBuffer = 0 ∨
      env.yPrevBuffer = 0 ∨ env.massBuffer = 0 ∨ env.densityBuffer = 0 then
    fail (t7 ++ releaseBuffers device env ++ destroyRender ++ releasePipeline)
  else
  let t8 := t7 ++
    [ Call.SDL_CreateGPUTransferBuffer device transferCreateInfo env.txXCurr,
      Call.SDL_CreateGPUTransferBuffer device transferCreateInfo env.txYCurr,
      Call.SDL_CreateGPUTransferBuffer device transferCreateInfo env.txXPrev,
      Call.SDL_CreateGPUTransferBuffer device transferCreateInfo env.txYPrev,
      Call.SDL_CreateGPUTransferBuffer device transferCreateInfo env.txMass,
      Call.SDL_CreateGPUTransferBuffer device transferCreateInfo env.txDensity ]
  let cleanup := releaseTransferBuffers device env ++ releaseBuffers device env ++
    destroyRender ++ releasePipeline
  if env.txXCurr = 0 ∨ env.txYCurr = 0 ∨ env.txXPrev = 0 ∨
      env.txYPrev = 0 ∨ env.txMass = 0 ∨ env.txDensity = 0 then
    fail (t8 ++ cleanup)
  else
  let mapping := mapLoop device env.mapOk 0 (uploads env)
  let t9 := t8 ++ mapping.1
  if mapping.2 then fail (t9 ++ cleanup) else
  let uploadCmdBuf := env.uploadCmdBuf
  let t10 := t9 ++ [Call.SDL_AcquireGPUCommandBuffer device uploadCmdBuf]
  if uploadCmdBuf = 0 then fail (t10 ++ cleanup) else
  let copyPass := env.copyPass
  let t11 := t10 ++ [Call.SDL_BeginGPUCopyPass uploadCmdBuf copyPass]
  if copyPass = 0 then
    fail (t11 ++ [Call.SDL_SubmitGPUCommandBuffer uploadCmdBuf] ++ cleanup)
  else
  let t12 := t11 ++ copyLoop copyPass (uploads env) ++
    [ Call.SDL_EndGPUCopyPass copyPass,
      Call.SDL_SubmitGPUCommandBuffer uploadCmdBuf ] ++
    releaseTransferBuffers device env
  if !env.contextAllocOk then
    fail (t12 ++ releaseBuffers device env ++ releasePipeline ++ destroyRender ++
      [ Call.SDL_ReleaseWindowFromGPUDevice device window,
        Call.SDL_DestroyWindow window,
        Call.SDL_DestroyGPUDevice device,
        Call.SDL_Quit ])
  else
    { result := SDL_AppResult.SDL_APP_CONTINUE
      appState := some
        { window := window
          device := device
          render := render
          computePipeline := computePipeline
          xCurrBuffer := env.xCurrBuffer
          yCurrBuffer := env.yCurrBuffer
          xPrevBuffer := env.xPrevBuffer
          yPrevBuffer := env.yPrevBuffer
          massBuffer := env.massBuffer
          densityBuffer := env.densityBuffer
          numParticles := numParticles }
      trace := t12 }

/-! ## Resource accounting over traces -/

/-- Kinds of device objects the program creates and releases. -/
inductive ResourceKind where
  | computePipeline
  | graphicsPipeline
  | shader
  | buffer
  | transferBuffer
  deriving DecidableEq, Repr

/-- A device object: its kind and its handle. -/
abbrev Resource := ResourceKind × Handle

/-- The device object a call creates, if the call is a creation. -/
def Call.created : Call → Option Resource
  | Call.SDL_CreateGPUComputePipeline _ _ ret => some (ResourceKind.computePipeline, ret)
  | Call.SDL_CreateGPUGraphicsPipeline _ _ ret => some (ResourceKind.graphicsPipeline, ret)
  | Call.SDL_CreateGPUShader _ _ ret => some (ResourceKind.shader, ret)
  | Call.SDL_CreateGPUBuffer _ _ ret => some (ResourceKind.buffer, ret)
  | Call.SDL_CreateGPUTransferBuffer _ _ ret => some (ResourceKind.transferBuffer, ret)
  | _ => none

/-- The device object a call releases, if the call is a release. -/
def Call.released : Call → Option Resource
  | Call.SDL_ReleaseGPUComputePipeline _ h => some (ResourceKind.computePipeline, h)
  | Call.SDL_ReleaseGPUGraphicsPipeline _ h => some (ResourceKind.graphicsPipeline, h)
  | Call.SDL_ReleaseGPUShader _ h => some (ResourceKind.shader, h)
  | Call.SDL_ReleaseGPUBuffer _ h => some (ResourceKind.buffer, h)
  | Call.SDL_ReleaseGPUTransferBuffer _ h => some (ResourceKind.transferBuffer, h)
  | _ => none

/-- Whether a resource is a real object (creation failed, or releasing `NULL`,
gives the handle `0`, and a release of `NULL` does nothing). -/
def Resource.live (r : Resource) : Bool := decide (r.2 ≠ 0)

/-- The objects a trace creates, in order, failed creations left out. -/
def createdIn (t : List Call) : List Resource :=
  (t.filterMap Call.created).filter Resource.live

/-- The objects a trace releases, in order, releases of `NULL` left out. -/
def releasedIn (t : List Call) : List Resource :=
  (t.filterMap Call.released).filter Resource.live

/-! ## Observations on traces -/

/-- Group counts `(x, y, z)` of the compute dispatches of a trace, in order. -/
def dispatches (t : List Call) : List (Nat × Nat × Nat) :=
  t.filterMap (fun c =>
    match c with
    | Call.SDL_DispatchGPUCompute _ x y z => some (x, y, z)
    | _ => none)

/-- Read-write binding arrays handed to the compute passes that began. -/
def rwBound (t : List Call) : List (List SDL_GPUStorageBufferReadWriteBinding) :=
  t.filterMap (fun c =>
    match c with
    | Call.SDL_BeginGPUComputePass _ _ bs ret => if ret ≠ 0 then some bs else none
    | _ => none)

/-- First slot and buffers of each `SDL_BindGPUComputeStorageBuffers` call. -/
def computeStorageBinds (t : List Call) : List (Nat × List Handle) :=
  t.filterMap (fun c =>
    match c with
    | Call.SDL_BindGPUComputeStorageBuffers _ first bs => some (first, bs)
    | _ => none)

/-- First slot and buffers of each `SDL_BindGPUVertexStorageBuffers` call. -/
def vertexStorageBinds (t : List Call) : List (Nat × List Handle) :=
  t.filterMap (fun c =>
    match c with
    | Call.SDL_BindGPUVertexStorageBuffers _ first bs => some (first, bs)
    | _ => none)

/-- Arguments `(vertices, instances, first vertex, first instance)` of each
draw call. -/
def draws (t : List Call) : List (Nat × Nat × Nat × Nat) :=
  t.filterMap (fun c =>
    match c with
    | Call.SDL_DrawGPUPrimitives _ nv ni fv fi => some (nv, ni, fv, fi)
    | _ => none)

/-- Pipelines bound by `SDL_BindGPUGraphicsPipeline`. -/
def graphicsPipelineBinds (t : List Call) : List Handle :=
  t.filterMap (fun c =>
    match c with
    | Call.SDL_BindGPUGraphicsPipeline _ p => some p
    | _ => none)

/-- Command buffers submitted, in order. -/
def submits (t : List Call) : List Handle :=
  t.filterMap (fun c =>
    match c with
    | Call.SDL_SubmitGPUCommandBuffer cb => some cb
    | _ => none)

/-- Whether a call is a compute dispatch. -/
def Call.isDispatch : Call → Bool
  | Call.SDL_DispatchGPUCompute _ _ _ _ => true
  | _ => false

/-- Whether a call records a storage-buffer binding: one of the two bind
calls, or a compute pass that began with read-write bindings. -/
def Call.isStorageBinding : Call → Bool
  | Call.SDL_BindGPUComputeStorageBuffers _ _ _ => true
  | Call.SDL_BindGPUVertexStorageBuffers _ _ _ => true
  | Call.SDL_BeginGPUComputePass _ _ _ ret => decide (ret ≠ 0)
  | _ => false

/-- Whether a call is a render-pass command (begin, state, bind, draw, end). -/
def Call.isRenderPassCommand : Call → Bool
  | Call.SDL_BeginGPURenderPass _ _ _ => true
  | Call.SDL_SetGPUViewport _ _ => true
  | Call.SDL_BindGPUGraphicsPipeline _ _ => true
  | Call.SDL_BindGPUVertexStorageBuffers _ _ _ => true
  | Call.SDL_DrawGPUPrimitives _ _ _ _ _ => true
  | Call.SDL_EndGPURenderPass _ => true
  | _ => false

/-- Whether a call submits a command buffer. -/
def Call.isSubmit : Call → Bool
  | Call.SDL_SubmitGPUCommandBuffer _ => true
  | _ => false

/-- The quotient `n / 64` rounded up, as the mathematical ceiling. -/
def ceilDiv64 (n : Int) : Int := Int.ceil ((n : ℚ) / 64)

/-! ## Sample inputs -/

/-- A fully populated context with the given particle count. -/
def sampleContext (n : Int) : AppContext :=
  { window := 1
    device := 2
    render := { vertexShader := 3, fragmentShader := 4, pipeline := 5 }
    computePipeline := 6
    xCurrBuffer := 7
    yCurrBuffer := 8
    xPrevBuffer := 9
    yPrevBuffer := 10
    massBuffer := 11
    densityBuffer := 12
    numParticles := n }

/-- A frame in which every library call succeeds and an image is available. -/
def sampleFrame : FrameEnv :=
  { cmdBuf := 20
    computePass := 21
    draw :=
      { acquireOk := true
        swapchainTexture := 22
        renderPass := 23
        viewportWidth := 800
        viewportHeight := 600 } }

/-- A frame in which the window yields no swapchain image. -/
def skippedFrame : FrameEnv :=
  { cmdBuf := 20
    computePass := 21
    draw :=
      { acquireOk := true
        swapchainTexture := 0
        renderPass := 0
        viewportWidth := 0
        viewportHeight := 0 } }

/-- A shader file of three bytes that opens and reads in full. -/
def sampleFile : FileEnv :=
  { fopenOk := true
    seekEnd := 0
    tell := 3
    seekSet := 0
    mallocOk := true
    contents := [7, 8, 9]
    readLimit := 3 }

/-- A `Render_Init` call in which every library call succeeds. -/
def sampleRenderInit : RenderInitEnv :=
  { fs := fun _ => sampleFile
    vertexShader := 3
    fragmentShader := 4
    pipeline := 5 }

/-- Path of the vertex shader in the SPIR-V configuration. -/
def sampleVertexPath : String := "assets/particles.vert.spv"

/-- Path of the fragment shader in the SPIR-V configuration. -/
def sampleFragmentPath : String := "assets/particles.frag.spv"

/-- A draw in which every library call succeeds and an image is available. -/
def sampleDraw : DrawEnv := sampleFrame.draw

/-- A frame whose command buffer cannot be acquired. -/
def noCommandBufferFrame : FrameEnv :=
  { cmdBuf := 0
    computePass := 0
    draw := sampleFrame.draw }

/-! ## Device memory as written by a trace -/

/-- Contents of the transfer (staging) buffers and of the GPU buffers, as
arrays of 32-bit floats, per handle. -/
structure DeviceMemory where
  staging : Handle → List F32
  buffers : Handle → List F32

/-- Overwrite `dst` from element `off` on with `src`, keeping the length of
`dst`. -/
def writeAt (dst : List F32) (off : Nat) (src : List F32) : List F32 :=
  (dst.take off ++ src ++ dst.drop (off + src.length)).take dst.length

/-- Effect of one call on the device memory.  A created buffer holds
`size / sizeof(float)` elements (its unspecified first contents are shown as
zeros); `SDL_memcpy` into a mapped transfer buffer writes `size` bytes from
the start; an upload copies `dst.size` bytes from the transfer buffer at
`src.offset` to the buffer at `dst.offset`.  No other call of the program
writes these memories on the host side. -/
def DeviceMemory.step (m : DeviceMemory) : Call → DeviceMemory
  | Call.SDL_CreateGPUBuffer _ info ret =>
    if ret = 0 then m
    else
      DeviceMemory.mk m.staging
        (Function.update m.buffers ret
          (List.replicate (info.size / sizeof_float) f32_zero))
  | Call.SDL_CreateGPUTransferBuffer _ info ret =>
    if ret = 0 then m
    else
      DeviceMemory.mk
        (Function.update m.staging ret
          (List.replicate (info.size / sizeof_float) f32_zero))
        m.buffers
  | Call.SDL_memcpy tx data size =>
    DeviceMemory.mk
      (Function.update m.staging tx
        (writeAt (m.staging tx) 0 (data.take (size / sizeof_float))))
      m.buffers
  | Call.SDL_UploadToGPUBuffer _ src dst _ =>
    DeviceMemory.mk m.staging
      (Function.update m.buffers dst.buffer
        (writeAt (m.buffers dst.buffer) (dst.offset / sizeof_float)
          (((m.staging src.transfer_buffer).drop (src.offset / sizeof_float)).take
            (dst.size / sizeof_float))))
  | _ => m

/-- Device memory after the calls of a trace, in order. -/
def DeviceMemory.run (m : DeviceMemory) (t : List Call) : DeviceMemory :=
  t.foldl DeviceMemory.step m

/-- Transfer buffer, source array and byte count of each `SDL_memcpy`. -/
def memcpys (t : List Call) : List (Handle × List F32 × Nat) :=
  t.filterMap (fun c =>
    match c with
    | Call.SDL_memcpy tx data size => some (tx, data, size)
    | _ => none)

/-- Source and destination of each `SDL_UploadToGPUBuffer`. -/
def uploadCalls (t : List Call) :
    List (SDL_GPUTransferBufferLocation × SDL_GPUBufferRegion) :=
  t.filterMap (fun c =>
    match c with
    | Call.SDL_UploadToGPUBuffer _ src dst _ => some (src, dst)
    | _ => none)

/-- A device memory with nothing stored. -/
def emptyMemory : DeviceMemory :=
  { staging := fun _ => []
    buffers := fun _ => [] }

/-- A run of `SDL_AppInit` in which every library call succeeds and returns a
fresh handle. -/
def sampleInit : InitEnv :=
  { sdlInitOk := true
    window := 1
    device := 2
    driverName := some "vulkan"
    claimOk := true
    fs := fun _ => sampleFile
    computePipeline := 6
    vertexShader := 3
    fragmentShader := 4
    pipeline := 5
    drawableWidth := 800
    drawableHeight := 600
    mallocXCurr := true
    mallocYCurr := true
    mallocXPrev := true
    mallocYPrev := true
    mallocMass := true
    mallocDensity := true
    particle := fun i => { xCurr := 4 * i + 1, yCurr := 4 * i + 2, xPrev := 4 * i + 3,
                           yPrev := 4 * i + 4 }
    xCurrBuffer := 7
    yCurrBuffer := 8
    xPrevBuffer := 9
    yPrevBuffer := 10
    massBuffer := 11
    densityBuffer := 12
    txXCurr := 13
    txYCurr := 14
    txXPrev := 15
    txYPrev := 16
    txMass := 17
    txDensity := 18
    mapOk := fun _ => true
    uploadCmdBuf := 19
    copyPass := 20
    contextAllocOk := true }

/-- The sample run, except that the sixth `SDL_CreateGPUBuffer` fails. -/
def densityBufferFails : InitEnv := { sampleInit with densityBuffer := 0 }

/-! ## Handles held by the teardown states -/

/-- The release calls of a trace, as the objects they name, `NULL` included. -/
def releaseCalls (t : List Call) : List Resource :=
  t.filterMap Call.released

/-- The three handle fields of a `RenderState`, in the order in which
`Render_Destroy` looks at them. -/
def RenderState.resources (st : RenderState) : List Resource :=
  [ (ResourceKind.graphicsPipeline, st.pipeline),
    (ResourceKind.shader, st.vertexShader),
    (ResourceKind.shader, st.fragmentShader) ]

/-- The pipeline, shader and buffer handle fields of an `AppContext`, in the
order in which `SDL_AppQuit` looks at them. -/
def AppContext.resources (context : AppContext) : List Resource :=
  (ResourceKind.computePipeline, context.computePipeline) ::
    context.render.resources ++
  [ (ResourceKind.buffer, context.xCurrBuffer),
    (ResourceKind.buffer, context.yCurrBuffer),
    (ResourceKind.buffer, context.xPrevBuffer),
    (ResourceKind.buffer, context.yPrevBuffer),
    (ResourceKind.buffer, context.massBuffer),
    (ResourceKind.buffer, context.densityBuffer) ]

/-- A render state holding three live handles. -/
def sampleState : RenderState :=
  { vertexShader := 3, fragmentShader := 4, pipeline := 5 }

/-! ## `main.c`: `SDL_AppEvent`, and the context across callbacks -/

/-- Event types the program distinguishes; every other type is
`SDL_EVENT_OTHER`. -/
inductive SDL_EventType where
  | SDL_EVENT_QUIT
  | SDL_EVENT_KEY_DOWN
  | SDL_EVENT_OTHER
  deriving DecidableEq, Repr

/-- The fields of `SDL_Event` the program reads: `type` and `key.key`. -/
structure SDL_Event where
  type : SDL_EventType
  key : Nat
  deriving DecidableEq, Repr

/-- The key code `SDLK_ESCAPE`. -/
def SDLK_ESCAPE : Nat := 0x1B

/-- `SDL_AppEvent` (main.c:538-559): its return value and the record behind
`appState` after the call.  The function casts `appState` to `void` and never
dereferences it. -/
def SDL_AppEvent (appState : Option AppContext) (event : SDL_Event) :
    SDL_AppResult × Option AppContext :=
  if event.type = SDL_EventType.SDL_EVENT_QUIT then
    (SDL_AppResult.SDL_APP_SUCCESS, appState)
  else if event.type = SDL_EventType.SDL_EVENT_KEY_DOWN ∧ event.key = SDLK_ESCAPE then
    (SDL_AppResult.SDL_APP_SUCCESS, appState)
  else (SDL_AppResult.SDL_APP_CONTINUE, appState)

/-- The record `*context` after a call of `SDL_AppIterate` (main.c:477-536):
every occurrence of `context->` in the function is a read, and the record is
handed to `Render_Draw` field by field, by value (the render state by a
pointer `Render_Draw` only reads). -/
def SDL_AppIterate_context (context : AppContext) (_env : FrameEnv) : AppContext :=
  context

/-! ## Further observations on traces -/

/-- Whether a call waits for the device to be idle. -/
def Call.isIdleWait : Call → Bool
  | Call.SDL_WaitForGPUIdle _ => true
  | _ => false

/-- Whether a call releases a particle buffer or a pipeline. -/
def Call.isBufferOrPipelineRelease : Call → Bool
  | Call.SDL_ReleaseGPUBuffer _ _ => true
  | Call.SDL_ReleaseGPUComputePipeline _ _ => true
  | Call.SDL_ReleaseGPUGraphicsPipeline _ _ => true
  | _ => false

/-- Viewports set by a trace, in order. -/
def viewports (t : List Call) : List SDL_GPUViewport :=
  t.filterMap (fun c =>
    match c with
    | Call.SDL_SetGPUViewport _ v => some v
    | _ => none)

/-- Colour targets of the render passes a trace begins. -/
def renderTargets (t : List Call) : List (List SDL_GPUColorTargetInfo) :=
  t.filterMap (fun c =>
    match c with
    | Call.SDL_BeginGPURenderPass _ targets _ => some targets
    | _ => none)

/-- Descriptions passed to `SDL_CreateGPUGraphicsPipeline`. -/
def graphicsPipelineInfos (t : List Call) : List SDL_GPUGraphicsPipelineCreateInfo :=
  t.filterMap (fun c =>
    match c with
    | Call.SDL_CreateGPUGraphicsPipeline _ info _ => some info
    | _ => none)

/-- Descriptions passed to `SDL_CreateGPUBuffer`. -/
def bufferInfos (t : List Call) : List SDL_GPUBufferCreateInfo :=
  t.filterMap (fun c =>
    match c with
    | Call.SDL_CreateGPUBuffer _ info _ => some info
    | _ => none)

/-- Descriptions passed to `SDL_CreateGPUTransferBuffer`. -/
def transferInfos (t : List Call) : List SDL_GPUTransferBufferCreateInfo :=
  t.filterMap (fun c =>
    match c with
    | Call.SDL_CreateGPUTransferBuffer _ info _ => some info
    | _ => none)

/-- Whether a call makes the device write the buffer `b`: an upload into it,
or a compute pass that begins with `b` among its read-write bindings.  Vertex
storage bindings and draw calls only read. -/
def Call.writesBuffer (b : Handle) : Call → Bool
  | Call.SDL_UploadToGPUBuffer _ _ dst _ => decide (dst.buffer = b)
  | Call.SDL_BeginGPUComputePass _ _ bs ret =>
    decide (ret ≠ 0) && (bs.map (fun x => x.buffer)).contains b
  | _ => false

/-- The device objects created by a trace that are not transfer buffers:
pipelines, shaders and buffers, in creation order. -/
def keptCreations (t : List Call) : List Resource :=
  (createdIn t).filter (fun r => decide (r.1 ≠ ResourceKind.transferBuffer))

/-- The enumeration `SDL_GPUSampleCount` of the SDL3 header `SDL_gpu.h`, which
declares its four enumerators in this order without explicit values. -/
inductive SDL_GPUSampleCount where
  | SDL_GPU_SAMPLECOUNT_1
  | SDL_GPU_SAMPLECOUNT_2
  | SDL_GPU_SAMPLECOUNT_4
  | SDL_GPU_SAMPLECOUNT_8
  deriving DecidableEq, Repr

/-- The enumerator an integer stored in a `SDL_GPUSampleCount` field stands
for: C numbers enumerators without explicit values 0, 1, 2, ... in declaration
order. -/
def SDL_GPUSampleCount.ofValue : Nat → Option SDL_GPUSampleCount
  | 0 => some SDL_GPUSampleCount.SDL_GPU_SAMPLECOUNT_1
  | 1 => some SDL_GPUSampleCount.SDL_GPU_SAMPLECOUNT_2
  | 2 => some SDL_GPUSampleCount.SDL_GPU_SAMPLECOUNT_4
  | 3 => some SDL_GPUSampleCount.SDL_GPU_SAMPLECOUNT_8
  | _ => none

/-- Number of samples per pixel an enumerator selects. -/
def SDL_GPUSampleCount.samples : SDL_GPUSampleCount → Nat
  | SDL_GPUSampleCount.SDL_GPU_SAMPLECOUNT_1 => 1
  | SDL_GPUSampleCount.SDL_GPU_SAMPLECOUNT_2 => 2
  | SDL_GPUSampleCount.SDL_GPU_SAMPLECOUNT_4 => 4
  | SDL_GPUSampleCount.SDL_GPU_SAMPLECOUNT_8 => 8

/-- A draw that reaches the render pass while the window reports the size
`(0, 0)`. -/
def zeroSizeDraw : DrawEnv :=
  { acquireOk := true
    swapchainTexture := 22
    renderPass := 23
    viewportWidth := 0
    viewportHeight := 0 }

/-- The sample draw after the window was resized to 1024 by 768. -/
def resizedDraw : DrawEnv := { sampleDraw with viewportWidth := 1024, viewportHeight := 768 }

/-- A file whose read stops after two of its three bytes. -/
def shortReadFile : FileEnv := { sampleFile with readLimit := 2 }

/-- The sample `Render_Init` call, except that the pipeline cannot be
created. -/
def pipelineCreationFails : RenderInitEnv := { sampleRenderInit with pipeline := 0 }

/-! # Theorems -/

/-! ## Arithmetic helpers -/

theorem wrapInt32_of_range (i : Int) (h0 : INT_MIN ≤ i) (h1 : i ≤ INT_MAX) :
    wrapInt32 i = i := by
  unfold wrapInt32
  unfold INT_MIN at h0
  unfold INT_MAX at h1
  omega

theorem toUint32_of_nonneg (i : Int) (h0 : 0 ≤ i) (h1 : i ≤ INT_MAX) :
    (toUint32 i : Int) = i := by
  unfold toUint32
  unfold INT_MAX at h1
  omega

theorem groupCountX_of_no_overflow (n : Int) (h0 : 0 < n) (h1 : n + 63 ≤ INT_MAX) :
    (groupCountX n : Int) = (n + 63) / 64 := by
  unfold groupCountX
  have hw : wrapInt32 (n + 63) = n + 63 := by
    apply wrapInt32_of_range
    · unfold INT_MIN; omega
    · exact h1
  rw [hw]
  have hd : Int.tdiv (n + 63) 64 = (n + 63) / 64 :=
    Int.tdiv_eq_ediv (by omega) (by decide)
  rw [hd]
  apply toUint32_of_nonneg
  · omega
  · unfold INT_MAX at *; omega

theorem ceilDiv64_eq (n : Int) : ceilDiv64 n = (n + 63) / 64 := by
  unfold ceilDiv64
  rw [Int.ceil_eq_iff]
  have h64 : ((64 : Int) : ℚ) = 64 := by norm_num
  constructor
  · rw [lt_div_iff₀ (by norm_num : (0 : ℚ) < 64)]
    have : ((n + 63) / 64 - 1) * 64 < n := by omega
    exact_mod_cast this
  · rw [div_le_iff₀ (by norm_num : (0 : ℚ) < 64)]
    have : n ≤ (n + 63) / 64 * 64 := by omega
    exact_mod_cast this

/-! ## Conversion helpers -/

theorem log2Fuel_spec : ∀ (fuel v e : Nat), e < fuel → 2 ^ e ≤ v → v < 2 ^ (e + 1) →
    log2Fuel fuel v = e := by
  intro fuel
  induction fuel with
  | zero => intro v e h; omega
  | succ fuel ih =>
    intro v e hf hlo hhi
    cases e with
    | zero =>
      have : v < 2 := by simpa using hhi
      simp [log2Fuel, this]
    | succ e =>
      have h2 : ¬ v < 2 := by
        have : 2 ^ 1 ≤ 2 ^ (e + 1) := Nat.pow_le_pow_right (by decide) (by omega)
        omega
      have hlo' : 2 ^ e ≤ v / 2 := by
        rw [Nat.le_div_iff_mul_le (by decide)]
        rw [pow_succ] at hlo; exact hlo
      have hhi' : v / 2 < 2 ^ (e + 1) := by
        rw [Nat.div_lt_iff_lt_mul (by decide)]
        rw [pow_succ] at hhi; exact hhi
      simp [log2Fuel, h2, ih (v / 2) e (by omega) hlo' hhi']

theorem f32_value_normal (e m : Nat) (he : 1 ≤ e) (he2 : e < 256) (hm : m < 2 ^ 23) :
    f32_value (e * 2 ^ 23 + m) =
      ((2 ^ 23 + m : Nat) : ℚ) * (2 : ℚ) ^ ((e : Int) - 150) := by
  have h1 : (e * 2 ^ 23 + m) / 2 ^ 31 % 2 = 0 := by
    norm_num at hm ⊢; omega
  have h2 : (e * 2 ^ 23 + m) / 2 ^ 23 % 256 = e := by
    norm_num at hm ⊢; omega
  have h3 : (e * 2 ^ 23 + m) % 2 ^ 23 = m := by
    norm_num at hm ⊢; omega
  have h4 : e ≠ 0 := by omega
  simp only [f32_value, h1, h2, h3, h4, if_false]
  simp

theorem f32_of_nat_16777216 : f32_of_nat 16777216 = 1266679808 := by decide

theorem f32_of_nat_exact (v : Nat) (h1 : 1 ≤ v) (h2 : v ≤ 2 ^ 24) :
    f32_value (f32_of_nat v) = v := by
  have hv0 : v ≠ 0 := by omega
  have hlo : 2 ^ Nat.log 2 v ≤ v := Nat.pow_log_le_self 2 hv0
  have hhi : v < 2 ^ (Nat.log 2 v + 1) := Nat.lt_pow_succ_log_self (by decide) v
  generalize Nat.log 2 v = e at hlo hhi
  have he : e ≤ 24 := by
    by_contra hc
    have : 2 ^ 25 ≤ 2 ^ e := Nat.pow_le_pow_right (by decide) (by omega)
    omega
  have hlog : log2Fuel 32 v = e := log2Fuel_spec 32 v e (by omega) hlo hhi
  by_cases h23 : e ≤ 23
  · have hpow : 2 ^ e * 2 ^ (23 - e) = 2 ^ 23 := by
      rw [← pow_add]; congr 1; omega
    have hpow2 : 2 ^ (e + 1) * 2 ^ (23 - e) = 2 ^ 24 := by
      rw [← pow_add]; congr 1; omega
    have hpos : 0 < 2 ^ (23 - e) := Nat.pow_pos (by decide)
    have hmlo : 2 ^ 23 ≤ v * 2 ^ (23 - e) := by
      rw [← hpow]; exact Nat.mul_le_mul_right _ hlo
    have hmhi : v * 2 ^ (23 - e) < 2 ^ 24 := by
      rw [← hpow2]; exact Nat.mul_lt_mul_of_pos_right hhi hpos
    have hf : f32_of_nat v = (e + 127) * 2 ^ 23 + (v * 2 ^ (23 - e) - 2 ^ 23) := by
      simp only [f32_of_nat, hv0, if_false, hlog, h23, if_true]
    rw [hf, f32_value_normal _ _ (by omega) (by omega) (by omega)]
    have hm : 2 ^ 23 + (v * 2 ^ (23 - e) - 2 ^ 23) = v * 2 ^ (23 - e) := by omega
    rw [hm]
    push_cast
    have hz : ((2 : ℚ) ^ (23 - e)) * (2 : ℚ) ^ ((e : Int) + 127 - 150) = 1 := by
      rw [← zpow_natCast, ← zpow_add₀ (by norm_num)]
      have : ((23 - e : Nat) : Int) + ((e : Int) + 127 - 150) = 0 := by omega
      rw [this]; simp
    rw [mul_assoc, hz, mul_one]
  · have he24 : e = 24 := by omega
    subst he24
    have hv : v = 16777216 := by norm_num at hlo h2; omega
    subst hv
    rw [f32_of_nat_16777216]
    have := f32_value_normal 151 0 (by decide) (by decide) (by decide)
    norm_num at this ⊢
    simpa using this

theorem SDL_max_one_of_pos (i : Int) (h : 1 ≤ i) : SDL_max i 1 = i := by
  unfold SDL_max
  split
  · rfl
  · omega

theorem SDL_max_one_of_nonpos (i : Int) (h : i ≤ 0) : SDL_max i 1 = 1 := by
  unfold SDL_max
  split
  · omega
  · rfl

theorem f32_of_int_one : f32_of_int 1 = f32_one := by decide

theorem f32_value_zero : f32_value f32_zero = 0 := by
  simp [f32_value, f32_zero]

theorem f32_value_one : f32_value f32_one = 1 := by
  have h := f32_value_normal 127 0 (by decide) (by decide) (by decide)
  have hb : f32_one = 127 * 2 ^ 23 + 0 := by decide
  rw [hb, h]
  norm_num

theorem f32_of_int_exact (i : Int) (h1 : 1 ≤ i) (h2 : i ≤ 16777216) :
    f32_value (f32_of_int (SDL_max i 1)) = (i : ℚ) := by
  rw [SDL_max_one_of_pos i h1]
  have hneg : ¬ i < 0 := by omega
  have hn : ((i.natAbs : Nat) : Int) = i := Int.natAbs_of_nonneg (by omega)
  have hle : i.natAbs ≤ 2 ^ 24 := by norm_num; omega
  have hge : 1 ≤ i.natAbs := by omega
  simp only [f32_of_int, hneg, if_false]
  rw [f32_of_nat_exact _ hge hle]
  have : ((i.natAbs : Nat) : ℚ) = (((i.natAbs : Nat) : Int) : ℚ) := (Int.cast_natCast _).symm
  rw [this, hn]

theorem f32_of_int_16777217 :
    f32_value (f32_of_int (SDL_max 16777217 1)) = 16777216 := by
  have hb : f32_of_int (SDL_max 16777217 1) = 151 * 2 ^ 23 + 0 := by decide
  rw [hb, f32_value_normal 151 0 (by decide) (by decide) (by decide)]
  norm_num

/-! ## Frame: shape of the trace of `SDL_AppIterate` -/

theorem Render_Draw_drawn (state : RenderState) (cmdBuf window xCurr yCurr : Handle)
    (numParticles : Int) (env : DrawEnv) (hacq : env.acquireOk = true)
    (htex : env.swapchainTexture ≠ 0) (hrp : env.renderPass ≠ 0) :
    Render_Draw state cmdBuf window xCurr yCurr numParticles env =
      (true,
        [ Call.SDL_WaitAndAcquireGPUSwapchainTexture cmdBuf window true env.swapchainTexture,
          Call.SDL_BeginGPURenderPass cmdBuf [drawTargetInfo env.swapchainTexture]
            env.renderPass,
          Call.SDL_GetWindowSizeInPixels window env.viewportWidth env.viewportHeight,
          Call.SDL_SetGPUViewport env.renderPass
            (drawViewport env.viewportWidth env.viewportHeight),
          Call.SDL_BindGPUGraphicsPipeline env.renderPass state.pipeline,
          Call.SDL_BindGPUVertexStorageBuffers env.renderPass 0 [xCurr, yCurr],
          Call.SDL_DrawGPUPrimitives env.renderPass (toUint32 numParticles) 1 0 0,
          Call.SDL_EndGPURenderPass env.renderPass ]) := by
  simp [Render_Draw, hacq, htex, hrp]

theorem Render_Draw_skipped (state : RenderState) (cmdBuf window xCurr yCurr : Handle)
    (numParticles : Int) (env : DrawEnv) (hacq : env.acquireOk = true)
    (htex : env.swapchainTexture = 0) :
    Render_Draw state cmdBuf window xCurr yCurr numParticles env =
      (true, [Call.SDL_WaitAndAcquireGPUSwapchainTexture cmdBuf window true 0]) := by
  simp [Render_Draw, hacq, htex]

theorem Render_Draw_false_iff (state : RenderState) (cmdBuf window xCurr yCurr : Handle)
    (numParticles : Int) (env : DrawEnv) :
    (Render_Draw state cmdBuf window xCurr yCurr numParticles env).1 = false ↔
      (env.acquireOk = false ∨ (env.swapchainTexture ≠ 0 ∧ env.renderPass = 0)) := by
  unfold Render_Draw
  cases hacq : env.acquireOk <;> by_cases htex : env.swapchainTexture = 0 <;>
    by_cases hrp : env.renderPass = 0 <;> simp [htex, hrp]

theorem SDL_AppIterate_computed (context : AppContext) (env : FrameEnv)
    (hcb : env.cmdBuf ≠ 0) (hcp : env.computePass ≠ 0) :
    SDL_AppIterate context env =
      (let drawn := Render_Draw context.render env.cmdBuf context.window
          context.xCurrBuffer context.yCurrBuffer context.numParticles env.draw
       let t2 :=
        [ Call.SDL_AcquireGPUCommandBuffer context.device env.cmdBuf,
          Call.SDL_BeginGPUComputePass env.cmdBuf 0 (rwBindings context) env.computePass,
          Call.SDL_BindGPUComputePipeline env.computePass context.computePipeline,
          Call.SDL_BindGPUComputeStorageBuffers env.computePass 0 (computeBuffers context),
          Call.SDL_DispatchGPUCompute env.computePass (groupCountX context.numParticles) 1 1,
          Call.SDL_EndGPUComputePass env.computePass ]
       if drawn.1 = true then
         (SDL_AppResult.SDL_APP_CONTINUE,
           t2 ++ drawn.2 ++ [Call.SDL_SubmitGPUCommandBuffer env.cmdBuf])
       else (SDL_AppResult.SDL_APP_FAILURE, t2 ++ drawn.2)) := by
  simp only [SDL_AppIterate, hcb, hcp, if_false]
  cases h : (Render_Draw context.render env.cmdBuf context.window context.xCurrBuffer
    context.yCurrBuffer context.numParticles env.draw).1 <;> simp

theorem SDL_AppIterate_continue_iff (context : AppContext) (env : FrameEnv) :
    (SDL_AppIterate context env).1 = SDL_AppResult.SDL_APP_CONTINUE ↔
      (env.cmdBuf ≠ 0 ∧ env.computePass ≠ 0 ∧
        (Render_Draw context.render env.cmdBuf context.window context.xCurrBuffer
          context.yCurrBuffer context.numParticles env.draw).1 = true) := by
  by_cases hcb : env.cmdBuf = 0
  · simp [SDL_AppIterate, hcb]
  · by_cases hcp : env.computePass = 0
    · simp [SDL_AppIterate, hcb, hcp]
    · rw [SDL_AppIterate_computed context env hcb hcp]
      cases h : (Render_Draw context.render env.cmdBuf context.window context.xCurrBuffer
        context.yCurrBuffer context.numParticles env.draw).1 <;> simp [hcb, hcp, h]

/-! ## C2: compute pass first, render pass second, one submission -/

/-- C2: in a frame for which `SDL_AppIterate` returns `SDL_APP_CONTINUE` and a
swapchain image is available, the calls made are exactly: acquire the command
buffer; begin the compute pass on it, bind the compute pipeline, bind the
storage buffers, dispatch, end the compute pass; then acquire the swapchain
image, begin the render pass on the same command buffer, set the viewport,
bind, draw, end the render pass; and last a single submission of that command
buffer. -/
theorem appIterate_pass_order (context : AppContext) (env : FrameEnv)
    (hres : (SDL_AppIterate context env).1 = SDL_AppResult.SDL_APP_CONTINUE)
    (htex : env.draw.swapchainTexture ≠ 0) :
    (SDL_AppIterate context env).2 =
      [ Call.SDL_AcquireGPUCommandBuffer context.device env.cmdBuf,
        Call.SDL_BeginGPUComputePass env.cmdBuf 0 (rwBindings context) env.computePass,
        Call.SDL_BindGPUComputePipeline env.computePass context.computePipeline,
        Call.SDL_BindGPUComputeStorageBuffers env.computePass 0 (computeBuffers context),
        Call.SDL_DispatchGPUCompute env.computePass (groupCountX context.numParticles) 1 1,
        Call.SDL_EndGPUComputePass env.computePass,
        Call.SDL_WaitAndAcquireGPUSwapchainTexture env.cmdBuf context.window true
          env.draw.swapchainTexture,
        Call.SDL_BeginGPURenderPass env.cmdBuf [drawTargetInfo env.draw.swapchainTexture]
          env.draw.renderPass,
        Call.SDL_GetWindowSizeInPixels context.window env.draw.viewportWidth
          env.draw.viewportHeight,
        Call.SDL_SetGPUViewport env.draw.renderPass
          (drawViewport env.draw.viewportWidth env.draw.viewportHeight),
        Call.SDL_BindGPUGraphicsPipeline env.draw.renderPass context.render.pipeline,
        Call.SDL_BindGPUVertexStorageBuffers env.draw.renderPass 0
          [context.xCurrBuffer, context.yCurrBuffer],
        Call.SDL_DrawGPUPrimitives env.draw.renderPass (toUint32 context.numParticles) 1 0 0,
        Call.SDL_EndGPURenderPass env.draw.renderPass,
        Call.SDL_SubmitGPUCommandBuffer env.cmdBuf ] ∧
    submits (SDL_AppIterate context env).2 = [env.cmdBuf] ∧
    env.cmdBuf ≠ 0 ∧ env.computePass ≠ 0 ∧ env.draw.renderPass ≠ 0 := by
  obtain ⟨hcb, hcp, hdraw⟩ := (SDL_AppIterate_continue_iff context env).1 hres
  have hnf := (Render_Draw_false_iff context.render env.cmdBuf context.window
    context.xCurrBuffer context.yCurrBuffer context.numParticles env.draw).not.1
    (by simp [hdraw])
  have hacq : env.draw.acquireOk = true := by
    cases h : env.draw.acquireOk
    · exact absurd (Or.inl h) hnf
    · rfl
  have hrp : env.draw.renderPass ≠ 0 := fun h => hnf (Or.inr ⟨htex, h⟩)
  have htrace := SDL_AppIterate_computed context env hcb hcp
  rw [Render_Draw_drawn _ _ _ _ _ _ _ hacq htex hrp] at htrace
  rw [htrace]
  simp [submits, hcb, hcp, hrp]

/-- C2 (witness): the sample frame on a context with 1024 particles. -/
theorem appIterate_pass_order_witness :
    (SDL_AppIterate (sampleContext 1024) sampleFrame).1 = SDL_AppResult.SDL_APP_CONTINUE ∧
    submits (SDL_AppIterate (sampleContext 1024) sampleFrame).2 = [20] :=
  ⟨by decide,
    (appIterate_pass_order (sampleContext 1024) sampleFrame (by decide) (by decide)).2.1⟩

/-! ## C3: the six read-write storage bindings of the compute pass -/

/-- C3: in every frame whose compute pass begins, `SDL_AppIterate` hands the
pass exactly one array of read-write bindings, holding in slots 0 to 5 the
buffers x-current, y-current, x-previous, y-previous, mass, density in this
order (none cycled), binds the same six buffers from first slot 0 with
`SDL_BindGPUComputeStorageBuffers`, and the number of bindings is the number
of read-write storage buffers (6) declared by `computeCreateInfo`. -/
theorem appIterate_compute_bindings (context : AppContext) (env : FrameEnv)
    (hcb : env.cmdBuf ≠ 0) (hcp : env.computePass ≠ 0) :
    rwBound (SDL_AppIterate context env).2 =
      [ [ { buffer := context.xCurrBuffer, cycle := false },
          { buffer := context.yCurrBuffer, cycle := false },
          { buffer := context.xPrevBuffer, cycle := false },
          { buffer := context.yPrevBuffer, cycle := false },
          { buffer := context.massBuffer, cycle := false },
          { buffer := context.densityBuffer, cycle := false } ] ] ∧
    computeStorageBinds (SDL_AppIterate context env).2 =
      [ (0, [ context.xCurrBuffer, context.yCurrBuffer, context.xPrevBuffer,
              context.yPrevBuffer, context.massBuffer, context.densityBuffer ]) ] ∧
    (∀ (code : Option (List Nat)) (size : Nat) (format : SDL_GPUShaderFormat),
      (rwBindings context).length =
        (computeCreateInfo code size format).num_readwrite_storage_buffers ∧
      (computeBuffers context).length =
        (computeCreateInfo code size format).num_readwrite_storage_buffers ∧
      (computeCreateInfo code size format).num_readwrite_storage_buffers = 6) := by
  refine ⟨?_, ?_, ?_⟩
  · cases hacq : env.draw.acquireOk <;>
      by_cases htex : env.draw.swapchainTexture = 0 <;>
      by_cases hrp : env.draw.renderPass = 0 <;>
      simp [SDL_AppIterate, Render_Draw, rwBound, rwBindings, hcb, hcp, hacq, htex, hrp]
  · cases hacq : env.draw.acquireOk <;>
      by_cases htex : env.draw.swapchainTexture = 0 <;>
      by_cases hrp : env.draw.renderPass = 0 <;>
      simp [SDL_AppIterate, Render_Draw, computeStorageBinds, computeBuffers, hcb, hcp,
        hacq, htex, hrp]
  · intro code size format
    simp [rwBindings, computeBuffers, computeCreateInfo]

/-- C3 (witness): the sample frame on the sample context. -/
theorem appIterate_compute_bindings_witness :
    computeStorageBinds (SDL_AppIterate (sampleContext 1024) sampleFrame).2 =
      [(0, [7, 8, 9, 10, 11, 12])] :=
  (appIterate_compute_bindings (sampleContext 1024) sampleFrame
    (by decide) (by decide)).2.1

/-! ## C4: the draw call of `Render_Draw` -/

/-- C4: when `Render_Draw` runs on the state produced by a successful
`Render_Init`, acquires a non-null swapchain image and the render pass begins,
it binds exactly the buffers x-current and y-current from vertex storage slot
0 (so slots 0 and 1), binds the pipeline of the state, and issues exactly one
draw call whose vertex count is `(Uint32)numParticles`, which is
`numParticles` for every non-negative `int`, with instance count 1, first
vertex 0 and first instance 0; that pipeline was created by `Render_Init` with
primitive type point list, no vertex buffers and no vertex attributes. -/
theorem renderDraw_single_point_draw (state0 : RenderState) (device : Handle)
    (shaderFormat : SDL_GPUShaderFormat) (vertexShaderPath fragmentShaderPath : String)
    (ienv : RenderInitEnv) (cmdBuf window xCurr yCurr : Handle) (numParticles : Int)
    (env : DrawEnv)
    (hinit : (Render_Init state0 device shaderFormat vertexShaderPath fragmentShaderPath
      ienv).1 = true)
    (hacq : env.acquireOk = true) (htex : env.swapchainTexture ≠ 0)
    (hrp : env.renderPass ≠ 0) :
    let inited := Render_Init state0 device shaderFormat vertexShaderPath
      fragmentShaderPath ienv
    let t := (Render_Draw inited.2.1 cmdBuf window xCurr yCurr numParticles env).2
    vertexStorageBinds t = [(0, [xCurr, yCurr])] ∧
    graphicsPipelineBinds t = [inited.2.1.pipeline] ∧
    draws t = [(toUint32 numParticles, 1, 0, 0)] ∧
    (0 ≤ numParticles → numParticles ≤ INT_MAX →
      (toUint32 numParticles : Int) = numParticles) ∧
    (∃ info : SDL_GPUGraphicsPipelineCreateInfo,
      Call.SDL_CreateGPUGraphicsPipeline device info inited.2.1.pipeline ∈ inited.2.2 ∧
      inited.2.1.pipeline ≠ 0 ∧
      info.primitive_type = SDL_GPUPrimitiveType.SDL_GPU_PRIMITIVETYPE_POINTLIST ∧
      info.vertex_input_state.num_vertex_buffers = 0 ∧
      info.vertex_input_state.vertex_buffer_descriptions = none ∧
      info.vertex_input_state.num_vertex_attributes = 0 ∧
      info.vertex_input_state.vertex_attributes = none) := by
  intro inited t
  have ht : t = _ := congrArg Prod.snd
    (Render_Draw_drawn inited.2.1 cmdBuf window xCurr yCurr numParticles env hacq htex hrp)
  refine ⟨?_, ?_, ?_, toUint32_of_nonneg numParticles, ?_⟩
  · rw [ht]; simp [vertexStorageBinds]
  · rw [ht]; simp [graphicsPipelineBinds]
  · rw [ht]; simp [draws]
  · refine ⟨pipelineCreateInfo ienv.vertexShader ienv.fragmentShader, ?_⟩
    have hi : inited = Render_Init state0 device shaderFormat vertexShaderPath
      fragmentShaderPath ienv := rfl
    rw [hi] at *
    clear hi ht
    unfold Render_Init at hinit ⊢
    by_cases hv : (LoadShaderFile (ienv.fs vertexShaderPath) none 0).1 = true <;>
      by_cases hvs : ienv.vertexShader = 0 <;>
      by_cases hf : (LoadShaderFile (ienv.fs fragmentShaderPath) none 0).1 = true <;>
      by_cases hfs : ienv.fragmentShader = 0 <;>
      by_cases hp : ienv.pipeline = 0 <;>
      simp [hv, hvs, hf, hfs, hp, pipelineCreateInfo] at hinit ⊢

/-- C4 (witness): the state built by the sample `Render_Init`, drawn with 1024
particles. -/
theorem renderDraw_single_point_draw_witness :
    (Render_Init ⟨0, 0, 0⟩ 2 SDL_GPUShaderFormat.SDL_GPU_SHADERFORMAT_SPIRV
      sampleVertexPath sampleFragmentPath sampleRenderInit).1 = true ∧
    draws (Render_Draw (Render_Init ⟨0, 0, 0⟩ 2
      SDL_GPUShaderFormat.SDL_GPU_SHADERFORMAT_SPIRV sampleVertexPath sampleFragmentPath
      sampleRenderInit).2.1 20 1 7 8 1024 sampleDraw).2 = [(toUint32 1024, 1, 0, 0)] ∧
    (toUint32 1024 : Int) = 1024 :=
  ⟨by decide,
    (renderDraw_single_point_draw ⟨0, 0, 0⟩ 2 SDL_GPUShaderFormat.SDL_GPU_SHADERFORMAT_SPIRV
      sampleVertexPath sampleFragmentPath sampleRenderInit 20 1 7 8 1024 sampleDraw
      (by decide) (by decide) (by decide) (by decide)).2.2.1,
    (renderDraw_single_point_draw ⟨0, 0, 0⟩ 2 SDL_GPUShaderFormat.SDL_GPU_SHADERFORMAT_SPIRV
      sampleVertexPath sampleFragmentPath sampleRenderInit 20 1 7 8 1024 sampleDraw
      (by decide) (by decide) (by decide) (by decide)).2.2.2.1 (by decide) (by decide)⟩

/-! ## C5: a frame without a swapchain image -/

/-- C5: if the swapchain acquisition succeeds but stores a null texture,
`Render_Draw` returns `true` and its only call is the acquisition itself: no
render pass, viewport, binding or draw call; `SDL_AppIterate`, having begun
its compute pass, then submits the command buffer as its last call, exactly
once, and returns `SDL_APP_CONTINUE`. -/
theorem skipped_frame_continues (context : AppContext) (env : FrameEnv)
    (hcb : env.cmdBuf ≠ 0) (hcp : env.computePass ≠ 0)
    (hacq : env.draw.acquireOk = true) (htex : env.draw.swapchainTexture = 0) :
    Render_Draw context.render env.cmdBuf context.window context.xCurrBuffer
        context.yCurrBuffer context.numParticles env.draw =
      (true, [Call.SDL_WaitAndAcquireGPUSwapchainTexture env.cmdBuf context.window true 0]) ∧
    (SDL_AppIterate context env).1 = SDL_AppResult.SDL_APP_CONTINUE ∧
    (SDL_AppIterate context env).2.filter Call.isRenderPassCommand = [] ∧
    (SDL_AppIterate context env).2.getLast? =
      some (Call.SDL_SubmitGPUCommandBuffer env.cmdBuf) ∧
    submits (SDL_AppIterate context env).2 = [env.cmdBuf] := by
  have hd := Render_Draw_skipped context.render env.cmdBuf context.window
    context.xCurrBuffer context.yCurrBuffer context.numParticles env.draw hacq htex
  refine ⟨hd, ?_, ?_, ?_, ?_⟩ <;>
    rw [SDL_AppIterate_computed context env hcb hcp, hd] <;>
    simp [Call.isRenderPassCommand, submits]

/-- C5 (witness): the frame without an image on the sample context. -/
theorem skipped_frame_continues_witness :
    skippedFrame.draw.swapchainTexture = 0 ∧
    (SDL_AppIterate (sampleContext 1024) skippedFrame).1 = SDL_AppResult.SDL_APP_CONTINUE :=
  ⟨by decide,
    (skipped_frame_continues (sampleContext 1024) skippedFrame
      (by decide) (by decide) (by decide) (by decide)).2.1⟩

/-! ## C6: abandoned frames -/

/-- C6: if the command buffer cannot be acquired or the compute pass cannot
begin, `SDL_AppIterate` returns `SDL_APP_FAILURE` and its trace holds no
dispatch, no storage-buffer binding, no render-pass command and no
submission; and `SDL_AppIterate` returns `SDL_APP_FAILURE` exactly when the
command buffer is null, the compute pass is null, or `Render_Draw` returns
`false`. -/
theorem abandoned_frame_records_nothing (context : AppContext) (env : FrameEnv) :
    ((env.cmdBuf = 0 ∨ env.computePass = 0) →
      (SDL_AppIterate context env).1 = SDL_AppResult.SDL_APP_FAILURE ∧
      (SDL_AppIterate context env).2.filter (fun c =>
        c.isDispatch || c.isStorageBinding || c.isRenderPassCommand || c.isSubmit) = []) ∧
    ((SDL_AppIterate context env).1 = SDL_AppResult.SDL_APP_FAILURE ↔
      (env.cmdBuf = 0 ∨ env.computePass = 0 ∨
        (Render_Draw context.render env.cmdBuf context.window context.xCurrBuffer
          context.yCurrBuffer context.numParticles env.draw).1 = false)) := by
  constructor
  · intro h
    by_cases hcb : env.cmdBuf = 0
    · simp [SDL_AppIterate, hcb, Call.isDispatch, Call.isStorageBinding,
        Call.isRenderPassCommand, Call.isSubmit]
    · have hcp : env.computePass = 0 := h.resolve_left hcb
      simp [SDL_AppIterate, hcb, hcp, Call.isDispatch, Call.isStorageBinding,
        Call.isRenderPassCommand, Call.isSubmit]
  · by_cases hcb : env.cmdBuf = 0
    · simp [SDL_AppIterate, hcb]
    · by_cases hcp : env.computePass = 0
      · simp [SDL_AppIterate, hcb, hcp]
      · rw [SDL_AppIterate_computed context env hcb hcp]
        cases h : (Render_Draw context.render env.cmdBuf context.window context.xCurrBuffer
          context.yCurrBuffer context.numParticles env.draw).1 <;> simp [hcb, hcp, h]

/-- C6 (witness): a frame whose command buffer is null. -/
theorem abandoned_frame_records_nothing_witness :
    noCommandBufferFrame.cmdBuf = 0 ∧
    (SDL_AppIterate (sampleContext 1024) noCommandBufferFrame).1 =
      SDL_AppResult.SDL_APP_FAILURE :=
  ⟨by decide,
    ((abandoned_frame_records_nothing (sampleContext 1024) noCommandBufferFrame).1
      (Or.inl (by decide))).1⟩

/-! ## Initialisation: case analysis of `SDL_AppInit` -/


theorem createdIn_append (a b : List Call) :
    createdIn (a ++ b) = createdIn a ++ createdIn b := by
  simp [createdIn]

theorem releasedIn_append (a b : List Call) :
    releasedIn (a ++ b) = releasedIn a ++ releasedIn b := by
  simp [releasedIn]

theorem Render_Init_cases (state : RenderState) (device : Handle)
    (shaderFormat : SDL_GPUShaderFormat) (vertexShaderPath fragmentShaderPath : String)
    (env : RenderInitEnv) :
    ((Render_Init state device shaderFormat vertexShaderPath fragmentShaderPath env).1 = false ∧
      (Render_Init state device shaderFormat vertexShaderPath fragmentShaderPath env).2.1 = state ∧
      releasedIn (Render_Init state device shaderFormat vertexShaderPath fragmentShaderPath
        env).2.2 =
        createdIn (Render_Init state device shaderFormat vertexShaderPath fragmentShaderPath
          env).2.2) ∨
    ((Render_Init state device shaderFormat vertexShaderPath fragmentShaderPath env).1 = true ∧
      env.vertexShader ≠ 0 ∧ env.fragmentShader ≠ 0 ∧ env.pipeline ≠ 0 ∧
      (Render_Init state device shaderFormat vertexShaderPath fragmentShaderPath env).2.1 =
        { vertexShader := env.vertexShader, fragmentShader := env.fragmentShader,
          pipeline := env.pipeline } ∧
      ∃ vinfo finfo,
      (Render_Init state device shaderFormat vertexShaderPath fragmentShaderPath env).2.2 =
        [ Call.SDL_CreateGPUShader device vinfo env.vertexShader,
          Call.SDL_CreateGPUShader device finfo env.fragmentShader,
          Call.SDL_CreateGPUGraphicsPipeline device
            (pipelineCreateInfo env.vertexShader env.fragmentShader) env.pipeline ]) := by
  unfold Render_Init
  by_cases hv : (LoadShaderFile (env.fs vertexShaderPath) none 0).1 = true <;>
    by_cases hvs : env.vertexShader = 0 <;>
    by_cases hf : (LoadShaderFile (env.fs fragmentShaderPath) none 0).1 = true <;>
    by_cases hfs : env.fragmentShader = 0 <;>
    by_cases hp : env.pipeline = 0 <;>
    simp [hv, hvs, hf, hfs, hp, createdIn, releasedIn, Call.created, Call.released,
      Resource.live]
theorem mapLoop_ok (device : Handle) (mapOk : Nat → Bool) (us : List Upload) :
    ∀ i, (mapLoop device mapOk i us).2 = false →
      (∀ j, j < us.length → mapOk (i + j) = true) ∧
      (mapLoop device mapOk i us).1 = us.flatMap (fun u =>
        [ Call.SDL_MapGPUTransferBuffer device u.tx false true,
          Call.SDL_memcpy u.tx u.data floatBufferSize,
          Call.SDL_UnmapGPUTransferBuffer device u.tx ]) := by
  induction us with
  | nil => intro i _; simp [mapLoop]
  | cons u us ih =>
    intro i h
    cases hm : mapOk i
    · simp [mapLoop, hm] at h
    · simp only [mapLoop, hm, if_true] at h ⊢
      obtain ⟨h1, h2⟩ := ih (i + 1) h
      refine ⟨?_, ?_⟩
      · intro j hj
        cases j with
        | zero => simpa using hm
        | succ j =>
          have := h1 j (by simpa using hj)
          rw [← this]; congr 1; omega
      · simp [h2]


theorem mapLoop_raw (device : Handle) (mapOk : Nat → Bool) (us : List Upload) :
    ∀ i, (mapLoop device mapOk i us).1.filterMap Call.created = [] ∧
      (mapLoop device mapOk i us).1.filterMap Call.released = [] := by
  induction us with
  | nil => intro i; simp [mapLoop]
  | cons u us ih =>
    intro i
    have h := ih (i + 1)
    cases hm : mapOk i <;>
      simp [mapLoop, hm, Call.created, Call.released, h.1, h.2]

theorem SDL_AppInit_cases (appState : Option AppContext) (env : InitEnv) :
    ((SDL_AppInit appState env).result = SDL_AppResult.SDL_APP_FAILURE ∧
      (SDL_AppInit appState env).appState = appState ∧
      (releasedIn (SDL_AppInit appState env).trace).Perm
        (createdIn (SDL_AppInit appState env).trace)) ∨
    ((SDL_AppInit appState env).result = SDL_AppResult.SDL_APP_CONTINUE ∧
      (env.sdlInitOk = true ∧ env.claimOk = true ∧ env.contextAllocOk = true) ∧
      (env.window ≠ 0 ∧ env.device ≠ 0 ∧ env.computePipeline ≠ 0 ∧
        env.vertexShader ≠ 0 ∧ env.fragmentShader ≠ 0 ∧ env.pipeline ≠ 0 ∧
        ¬ (env.xCurrBuffer = 0 ∨ env.yCurrBuffer = 0 ∨ env.xPrevBuffer = 0 ∨
          env.yPrevBuffer = 0 ∨ env.massBuffer = 0 ∨ env.densityBuffer = 0) ∧
        ¬ (env.txXCurr = 0 ∨ env.txYCurr = 0 ∨ env.txXPrev = 0 ∨
          env.txYPrev = 0 ∨ env.txMass = 0 ∨ env.txDensity = 0) ∧
        env.uploadCmdBuf ≠ 0 ∧ env.copyPass ≠ 0) ∧
      (∀ j, j < (uploads env).length → env.mapOk (0 + j) = true) ∧
      (SDL_AppInit appState env).appState = some
        { window := env.window
          device := env.device
          render :=
            { vertexShader := env.vertexShader
              fragmentShader := env.fragmentShader
              pipeline := env.pipeline }
          computePipeline := env.computePipeline
          xCurrBuffer := env.xCurrBuffer
          yCurrBuffer := env.yCurrBuffer
          xPrevBuffer := env.xPrevBuffer
          yPrevBuffer := env.yPrevBuffer
          massBuffer := env.massBuffer
          densityBuffer := env.densityBuffer
          numParticles := numParticles } ∧
      ∃ code size format vinfo finfo,
        (SDL_AppInit appState env).trace =
          [ Call.SDL_SetAppMetadata, Call.srand, Call.SDL_Init true,
            Call.SDL_CreateWindow 800 600 env.window,
            Call.SDL_CreateGPUDevice env.device,
            Call.SDL_GetGPUDeviceDriver env.device,
            Call.SDL_ClaimWindowForGPUDevice env.device env.window true,
            Call.SDL_CreateGPUComputePipeline env.device
              (computeCreateInfo code size format) env.computePipeline,
            Call.SDL_CreateGPUShader env.device vinfo env.vertexShader,
            Call.SDL_CreateGPUShader env.device finfo env.fragmentShader,
            Call.SDL_CreateGPUGraphicsPipeline env.device
              (pipelineCreateInfo env.vertexShader env.fragmentShader) env.pipeline,
            Call.SDL_GetWindowSizeInPixels env.window env.drawableWidth env.drawableHeight,
            Call.SDL_CreateGPUBuffer env.device bufferCreateInfo env.xCurrBuffer,
            Call.SDL_CreateGPUBuffer env.device bufferCreateInfo env.yCurrBuffer,
            Call.SDL_CreateGPUBuffer env.device bufferCreateInfo env.xPrevBuffer,
            Call.SDL_CreateGPUBuffer env.device bufferCreateInfo env.yPrevBuffer,
            Call.SDL_CreateGPUBuffer env.device bufferCreateInfo env.massBuffer,
            Call.SDL_CreateGPUBuffer env.device bufferCreateInfo env.densityBuffer,
            Call.SDL_CreateGPUTransferBuffer env.device transferCreateInfo env.txXCurr,
            Call.SDL_CreateGPUTransferBuffer env.device transferCreateInfo env.txYCurr,
            Call.SDL_CreateGPUTransferBuffer env.device transferCreateInfo env.txXPrev,
            Call.SDL_CreateGPUTransferBuffer env.device transferCreateInfo env.txYPrev,
            Call.SDL_CreateGPUTransferBuffer env.device transferCreateInfo env.txMass,
            Call.SDL_CreateGPUTransferBuffer env.device transferCreateInfo env.txDensity ] ++
          (uploads env).flatMap (fun u =>
            [ Call.SDL_MapGPUTransferBuffer env.device u.tx false true,
              Call.SDL_memcpy u.tx u.data floatBufferSize,
              Call.SDL_UnmapGPUTransferBuffer env.device u.tx ]) ++
          [ Call.SDL_AcquireGPUCommandBuffer env.device env.uploadCmdBuf,
            Call.SDL_BeginGPUCopyPass env.uploadCmdBuf env.copyPass ] ++
          copyLoop env.copyPass (uploads env) ++
          [ Call.SDL_EndGPUCopyPass env.copyPass,
            Call.SDL_SubmitGPUCommandBuffer env.uploadCmdBuf ] ++
          releaseTransferBuffers env.device env) := by
  have hri := Render_Init_cases { vertexShader := 0, fragmentShader := 0, pipeline := 0 }
    env.device
    (if decide (env.driverName = some "metal") = true then
      SDL_GPUShaderFormat.SDL_GPU_SHADERFORMAT_MSL
     else SDL_GPUShaderFormat.SDL_GPU_SHADERFORMAT_SPIRV)
    (if decide (env.driverName = some "metal") = true then "assets/particles.vert.msl"
     else "assets/particles.vert.spv")
    (if decide (env.driverName = some "metal") = true then "assets/particles.frag.msl"
     else "assets/particles.frag.spv")
    { fs := env.fs, vertexShader := env.vertexShader,
      fragmentShader := env.fragmentShader, pipeline := env.pipeline }
  simp only [] at hri
  obtain ⟨hmlc, hmlr⟩ := mapLoop_raw env.device env.mapOk (uploads env) 0
  have hmo := mapLoop_ok env.device env.mapOk (uploads env) 0
  generalize ho : SDL_AppInit appState env = o
  rcases Bool.eq_false_or_eq_true env.sdlInitOk with h1 | h1
  swap
  · simp only [SDL_AppInit, Bool.not_true, Bool.not_false, Bool.false_eq_true, if_true, if_false, h1] at ho
    subst ho; left
    simp [createdIn, releasedIn, Call.created, Call.released, Resource.live, *]
  by_cases hw : env.window = 0
  · simp only [SDL_AppInit, Bool.not_true, Bool.not_false, Bool.false_eq_true, if_true, if_false, h1, hw] at ho
    subst ho; left
    simp [createdIn, releasedIn, Call.created, Call.released, Resource.live, *]
  by_cases hd : env.device = 0
  · simp only [SDL_AppInit, Bool.not_true, Bool.not_false, Bool.false_eq_true, if_true, if_false, h1, hw, hd] at ho
    subst ho; left
    simp [createdIn, releasedIn, Call.created, Call.released, Resource.live, *]
  rcases Bool.eq_false_or_eq_true env.claimOk with hcl | hcl
  swap
  · simp only [SDL_AppInit, Bool.not_true, Bool.not_false, Bool.false_eq_true, if_true, if_false, h1, hw, hd, hcl] at ho
    subst ho; left
    simp [createdIn, releasedIn, Call.created, Call.released, Resource.live, *]
  rcases Bool.eq_false_or_eq_true (LoadShaderFile (env.fs
      (if decide (env.driverName = some "metal") = true then "assets/particles.comp.msl"
       else "assets/particles.comp.spv")) none 0).1 with hcomp | hcomp
  swap
  · simp only [SDL_AppInit, Bool.not_true, Bool.not_false, Bool.false_eq_true, if_true, if_false, h1, hw, hd, hcl, hcomp] at ho
    subst ho; left
    simp [createdIn, releasedIn, Call.created, Call.released, Resource.live, *]
  by_cases hcp : env.computePipeline = 0
  · simp only [SDL_AppInit, Bool.not_true, Bool.not_false, Bool.false_eq_true, if_true, if_false, h1, hw, hd, hcl, hcomp, hcp] at ho
    subst ho; left
    simp [createdIn, releasedIn, Call.created, Call.released, Resource.live, *]
  rcases Bool.eq_false_or_eq_true (Render_Init { vertexShader := 0, fragmentShader := 0, pipeline := 0 }
      env.device
      (if decide (env.driverName = some "metal") = true then
        SDL_GPUShaderFormat.SDL_GPU_SHADERFORMAT_MSL
       else SDL_GPUShaderFormat.SDL_GPU_SHADERFORMAT_SPIRV)
      (if decide (env.driverName = some "metal") = true then "assets/particles.vert.msl"
       else "assets/particles.vert.spv")
      (if decide (env.driverName = some "metal") = true then "assets/particles.frag.msl"
       else "assets/particles.frag.spv")
      { fs := env.fs, vertexShader := env.vertexShader,
        fragmentShader := env.fragmentShader, pipeline := env.pipeline }).1 with hin | hin
  swap
  · simp only [SDL_AppInit, Bool.not_true, Bool.not_false, Bool.false_eq_true, if_true, if_false, h1, hw, hd, hcl, hcomp, hcp, hin] at ho
    subst ho; left
    rcases hri with ⟨_, _, hperm⟩ | ⟨hok, _⟩
    · refine ⟨rfl, rfl, ?_⟩
      simp only [createdIn_append, releasedIn_append, hperm]
      simp [createdIn, releasedIn, Call.created, Call.released, Resource.live, hcp]
    · rw [hok] at hin; exact absurd hin (by decide)
  have hri2 : env.vertexShader ≠ 0 ∧ env.fragmentShader ≠ 0 ∧ env.pipeline ≠ 0 ∧
      (Render_Init { vertexShader := 0, fragmentShader := 0, pipeline := 0 }
        env.device
        (if decide (env.driverName = some "metal") = true then
          SDL_GPUShaderFormat.SDL_GPU_SHADERFORMAT_MSL
         else SDL_GPUShaderFormat.SDL_GPU_SHADERFORMAT_SPIRV)
        (if decide (env.driverName = some "metal") = true then "assets/particles.vert.msl"
         else "assets/particles.vert.spv")
        (if decide (env.driverName = some "metal") = true then "assets/particles.frag.msl"
         else "assets/particles.frag.spv")
        { fs := env.fs, vertexShader := env.vertexShader,
          fragmentShader := env.fragmentShader, pipeline := env.pipeline }).2.1 = RenderState.mk env.vertexShader env.fragmentShader env.pipeline ∧
      ∃ vinfo finfo, (Render_Init { vertexShader := 0, fragmentShader := 0, pipeline := 0 }
        env.device
        (if decide (env.driverName = some "metal") = true then
          SDL_GPUShaderFormat.SDL_GPU_SHADERFORMAT_MSL
         else SDL_GPUShaderFormat.SDL_GPU_SHADERFORMAT_SPIRV)
        (if decide (env.driverName = some "metal") = true then "assets/particles.vert.msl"
         else "assets/particles.vert.spv")
        (if decide (env.driverName = some "metal") = true then "assets/particles.frag.msl"
         else "assets/particles.frag.spv")
        { fs := env.fs, vertexShader := env.vertexShader,
          fragmentShader := env.fragmentShader, pipeline := env.pipeline }).2.2 =
          [ Call.SDL_CreateGPUShader env.device vinfo env.vertexShader,
            Call.SDL_CreateGPUShader env.device finfo env.fragmentShader,
            Call.SDL_CreateGPUGraphicsPipeline env.device
              (pipelineCreateInfo env.vertexShader env.fragmentShader) env.pipeline ] := by
    rcases hri with ⟨hbad, _⟩ | ⟨_, h⟩
    · rw [hin] at hbad; exact absurd hbad (by decide)
    · exact h
  obtain ⟨hvs, hfs, hp, hist, vinfo, finfo, hitr⟩ := hri2
  rcases Bool.eq_false_or_eq_true (!env.mallocXCurr || !env.mallocYCurr || !env.mallocXPrev || !env.mallocYPrev ||
      !env.mallocMass || !env.mallocDensity) with hmal | hmal
  · simp only [SDL_AppInit, Bool.not_true, Bool.not_false, Bool.false_eq_true, if_true, if_false, h1, hw, hd, hcl, hcomp, hcp, hin, hist, hitr, hmal] at ho
    subst ho; left
    refine ⟨rfl, rfl, ?_⟩
    unfold createdIn releasedIn
    apply List.Perm.filter
    simp only [List.filterMap_append, hmlc, hmlr]
    simp [Call.created, Call.released, Render_Destroy, releaseBuffers, releaseTransferBuffers,
      copyLoop, uploads, hd, hvs, hfs, hp]
    rw [List.perm_iff_count]
    intro x
    simp only [List.count_cons, List.count_nil]
    omega
  by_cases hb : (env.xCurrBuffer = 0 ∨ env.yCurrBuffer = 0 ∨ env.xPrevBuffer = 0 ∨
      env.yPrevBuffer = 0 ∨ env.massBuffer = 0 ∨ env.densityBuffer = 0)
  · simp only [SDL_AppInit, Bool.not_true, Bool.not_false, Bool.false_eq_true, if_true, if_false, h1, hw, hd, hcl, hcomp, hcp, hin, hist, hitr, hmal, hb] at ho
    subst ho; left
    refine ⟨rfl, rfl, ?_⟩
    unfold createdIn releasedIn
    apply List.Perm.filter
    simp only [List.filterMap_append, hmlc, hmlr]
    simp [Call.created, Call.released, Render_Destroy, releaseBuffers, releaseTransferBuffers,
      copyLoop, uploads, hd, hvs, hfs, hp]
    rw [List.perm_iff_count]
    intro x
    simp only [List.count_cons, List.count_nil]
    omega
  by_cases htx : (env.txXCurr = 0 ∨ env.txYCurr = 0 ∨ env.txXPrev = 0 ∨
      env.txYPrev = 0 ∨ env.txMass = 0 ∨ env.txDensity = 0)
  · simp only [SDL_AppInit, Bool.not_true, Bool.not_false, Bool.false_eq_true, if_true, if_false, h1, hw, hd, hcl, hcomp, hcp, hin, hist, hitr, hmal, hb, htx] at ho
    subst ho; left
    refine ⟨rfl, rfl, ?_⟩
    unfold createdIn releasedIn
    apply List.Perm.filter
    simp only [List.filterMap_append, hmlc, hmlr]
    simp [Call.created, Call.released, Render_Destroy, releaseBuffers, releaseTransferBuffers,
      copyLoop, uploads, hd, hvs, hfs, hp]
    rw [List.perm_iff_count]
    intro x
    simp only [List.count_cons, List.count_nil]
    omega
  rcases Bool.eq_false_or_eq_true (mapLoop env.device env.mapOk 0 (uploads env)).2 with hmap | hmap
  · simp only [SDL_AppInit, Bool.not_true, Bool.not_false, Bool.false_eq_true, if_true, if_false, h1, hw, hd, hcl, hcomp, hcp, hin, hist, hitr, hmal, hb, htx, hmap] at ho
    subst ho; left
    refine ⟨rfl, rfl, ?_⟩
    unfold createdIn releasedIn
    apply List.Perm.filter
    simp only [List.filterMap_append, hmlc, hmlr]
    simp [Call.created, Call.released, Render_Destroy, releaseBuffers, releaseTransferBuffers,
      copyLoop, uploads, hd, hvs, hfs, hp]
    rw [List.perm_iff_count]
    intro x
    simp only [List.count_cons, List.count_nil]
    omega
  by_cases hup : env.uploadCmdBuf = 0
  · simp only [SDL_AppInit, Bool.not_true, Bool.not_false, Bool.false_eq_true, if_true, if_false, h1, hw, hd, hcl, hcomp, hcp, hin, hist, hitr, hmal, hb, htx, hmap, hup] at ho
    subst ho; left
    refine ⟨rfl, rfl, ?_⟩
    unfold createdIn releasedIn
    apply List.Perm.filter
    simp only [List.filterMap_append, hmlc, hmlr]
    simp [Call.created, Call.released, Render_Destroy, releaseBuffers, releaseTransferBuffers,
      copyLoop, uploads, hd, hvs, hfs, hp]
    rw [List.perm_iff_count]
    intro x
    simp only [List.count_cons, List.count_nil]
    omega
  by_cases hcpass : env.copyPass = 0
  · simp only [SDL_AppInit, Bool.not_true, Bool.not_false, Bool.false_eq_true, if_true, if_false, h1, hw, hd, hcl, hcomp, hcp, hin, hist, hitr, hmal, hb, htx, hmap, hup, hcpass] at ho
    subst ho; left
    refine ⟨rfl, rfl, ?_⟩
    unfold createdIn releasedIn
    apply List.Perm.filter
    simp only [List.filterMap_append, hmlc, hmlr]
    simp [Call.created, Call.released, Render_Destroy, releaseBuffers, releaseTransferBuffers,
      copyLoop, uploads, hd, hvs, hfs, hp]
    rw [List.perm_iff_count]
    intro x
    simp only [List.count_cons, List.count_nil]
    omega
  rcases Bool.eq_false_or_eq_true env.contextAllocOk with hctx | hctx
  swap
  · simp only [SDL_AppInit, Bool.not_true, Bool.not_false, Bool.false_eq_true, if_true, if_false, h1, hw, hd, hcl, hcomp, hcp, hin, hist, hitr, hmal, hb, htx, hmap, hup, hcpass, hctx] at ho
    subst ho; left
    refine ⟨rfl, rfl, ?_⟩
    unfold createdIn releasedIn
    apply List.Perm.filter
    simp only [List.filterMap_append, hmlc, hmlr]
    simp [Call.created, Call.released, Render_Destroy, releaseBuffers, releaseTransferBuffers,
      copyLoop, uploads, hd, hvs, hfs, hp]
    rw [List.perm_iff_count]
    intro x
    simp only [List.count_cons, List.count_nil]
    omega
  simp only [SDL_AppInit, Bool.not_true, Bool.not_false, Bool.false_eq_true, if_true, if_false, h1, hw, hd, hcl, hcomp, hcp, hin, hist, hitr, hmal, hb, htx, hmap, hup, hcpass, hctx] at ho
  subst ho; right
  refine ⟨rfl, ⟨h1, hcl, hctx⟩, ⟨hw, hd, hcp, hvs, hfs, hp, hb, htx, hup, hcpass⟩, ?_, rfl, ?_⟩
  · exact (hmo hmap).1
  · refine ⟨(LoadShaderFile (env.fs
      (if decide (env.driverName = some "metal") = true then "assets/particles.comp.msl"
       else "assets/particles.comp.spv")) none 0).2.1,
      (LoadShaderFile (env.fs
      (if decide (env.driverName = some "metal") = true then "assets/particles.comp.msl"
       else "assets/particles.comp.spv")) none 0).2.2,
      (if decide (env.driverName = some "metal") = true then
        SDL_GPUShaderFormat.SDL_GPU_SHADERFORMAT_MSL
       else SDL_GPUShaderFormat.SDL_GPU_SHADERFORMAT_SPIRV), vinfo, finfo, ?_⟩
    simp [(hmo hmap).2]

/-! ## C1: compute workgroup counts -/

/-- C1: a frame that reaches the dispatch issues exactly one dispatch, with
group counts `(groupCountX n, 1, 1)` for the particle count `n` of the context,
and no dispatch otherwise, so the Y and Z counts are always 1.  For every
positive `int` count `n` that is a multiple of 64 the X count is `n / 64`.
For every positive `n` that is not a multiple of 64 the X count is the ceiling
of `n / 64` wherever the C expression `(numParticles + 63) / 64` has a value,
that is, wherever the sum `n + 63` is an `int`.  The expression has a value
for every count the program can run with: a count `n` whose buffers of
`sizeof(float) * n` bytes have a size that fits the `Uint32` size field has
such a sum, and the count stored by every successful `SDL_AppInit` is 1024,
for which the X count is 16. -/
theorem appIterate_group_count (context : AppContext) (env : FrameEnv) :
    dispatches (SDL_AppIterate context env).2 =
      (if env.cmdBuf ≠ 0 ∧ env.computePass ≠ 0 then
        [(groupCountX context.numParticles, 1, 1)] else []) ∧
    (0 < context.numParticles → context.numParticles ≤ INT_MAX →
      context.numParticles % 64 = 0 →
      (groupCountX context.numParticles : Int) = context.numParticles / 64) ∧
    (0 < context.numParticles → context.numParticles + 63 ≤ INT_MAX →
      context.numParticles % 64 ≠ 0 →
      (groupCountX context.numParticles : Int) = ceilDiv64 context.numParticles) ∧
    (0 < context.numParticles →
      (sizeof_float : Int) * context.numParticles ≤ 4294967295 →
      context.numParticles + 63 ≤ INT_MAX) ∧
    (∀ (appState : Option AppContext) (ienv : InitEnv),
      (SDL_AppInit appState ienv).result = SDL_AppResult.SDL_APP_CONTINUE →
      ∃ c, (SDL_AppInit appState ienv).appState = some c ∧ c.numParticles = 1024 ∧
        groupCountX c.numParticles = 16) := by
  refine ⟨?_, ?_, ?_, ?_, ?_⟩
  · by_cases hcb : env.cmdBuf = 0 <;> by_cases hcp : env.computePass = 0 <;>
      cases hacq : env.draw.acquireOk <;>
      by_cases htex : env.draw.swapchainTexture = 0 <;>
      by_cases hrp : env.draw.renderPass = 0 <;>
      simp [SDL_AppIterate, Render_Draw, dispatches, hcb, hcp, hacq, htex, hrp]
  · intro h0 h1 h64
    have hmax : context.numParticles + 63 ≤ INT_MAX := by
      unfold INT_MAX at *; omega
    rw [groupCountX_of_no_overflow _ h0 hmax]
    omega
  · intro h0 h1 _
    rw [groupCountX_of_no_overflow _ h0 h1, ceilDiv64_eq]
  · intro h0 h1
    unfold sizeof_float at h1
    unfold INT_MAX
    omega
  · intro appState ienv hres
    rcases SDL_AppInit_cases appState ienv with hf | hs
    · rw [hf.1] at hres
      cases hres
    · have h16 : groupCountX numParticles = 16 := by decide
      exact ⟨_, hs.2.2.2.2.1, rfl, h16⟩

/-- C1 (witness): the counts 1024 (a multiple of 64) and 1000 (not one), and
the context stored by the sample initialisation. -/
theorem appIterate_group_count_witness :
    dispatches (SDL_AppIterate (sampleContext 1024) sampleFrame).2 = [(16, 1, 1)] ∧
    (groupCountX (sampleContext 1024).numParticles : Int) = 1024 / 64 ∧
    (groupCountX (sampleContext 1000).numParticles : Int) = ceilDiv64 1000 ∧
    (sampleContext 1000).numParticles + 63 ≤ INT_MAX ∧
    (∃ c, (SDL_AppInit none sampleInit).appState = some c ∧ c.numParticles = 1024 ∧
      groupCountX c.numParticles = 16) :=
  ⟨by decide,
    (appIterate_group_count (sampleContext 1024) sampleFrame).2.1
      (by decide) (by decide) (by decide),
    (appIterate_group_count (sampleContext 1000) sampleFrame).2.2.1
      (by decide) (by decide) (by decide),
    (appIterate_group_count (sampleContext 1000) sampleFrame).2.2.2.1
      (by decide) (by decide),
    (appIterate_group_count (sampleContext 1000) sampleFrame).2.2.2.2
      none sampleInit (by decide)⟩

/-! ## C7: a failed `SDL_AppInit` leaves no device object behind -/

/-- C7: if any one of the six `SDL_CreateGPUBuffer` calls returns `NULL`,
`SDL_AppInit` returns `SDL_APP_FAILURE`; so it does if a staging buffer cannot
be created or mapped, the upload command buffer cannot be acquired, the copy
pass cannot begin, or the context cannot be allocated.  Whenever
`SDL_AppInit` returns `SDL_APP_FAILURE`, `*appState` is left as it was, and
the device objects released by the call (buffers, transfer buffers, shaders,
pipelines; releases of `NULL` aside) are, counted with multiplicity, exactly
the objects the call created: each one released once, none left allocated. -/
theorem appInit_failure_releases_all (appState : Option AppContext) (env : InitEnv) :
    ((env.xCurrBuffer = 0 ∨ env.yCurrBuffer = 0 ∨ env.xPrevBuffer = 0 ∨
        env.yPrevBuffer = 0 ∨ env.massBuffer = 0 ∨ env.densityBuffer = 0) →
      (SDL_AppInit appState env).result = SDL_AppResult.SDL_APP_FAILURE) ∧
    ((env.txXCurr = 0 ∨ env.txYCurr = 0 ∨ env.txXPrev = 0 ∨
        env.txYPrev = 0 ∨ env.txMass = 0 ∨ env.txDensity = 0) →
      (SDL_AppInit appState env).result = SDL_AppResult.SDL_APP_FAILURE) ∧
    ((∃ j, j < 6 ∧ env.mapOk j = false) →
      (SDL_AppInit appState env).result = SDL_AppResult.SDL_APP_FAILURE) ∧
    ((env.uploadCmdBuf = 0 ∨ env.copyPass = 0 ∨ env.contextAllocOk = false) →
      (SDL_AppInit appState env).result = SDL_AppResult.SDL_APP_FAILURE) ∧
    ((SDL_AppInit appState env).result = SDL_AppResult.SDL_APP_FAILURE →
      (SDL_AppInit appState env).appState = appState ∧
      (releasedIn (SDL_AppInit appState env).trace).Perm
        (createdIn (SDL_AppInit appState env).trace)) := by
  rcases SDL_AppInit_cases appState env with
    ⟨hres, hst, hperm⟩ | ⟨hres, ⟨_, _, hctx⟩, ⟨_, _, _, _, _, _, hb, htx, hup, hcp⟩, hmap, _, _⟩
  · exact ⟨fun _ => hres, fun _ => hres, fun _ => hres, fun _ => hres,
      fun _ => ⟨hst, hperm⟩⟩
  · refine ⟨fun h => absurd h hb, fun h => absurd h htx, ?_, ?_, ?_⟩
    · rintro ⟨j, hj, hbad⟩
      have := hmap j (by simpa [uploads] using hj)
      rw [Nat.zero_add] at this
      rw [this] at hbad
      exact absurd hbad (by decide)
    · rintro (h | h | h)
      · exact absurd h hup
      · exact absurd h hcp
      · rw [hctx] at h; exact absurd h (by decide)
    · intro h
      rw [hres] at h
      exact absurd h (by decide)

/-- C7 (witness): the run in which the sixth buffer allocation fails creates
the compute pipeline 6, shaders 3 and 4, graphics pipeline 5 and buffers 7 to
11, and has released all of them when it returns. -/
theorem appInit_failure_releases_all_witness :
    densityBufferFails.densityBuffer = 0 ∧
    (SDL_AppInit none densityBufferFails).result = SDL_AppResult.SDL_APP_FAILURE ∧
    (SDL_AppInit none densityBufferFails).appState = none ∧
    (releasedIn (SDL_AppInit none densityBufferFails).trace).Perm
      (createdIn (SDL_AppInit none densityBufferFails).trace) ∧
    (createdIn (SDL_AppInit none densityBufferFails).trace).length = 9 :=
  ⟨by decide,
    (appInit_failure_releases_all none densityBufferFails).1
      (Or.inr (Or.inr (Or.inr (Or.inr (Or.inr (by decide)))))),
    ((appInit_failure_releases_all none densityBufferFails).2.2.2.2 (by decide)).1,
    ((appInit_failure_releases_all none densityBufferFails).2.2.2.2 (by decide)).2,
    by decide⟩

/-! ## C8: the upload carries each host array to its own buffer -/

theorem writeAt_full (dst src : List F32) (h : src.length = dst.length) :
    writeAt dst 0 src = src := by
  unfold writeAt
  rw [List.take_zero, List.nil_append, Nat.zero_add, h, List.drop_length, List.append_nil,
    ← h, List.take_length]

theorem floatBufferSize_elems : floatBufferSize / sizeof_float = 1024 := by decide

theorem floatBufferSize_uint32 : floatBufferSize % 4294967296 = 4096 := by decide

theorem region_elems : 4096 / sizeof_float = 1024 := by decide

theorem numParticles_toNat : numParticles.toNat = 1024 := by decide

theorem hostXCurr_length (env : InitEnv) : (hostXCurr env).length = 1024 := by
  rw [hostXCurr, List.length_map, List.length_range, numParticles_toNat]

theorem hostYCurr_length (env : InitEnv) : (hostYCurr env).length = 1024 := by
  rw [hostYCurr, List.length_map, List.length_range, numParticles_toNat]

theorem hostXPrev_length (env : InitEnv) : (hostXPrev env).length = 1024 := by
  rw [hostXPrev, List.length_map, List.length_range, numParticles_toNat]

theorem hostYPrev_length (env : InitEnv) : (hostYPrev env).length = 1024 := by
  rw [hostYPrev, List.length_map, List.length_range, numParticles_toNat]

theorem hostMass_length : hostMass.length = 1024 := by
  rw [hostMass, List.length_map, List.length_range, numParticles_toNat]

theorem hostDensity_length : hostDensity.length = 1024 := by
  rw [hostDensity, List.length_map, List.length_range, numParticles_toNat]

theorem staged_array (data : List F32) (h : data.length = 1024) :
    writeAt (List.replicate 1024 f32_zero) 0 (data.take 1024) = data := by
  rw [List.take_of_length_le (le_of_eq h)]
  exact writeAt_full _ _ (by rw [h, List.length_replicate])

theorem uploaded_array (data : List F32) (h : data.length = 1024) :
    writeAt (List.replicate 1024 f32_zero) (0 / sizeof_float)
      ((data.drop (0 / sizeof_float)).take 1024) = data := by
  have h0 : 0 / sizeof_float = 0 := by decide
  rw [h0, List.drop_zero]
  exact staged_array data h

/-- C8: when `SDL_AppInit` succeeds (the library having returned pairwise
distinct buffers and pairwise distinct staging buffers), each of the six GPU
buffers stored in the context holds, element for element over all 1024
particles, the host array prepared for its own attribute; the six `SDL_memcpy`
calls fill each staging buffer from its own host array with the full byte
size, and the six uploads copy each staging buffer from offset 0 to offset 0
of its own GPU buffer with the full byte size. -/
theorem appInit_upload_roundtrip (appState : Option AppContext) (env : InitEnv)
    (m0 : DeviceMemory)
    (hres : (SDL_AppInit appState env).result = SDL_AppResult.SDL_APP_CONTINUE)
    (hbuf : [ env.xCurrBuffer, env.yCurrBuffer, env.xPrevBuffer, env.yPrevBuffer,
      env.massBuffer, env.densityBuffer ].Nodup)
    (htx : [ env.txXCurr, env.txYCurr, env.txXPrev, env.txYPrev, env.txMass,
      env.txDensity ].Nodup) :
    (∃ context, (SDL_AppInit appState env).appState = some context ∧
      (m0.run (SDL_AppInit appState env).trace).buffers context.xCurrBuffer =
        hostXCurr env ∧
      (m0.run (SDL_AppInit appState env).trace).buffers context.yCurrBuffer =
        hostYCurr env ∧
      (m0.run (SDL_AppInit appState env).trace).buffers context.xPrevBuffer =
        hostXPrev env ∧
      (m0.run (SDL_AppInit appState env).trace).buffers context.yPrevBuffer =
        hostYPrev env ∧
      (m0.run (SDL_AppInit appState env).trace).buffers context.massBuffer = hostMass ∧
      (m0.run (SDL_AppInit appState env).trace).buffers context.densityBuffer =
        hostDensity) ∧
    memcpys (SDL_AppInit appState env).trace =
      [ (env.txXCurr, hostXCurr env, floatBufferSize),
        (env.txYCurr, hostYCurr env, floatBufferSize),
        (env.txXPrev, hostXPrev env, floatBufferSize),
        (env.txYPrev, hostYPrev env, floatBufferSize),
        (env.txMass, hostMass, floatBufferSize),
        (env.txDensity, hostDensity, floatBufferSize) ] ∧
    uploadCalls (SDL_AppInit appState env).trace =
      [ (⟨env.txXCurr, 0⟩, ⟨env.xCurrBuffer, 0, 4096⟩),
        (⟨env.txYCurr, 0⟩, ⟨env.yCurrBuffer, 0, 4096⟩),
        (⟨env.txXPrev, 0⟩, ⟨env.xPrevBuffer, 0, 4096⟩),
        (⟨env.txYPrev, 0⟩, ⟨env.yPrevBuffer, 0, 4096⟩),
        (⟨env.txMass, 0⟩, ⟨env.massBuffer, 0, 4096⟩),
        (⟨env.txDensity, 0⟩, ⟨env.densityBuffer, 0, 4096⟩) ] ∧
    floatBufferSize = 4 * 1024 ∧
    (hostXCurr env).length = 1024 ∧ (hostYCurr env).length = 1024 ∧
    (hostXPrev env).length = 1024 ∧ (hostYPrev env).length = 1024 ∧
    hostMass.length = 1024 ∧ hostDensity.length = 1024 := by
  rcases SDL_AppInit_cases appState env with
    ⟨hfail, _, _⟩ | ⟨_, _, ⟨_, _, _, _, _, _, hb, ht, _, _⟩, _, hst, code, size, format,
      vinfo, finfo, htrace⟩
  · rw [hfail] at hres; exact absurd hres (by decide)
  · refine ⟨⟨_, hst, ?_⟩, ?_, ?_, by decide, hostXCurr_length env, hostYCurr_length env,
      hostXPrev_length env, hostYPrev_length env, hostMass_length, hostDensity_length⟩
    rotate_left
    · rw [htrace]
      simp [memcpys, uploads, copyLoop, releaseTransferBuffers]
    · rw [htrace]
      simp [uploadCalls, uploads, copyLoop, releaseTransferBuffers, floatBufferSize_uint32]
    rw [htrace]
    simp only [not_or] at hb ht
    obtain ⟨hb1, hb2, hb3, hb4, hb5, hb6⟩ := hb
    obtain ⟨ht1, ht2, ht3, ht4, ht5, ht6⟩ := ht
    simp only [List.nodup_cons, List.mem_cons, List.mem_singleton, not_or, List.not_mem_nil,
      not_false_eq_true, List.nodup_nil, and_true] at hbuf htx
    obtain ⟨⟨b12, b13, b14, b15, b16⟩, ⟨b23, b24, b25, b26⟩, ⟨b34, b35, b36⟩, ⟨b45, b46⟩, b56⟩ := hbuf
    obtain ⟨⟨t12, t13, t14, t15, t16⟩, ⟨t23, t24, t25, t26⟩, ⟨t34, t35, t36⟩, ⟨t45, t46⟩, t56⟩ := htx
    simp only [DeviceMemory.run, uploads, copyLoop, releaseTransferBuffers, List.flatMap_cons,
      List.flatMap_nil, List.map_cons, List.map_nil, List.append_assoc, List.cons_append,
      List.nil_append, List.foldl_cons, List.foldl_nil, List.foldl_append]
    simp only [DeviceMemory.step, hb1, hb2, hb3, hb4, hb5, hb6, ht1, ht2, ht3, ht4, ht5, ht6,
      if_false, bufferCreateInfo, transferCreateInfo, floatBufferSize_uint32]
    simp only [Function.update_apply]
    simp only [b12, b13, b14, b15, b16, b23, b24, b25, b26, b34, b35, b36, b45, b46, b56,
      Ne.symm b12, Ne.symm b13, Ne.symm b14, Ne.symm b15, Ne.symm b16, Ne.symm b23,
      Ne.symm b24, Ne.symm b25, Ne.symm b26, Ne.symm b34, Ne.symm b35, Ne.symm b36,
      Ne.symm b45, Ne.symm b46, Ne.symm b56,
      t12, t13, t14, t15, t16, t23, t24, t25, t26, t34, t35, t36, t45, t46, t56,
      Ne.symm t12, Ne.symm t13, Ne.symm t14, Ne.symm t15, Ne.symm t16, Ne.symm t23,
      Ne.symm t24, Ne.symm t25, Ne.symm t26, Ne.symm t34, Ne.symm t35, Ne.symm t36,
      Ne.symm t45, Ne.symm t46, Ne.symm t56, if_true, if_false, region_elems,
      floatBufferSize_elems]
    rw [staged_array _ (hostXCurr_length env), uploaded_array _ (hostXCurr_length env),
      staged_array _ (hostYCurr_length env), uploaded_array _ (hostYCurr_length env),
      staged_array _ (hostXPrev_length env), uploaded_array _ (hostXPrev_length env),
      staged_array _ (hostYPrev_length env), uploaded_array _ (hostYPrev_length env),
      staged_array _ hostMass_length, uploaded_array _ hostMass_length,
      staged_array _ hostDensity_length, uploaded_array _ hostDensity_length]
    exact ⟨rfl, rfl, rfl, rfl, rfl, rfl⟩

/-- C8 (witness): the sample run, in which every call succeeds, started on an
empty device memory: the six buffers of the context end up holding the six
host arrays. -/
theorem appInit_upload_roundtrip_witness :
    (SDL_AppInit none sampleInit).result = SDL_AppResult.SDL_APP_CONTINUE ∧
    [ sampleInit.xCurrBuffer, sampleInit.yCurrBuffer, sampleInit.xPrevBuffer,
      sampleInit.yPrevBuffer, sampleInit.massBuffer, sampleInit.densityBuffer ].Nodup ∧
    [ sampleInit.txXCurr, sampleInit.txYCurr, sampleInit.txXPrev, sampleInit.txYPrev,
      sampleInit.txMass, sampleInit.txDensity ].Nodup ∧
    (∃ context, (SDL_AppInit none sampleInit).appState = some context ∧
      (emptyMemory.run (SDL_AppInit none sampleInit).trace).buffers context.xCurrBuffer =
        hostXCurr sampleInit ∧
      (emptyMemory.run (SDL_AppInit none sampleInit).trace).buffers context.yCurrBuffer =
        hostYCurr sampleInit ∧
      (emptyMemory.run (SDL_AppInit none sampleInit).trace).buffers context.xPrevBuffer =
        hostXPrev sampleInit ∧
      (emptyMemory.run (SDL_AppInit none sampleInit).trace).buffers context.yPrevBuffer =
        hostYPrev sampleInit ∧
      (emptyMemory.run (SDL_AppInit none sampleInit).trace).buffers context.massBuffer =
        hostMass ∧
      (emptyMemory.run (SDL_AppInit none sampleInit).trace).buffers context.densityBuffer =
        hostDensity) :=
  ⟨by decide, by decide, by decide,
    (appInit_upload_roundtrip none sampleInit emptyMemory (by decide) (by decide)
      (by decide)).1⟩

/-! ## C9: teardown called twice -/

/-- C9 (counterexample): `Render_Destroy` called twice in succession on the
same state (shaders 3 and 4, pipeline 5, device 2) releases the pipeline and
both shaders a second time: the second call makes three release calls, and
the pipeline 5 is released twice in total. -/
theorem renderDestroy_twice_counterexample :
    (Render_Destroy (Render_Destroy (some sampleState) 2).1 2).2 =
      [ Call.SDL_ReleaseGPUGraphicsPipeline 2 5,
        Call.SDL_ReleaseGPUShader 2 3,
        Call.SDL_ReleaseGPUShader 2 4 ] ∧
    ((Render_Destroy (some sampleState) 2).2 ++
      (Render_Destroy (Render_Destroy (some sampleState) 2).1 2).2).count
        (Call.SDL_ReleaseGPUGraphicsPipeline 2 5) = 2 := by
  decide

theorem release_piece (c : Call) (k : ResourceKind) (h : Handle)
    (hc : c.released = some (k, h)) :
    List.filterMap Call.released (if h ≠ 0 then [c] else []) =
      List.filter Resource.live [(k, h)] := by
  by_cases h0 : h = 0 <;> simp [h0, hc, Resource.live]

theorem Render_Destroy_state (state : Option RenderState) (device : Handle) :
    (Render_Destroy state device).1 = state := by
  cases state with
  | none => rfl
  | some st => by_cases hd : device = 0 <;> simp [Render_Destroy, hd]

theorem Render_Destroy_nil_iff (state : Option RenderState) (device : Handle) :
    (Render_Destroy state device).2 = [] ↔
      (state = none ∨ device = 0 ∨
        ∃ st, state = some st ∧ st.pipeline = 0 ∧ st.vertexShader = 0 ∧
          st.fragmentShader = 0) := by
  cases state with
  | none => simp [Render_Destroy]
  | some st =>
    by_cases hd : device = 0
    · simp [Render_Destroy, hd]
    · by_cases hp : st.pipeline = 0 <;> by_cases hv : st.vertexShader = 0 <;>
        by_cases hf : st.fragmentShader = 0 <;> simp [Render_Destroy, hd, hp, hv, hf]

theorem Render_Destroy_releaseCalls (state : Option RenderState) (device : Handle) :
    releaseCalls (Render_Destroy state device).2 =
      (match state with
       | none => []
       | some st => if device = 0 then [] else st.resources.filter Resource.live) := by
  cases state with
  | none => simp [Render_Destroy, releaseCalls]
  | some st =>
    by_cases hd : device = 0
    · simp [Render_Destroy, releaseCalls, hd]
    · by_cases hp : st.pipeline = 0 <;> by_cases hv : st.vertexShader = 0 <;>
        by_cases hf : st.fragmentShader = 0 <;>
        simp [Render_Destroy, releaseCalls, RenderState.resources, Resource.live,
          Call.released, hd, hp, hv, hf]

theorem Render_Destroy_only_releases (state : Option RenderState) (device : Handle) :
    (releaseCalls (Render_Destroy state device).2).length =
      (Render_Destroy state device).2.length := by
  cases state with
  | none => simp [Render_Destroy, releaseCalls]
  | some st =>
    by_cases hd : device = 0
    · simp [Render_Destroy, releaseCalls, hd]
    · by_cases hp : st.pipeline = 0 <;> by_cases hv : st.vertexShader = 0 <;>
        by_cases hf : st.fragmentShader = 0 <;>
        simp [Render_Destroy, releaseCalls, Call.released, hd, hp, hv, hf]

theorem SDL_AppQuit_releaseCalls (context : AppContext) :
    releaseCalls (SDL_AppQuit (some context)) =
      (if context.device = 0 then [] else context.resources.filter Resource.live) := by
  by_cases hd : context.device = 0
  · simp [SDL_AppQuit, releaseCalls, hd, Call.released]
  · have hw : List.filterMap Call.released
        (if context.window ≠ 0 then
          [ Call.SDL_ReleaseWindowFromGPUDevice context.device context.window,
            Call.SDL_DestroyWindow context.window ]
         else []) = [] := by
      by_cases h : context.window = 0 <;> simp [h, Call.released]
    simp only [SDL_AppQuit, Render_Destroy, releaseCalls, hd, ne_eq, not_false_eq_true,
      if_true, if_false, List.filterMap_append]
    simp only [← ne_eq] at hw ⊢
    rw [hw,
      release_piece (Call.SDL_ReleaseGPUComputePipeline context.device context.computePipeline)
        _ _ rfl,
      release_piece (Call.SDL_ReleaseGPUGraphicsPipeline context.device context.render.pipeline)
        _ _ rfl,
      release_piece (Call.SDL_ReleaseGPUShader context.device context.render.vertexShader) _ _ rfl,
      release_piece (Call.SDL_ReleaseGPUShader context.device context.render.fragmentShader) _ _ rfl,
      release_piece (Call.SDL_ReleaseGPUBuffer context.device context.xCurrBuffer) _ _ rfl,
      release_piece (Call.SDL_ReleaseGPUBuffer context.device context.yCurrBuffer) _ _ rfl,
      release_piece (Call.SDL_ReleaseGPUBuffer context.device context.xPrevBuffer) _ _ rfl,
      release_piece (Call.SDL_ReleaseGPUBuffer context.device context.yPrevBuffer) _ _ rfl,
      release_piece (Call.SDL_ReleaseGPUBuffer context.device context.massBuffer) _ _ rfl,
      release_piece (Call.SDL_ReleaseGPUBuffer context.device context.densityBuffer) _ _ rfl]
    simp only [← List.filter_append, List.filterMap_cons, List.filterMap_nil, Call.released,
      List.append_nil]
    rfl

theorem SDL_AppQuit_null : SDL_AppQuit none = [Call.SDL_Quit] := rfl

/-- C9 (amended): teardown clears no handle.  `Render_Destroy` leaves the
`RenderState` as it found it, so a second call on the same state makes exactly
the calls of the first; the second call releases nothing only when the state
pointer is null, the device is null, or all three handles are null.  Within
one call `Render_Destroy` releases each non-null handle field once, and so
does `SDL_AppQuit` for the compute pipeline, the render state and the six
buffers when the device is non-null; `SDL_AppQuit` on a null context releases
nothing. -/
theorem teardown_not_idempotent (state : Option RenderState) (device : Handle)
    (context : AppContext) :
    (Render_Destroy state device).1 = state ∧
    (Render_Destroy (Render_Destroy state device).1 device).2 =
      (Render_Destroy state device).2 ∧
    ((Render_Destroy (Render_Destroy state device).1 device).2 = [] ↔
      (state = none ∨ device = 0 ∨
        ∃ st, state = some st ∧ st.pipeline = 0 ∧ st.vertexShader = 0 ∧
          st.fragmentShader = 0)) ∧
    releaseCalls (Render_Destroy state device).2 =
      (match state with
       | none => []
       | some st => if device = 0 then [] else st.resources.filter Resource.live) ∧
    releaseCalls (SDL_AppQuit (some context)) =
      (if context.device = 0 then [] else context.resources.filter Resource.live) ∧
    releaseCalls (SDL_AppQuit none) = [] :=
  ⟨Render_Destroy_state state device,
    by rw [Render_Destroy_state],
    by rw [Render_Destroy_state]; exact Render_Destroy_nil_iff state device,
    Render_Destroy_releaseCalls state device,
    SDL_AppQuit_releaseCalls context,
    rfl⟩

/-! ## C10: teardown of a partially built state -/

/-- C10: for every combination of null and non-null handles, `Render_Destroy`
issues a release call for an object exactly when the state pointer and the
device are non-null and the object is a non-null handle field of the state,
and it makes no other call; `SDL_AppQuit` issues a release call for an object
exactly when the device is non-null and the object is a non-null pipeline,
shader or buffer field of the context, releases and destroys the window
exactly when device and window are non-null, and destroys the device exactly
when it is non-null.  With a null context `SDL_AppQuit` only calls `SDL_Quit`;
`Render_Destroy` with a null state or a null device makes no call. -/
theorem teardown_releases_exactly_held (st : RenderState) (device : Handle)
    (context : AppContext) :
    (∀ r : Resource, r ∈ releaseCalls (Render_Destroy (some st) device).2 ↔
      (device ≠ 0 ∧ r.2 ≠ 0 ∧ r ∈ st.resources)) ∧
    (releaseCalls (Render_Destroy (some st) device).2).length =
      (Render_Destroy (some st) device).2.length ∧
    (Render_Destroy none device).2 = [] ∧
    (Render_Destroy (some st) 0).2 = [] ∧
    (∀ r : Resource, r ∈ releaseCalls (SDL_AppQuit (some context)) ↔
      (context.device ≠ 0 ∧ r.2 ≠ 0 ∧ r ∈ context.resources)) ∧
    (∀ d w : Handle, Call.SDL_ReleaseWindowFromGPUDevice d w ∈ SDL_AppQuit (some context) ↔
      (context.device ≠ 0 ∧ w ≠ 0 ∧ d = context.device ∧ w = context.window)) ∧
    (∀ w : Handle, Call.SDL_DestroyWindow w ∈ SDL_AppQuit (some context) ↔
      (context.device ≠ 0 ∧ w ≠ 0 ∧ w = context.window)) ∧
    (∀ d : Handle, Call.SDL_DestroyGPUDevice d ∈ SDL_AppQuit (some context) ↔
      (d ≠ 0 ∧ d = context.device)) ∧
    SDL_AppQuit none = [Call.SDL_Quit] := by
  refine ⟨?_, Render_Destroy_only_releases _ _, rfl, ?_, ?_, ?_, ?_, ?_, rfl⟩
  · intro r
    rw [Render_Destroy_releaseCalls]
    by_cases hd : device = 0
    · simp [hd]
    · simp only [hd, if_false, List.mem_filter, Resource.live, decide_eq_true_eq, ne_eq,
        not_false_eq_true, true_and]
      tauto
  · simp [Render_Destroy]
  · intro r
    rw [SDL_AppQuit_releaseCalls]
    by_cases hd : context.device = 0
    · simp [hd]
    · simp only [hd, if_false, List.mem_filter, Resource.live, decide_eq_true_eq, ne_eq,
        not_false_eq_true, true_and]
      tauto
  · intro d w
    by_cases hd : context.device = 0
    · simp [SDL_AppQuit, hd]
    · by_cases hw : context.window = 0
      · simp [SDL_AppQuit, Render_Destroy, hd, hw]
        rintro h1 rfl
        exact h1
      · simp [SDL_AppQuit, Render_Destroy, hd, hw]
        rintro rfl rfl
        exact hw
  · intro w
    by_cases hd : context.device = 0
    · simp [SDL_AppQuit, hd]
    · by_cases hw : context.window = 0
      · simp [SDL_AppQuit, Render_Destroy, hd, hw]
      · simp [SDL_AppQuit, Render_Destroy, hd, hw]
        rintro rfl
        exact hw
  · intro d
    by_cases hd : context.device = 0
    · simp [SDL_AppQuit, hd]
    · simp [SDL_AppQuit, Render_Destroy, hd]
      rintro rfl
      exact hd

/-! ## C11: order of the releases of `SDL_AppQuit` -/

/-- C11 (counterexample): the sample run of `SDL_AppInit` creates compute
pipeline 6, shaders 3 and 4, graphics pipeline 5 and buffers 7 to 12 in this
order; `SDL_AppQuit` on the resulting context releases 6, 5, 3, 4, 7, ..., 12:
the compute pipeline first and the buffers in creation order, which is not the
reversal of the creation order (with or without the shaders counted). -/
theorem appQuit_order_counterexample :
    (SDL_AppInit none sampleInit).result = SDL_AppResult.SDL_APP_CONTINUE ∧
    keptCreations (SDL_AppInit none sampleInit).trace =
      [ (ResourceKind.computePipeline, 6), (ResourceKind.shader, 3),
        (ResourceKind.shader, 4), (ResourceKind.graphicsPipeline, 5),
        (ResourceKind.buffer, 7), (ResourceKind.buffer, 8), (ResourceKind.buffer, 9),
        (ResourceKind.buffer, 10), (ResourceKind.buffer, 11), (ResourceKind.buffer, 12) ] ∧
    releaseCalls (SDL_AppQuit (SDL_AppInit none sampleInit).appState) =
      [ (ResourceKind.computePipeline, 6), (ResourceKind.graphicsPipeline, 5),
        (ResourceKind.shader, 3), (ResourceKind.shader, 4),
        (ResourceKind.buffer, 7), (ResourceKind.buffer, 8), (ResourceKind.buffer, 9),
        (ResourceKind.buffer, 10), (ResourceKind.buffer, 11), (ResourceKind.buffer, 12) ] ∧
    releaseCalls (SDL_AppQuit (SDL_AppInit none sampleInit).appState) ≠
      (keptCreations (SDL_AppInit none sampleInit).trace).reverse ∧
    (releaseCalls (SDL_AppQuit (SDL_AppInit none sampleInit).appState)).filter
        (fun r => decide (r.1 ≠ ResourceKind.shader)) ≠
      ((keptCreations (SDL_AppInit none sampleInit).trace).filter
        (fun r => decide (r.1 ≠ ResourceKind.shader))).reverse := by
  decide

/-- C11 (amended): on the context stored by a successful `SDL_AppInit`,
`SDL_AppQuit` releases, each exactly once, the objects `SDL_AppInit` created
and kept, in the fixed order compute pipeline, graphics pipeline, vertex
shader, fragment shader, then the buffers x-current, y-current, x-previous,
y-previous, mass, density.  The creation order was compute pipeline, vertex
shader, fragment shader, graphics pipeline, then the same six buffers: the
releases follow the creation order except that the graphics pipeline comes
before the two shaders. -/
theorem appQuit_release_order (appState : Option AppContext) (env : InitEnv)
    (hres : (SDL_AppInit appState env).result = SDL_AppResult.SDL_APP_CONTINUE) :
    keptCreations (SDL_AppInit appState env).trace =
      [ (ResourceKind.computePipeline, env.computePipeline),
        (ResourceKind.shader, env.vertexShader),
        (ResourceKind.shader, env.fragmentShader),
        (ResourceKind.graphicsPipeline, env.pipeline),
        (ResourceKind.buffer, env.xCurrBuffer), (ResourceKind.buffer, env.yCurrBuffer),
        (ResourceKind.buffer, env.xPrevBuffer), (ResourceKind.buffer, env.yPrevBuffer),
        (ResourceKind.buffer, env.massBuffer), (ResourceKind.buffer, env.densityBuffer) ] ∧
    releaseCalls (SDL_AppQuit (SDL_AppInit appState env).appState) =
      [ (ResourceKind.computePipeline, env.computePipeline),
        (ResourceKind.graphicsPipeline, env.pipeline),
        (ResourceKind.shader, env.vertexShader),
        (ResourceKind.shader, env.fragmentShader),
        (ResourceKind.buffer, env.xCurrBuffer), (ResourceKind.buffer, env.yCurrBuffer),
        (ResourceKind.buffer, env.xPrevBuffer), (ResourceKind.buffer, env.yPrevBuffer),
        (ResourceKind.buffer, env.massBuffer), (ResourceKind.buffer, env.densityBuffer) ] ∧
    (releaseCalls (SDL_AppQuit (SDL_AppInit appState env).appState)).Perm
      (keptCreations (SDL_AppInit appState env).trace) := by
  rcases SDL_AppInit_cases appState env with
    ⟨hfail, _, _⟩ | ⟨_, _, ⟨_, hd, hcp, hvs, hfs, hp, hb, ht, _, _⟩, _, hst, code, size,
      format, vinfo, finfo, htrace⟩
  · rw [hfail] at hres; exact absurd hres (by decide)
  · simp only [not_or] at hb ht
    obtain ⟨hb1, hb2, hb3, hb4, hb5, hb6⟩ := hb
    obtain ⟨ht1, ht2, ht3, ht4, ht5, ht6⟩ := ht
    have hcreated : keptCreations (SDL_AppInit appState env).trace =
      [ (ResourceKind.computePipeline, env.computePipeline),
        (ResourceKind.shader, env.vertexShader),
        (ResourceKind.shader, env.fragmentShader),
        (ResourceKind.graphicsPipeline, env.pipeline),
        (ResourceKind.buffer, env.xCurrBuffer), (ResourceKind.buffer, env.yCurrBuffer),
        (ResourceKind.buffer, env.xPrevBuffer), (ResourceKind.buffer, env.yPrevBuffer),
        (ResourceKind.buffer, env.massBuffer), (ResourceKind.buffer, env.densityBuffer) ] := by
      rw [htrace]
      simp [keptCreations, createdIn, Call.created, Resource.live, uploads, copyLoop,
        releaseTransferBuffers, hcp, hvs, hfs, hp, hb1, hb2, hb3, hb4, hb5, hb6,
        ht1, ht2, ht3, ht4, ht5, ht6]
    have hreleased : releaseCalls (SDL_AppQuit (SDL_AppInit appState env).appState) =
      [ (ResourceKind.computePipeline, env.computePipeline),
        (ResourceKind.graphicsPipeline, env.pipeline),
        (ResourceKind.shader, env.vertexShader),
        (ResourceKind.shader, env.fragmentShader),
        (ResourceKind.buffer, env.xCurrBuffer), (ResourceKind.buffer, env.yCurrBuffer),
        (ResourceKind.buffer, env.xPrevBuffer), (ResourceKind.buffer, env.yPrevBuffer),
        (ResourceKind.buffer, env.massBuffer), (ResourceKind.buffer, env.densityBuffer) ] := by
      rw [hst, SDL_AppQuit_releaseCalls]
      simp [AppContext.resources, RenderState.resources, Resource.live, hd, hcp, hvs, hfs,
        hp, hb1, hb2, hb3, hb4, hb5, hb6]
    refine ⟨hcreated, hreleased, ?_⟩
    rw [hcreated, hreleased, List.perm_iff_count]
    intro x
    simp only [List.count_cons, List.count_nil]
    omega

/-- C11 (witness): the sample run, in which every call of `SDL_AppInit`
succeeds. -/
theorem appQuit_release_order_witness :
    (SDL_AppInit none sampleInit).result = SDL_AppResult.SDL_APP_CONTINUE ∧
    (releaseCalls (SDL_AppQuit (SDL_AppInit none sampleInit).appState)).Perm
      (keptCreations (SDL_AppInit none sampleInit).trace) :=
  ⟨by decide, (appQuit_release_order none sampleInit (by decide)).2.2⟩

/-! ## C12: no wait for device idle in `SDL_AppQuit` -/

/-- C12 (counterexample): on the fully populated sample context the first
call of `SDL_AppQuit` is the release of the compute pipeline, the six buffer
releases follow the shader releases directly, and the whole trace holds no
wait for device idle. -/
theorem appQuit_idle_wait_counterexample :
    SDL_AppQuit (some (sampleContext 1024)) =
      [ Call.SDL_ReleaseGPUComputePipeline 2 6,
        Call.SDL_ReleaseGPUGraphicsPipeline 2 5,
        Call.SDL_ReleaseGPUShader 2 3,
        Call.SDL_ReleaseGPUShader 2 4,
        Call.SDL_ReleaseGPUBuffer 2 7,
        Call.SDL_ReleaseGPUBuffer 2 8,
        Call.SDL_ReleaseGPUBuffer 2 9,
        Call.SDL_ReleaseGPUBuffer 2 10,
        Call.SDL_ReleaseGPUBuffer 2 11,
        Call.SDL_ReleaseGPUBuffer 2 12,
        Call.SDL_ReleaseWindowFromGPUDevice 2 1,
        Call.SDL_DestroyWindow 1,
        Call.SDL_DestroyGPUDevice 2,
        Call.SDL_free_context,
        Call.SDL_Quit ] ∧
    (SDL_AppQuit (some (sampleContext 1024))).filter Call.isIdleWait = [] ∧
    ((SDL_AppQuit (some (sampleContext 1024))).filter
      Call.isBufferOrPipelineRelease).length = 8 := by
  decide

theorem SDL_AppQuit_split (context : AppContext) (hd : context.device ≠ 0) :
    SDL_AppQuit (some context) =
      ((if context.computePipeline ≠ 0 then
          [Call.SDL_ReleaseGPUComputePipeline context.device context.computePipeline]
        else []) ++
       (Render_Destroy (some context.render) context.device).2 ++
       (if context.xCurrBuffer ≠ 0 then
          [Call.SDL_ReleaseGPUBuffer context.device context.xCurrBuffer] else []) ++
       (if context.yCurrBuffer ≠ 0 then
          [Call.SDL_ReleaseGPUBuffer context.device context.yCurrBuffer] else []) ++
       (if context.xPrevBuffer ≠ 0 then
          [Call.SDL_ReleaseGPUBuffer context.device context.xPrevBuffer] else []) ++
       (if context.yPrevBuffer ≠ 0 then
          [Call.SDL_ReleaseGPUBuffer context.device context.yPrevBuffer] else []) ++
       (if context.massBuffer ≠ 0 then
          [Call.SDL_ReleaseGPUBuffer context.device context.massBuffer] else []) ++
       (if context.densityBuffer ≠ 0 then
          [Call.SDL_ReleaseGPUBuffer context.device context.densityBuffer] else [])) ++
      ((if context.window ≠ 0 then
          [ Call.SDL_ReleaseWindowFromGPUDevice context.device context.window,
            Call.SDL_DestroyWindow context.window ]
        else []) ++
       [ Call.SDL_DestroyGPUDevice context.device, Call.SDL_free_context, Call.SDL_Quit ]) := by
  simp only [SDL_AppQuit, hd, ne_eq, not_false_eq_true, if_true, List.append_assoc,
    List.cons_append, List.nil_append]

/-- C12 (amended): `SDL_AppQuit` performs no wait for device idle, whatever
the context.  Its trace is a run of release calls (compute pipeline, graphics
pipeline, shaders, buffers; only for non-null handles) followed by calls that
release nothing: the release and destruction of the window, the destruction
of the device, the freeing of the context and `SDL_Quit`.  So every buffer and
pipeline release precedes the destruction of the device, and nothing but
other releases precedes it. -/
theorem appQuit_never_waits (appState : Option AppContext) :
    (SDL_AppQuit appState).filter Call.isIdleWait = [] ∧
    ∃ releases rest : List Call,
      SDL_AppQuit appState = releases ++ rest ∧
      (∀ c ∈ releases, c.released.isSome = true) ∧
      (∀ c ∈ rest, c.released = none) ∧
      rest.getLast? = some Call.SDL_Quit := by
  cases appState with
  | none =>
    refine ⟨by decide, [], [Call.SDL_Quit], rfl, by simp, by simp [Call.released], rfl⟩
  | some context =>
    by_cases hd : context.device = 0
    · refine ⟨by simp [SDL_AppQuit, hd, Call.isIdleWait], [],
        [Call.SDL_free_context, Call.SDL_Quit], by simp [SDL_AppQuit, hd], by simp,
        by simp [Call.released], rfl⟩
    · have hrd : ∀ c ∈ (Render_Destroy (some context.render) context.device).2,
          c.released.isSome = true ∧ c.isIdleWait = false := by
        intro c hc
        by_cases hp : context.render.pipeline = 0 <;>
          by_cases hv : context.render.vertexShader = 0 <;>
          by_cases hf : context.render.fragmentShader = 0 <;>
          simp [Render_Destroy, hd, hp, hv, hf] at hc <;>
          (try rcases hc with rfl | rfl | rfl) <;>
          simp [Call.released, Call.isIdleWait]
      rw [SDL_AppQuit_split context hd]
      refine ⟨?_, _, _, rfl, ?_, ?_, ?_⟩
      · rw [List.filter_eq_nil_iff]
        intro c hc
        simp only [List.mem_append, List.mem_ite_nil_right, List.mem_singleton,
          List.mem_cons, List.mem_nil_iff, or_false] at hc
        rcases hc with ((((((((⟨_, rfl⟩ | hc) | ⟨_, rfl⟩) | ⟨_, rfl⟩) | ⟨_, rfl⟩) |
          ⟨_, rfl⟩) | ⟨_, rfl⟩) | ⟨_, rfl⟩) | (⟨_, rfl | rfl⟩ | rfl | rfl | rfl))
        all_goals first
          | simp [(hrd _ hc).2]
          | simp [Call.isIdleWait]
      · intro c hc
        simp only [List.mem_append, List.mem_ite_nil_right, List.mem_singleton] at hc
        rcases hc with ((((((⟨_, rfl⟩ | hc) | ⟨_, rfl⟩) | ⟨_, rfl⟩) | ⟨_, rfl⟩) |
          ⟨_, rfl⟩) | ⟨_, rfl⟩) | ⟨_, rfl⟩
        all_goals first
          | exact (hrd _ hc).1
          | simp [Call.released]
      · intro c hc
        simp only [List.mem_append, List.mem_ite_nil_right, List.mem_singleton,
          List.mem_cons, List.mem_nil_iff, or_false] at hc
        rcases hc with ⟨_, rfl | rfl⟩ | rfl | rfl | rfl <;> simp [Call.released]
      · by_cases hw : context.window = 0 <;> simp [hw]

/-! ## C13: the viewport follows the drawable size -/

/-- C13 (counterexample): when the window reports the drawable size `(0, 0)`
and the render pass is reached, the viewport set by `Render_Draw` has width
`1.0f` and height `1.0f`: it is 1 by 1, not 0 by 0. -/
theorem viewport_zero_size_counterexample :
    zeroSizeDraw.acquireOk = true ∧ zeroSizeDraw.swapchainTexture ≠ 0 ∧
    zeroSizeDraw.renderPass ≠ 0 ∧
    zeroSizeDraw.viewportWidth = 0 ∧ zeroSizeDraw.viewportHeight = 0 ∧
    viewports (Render_Draw sampleState 20 1 7 8 1024 zeroSizeDraw).2 =
      [ { x := f32_zero, y := f32_zero, w := f32_one, h := f32_one,
          min_depth := f32_zero, max_depth := f32_one } ] ∧
    f32_value f32_one = 1 ∧
    f32_value f32_one ≠ ((zeroSizeDraw.viewportWidth : Int) : ℚ) ∧
    f32_value f32_one ≠ ((zeroSizeDraw.viewportHeight : Int) : ℚ) := by
  refine ⟨by decide, by decide, by decide, by decide, by decide, by decide,
    f32_value_one, ?_, ?_⟩
  · rw [f32_value_one]
    show (1 : ℚ) ≠ ((0 : Int) : ℚ)
    norm_num
  · rw [f32_value_one]
    show (1 : ℚ) ≠ ((0 : Int) : ℚ)
    norm_num

theorem Render_Draw_memory (state : RenderState) (cmdBuf window xCurr yCurr : Handle)
    (numParticles : Int) (env : DrawEnv) (m : DeviceMemory) :
    m.run (Render_Draw state cmdBuf window xCurr yCurr numParticles env).2 = m := by
  cases hacq : env.acquireOk <;> by_cases htex : env.swapchainTexture = 0 <;>
    by_cases hrp : env.renderPass = 0 <;>
    simp [Render_Draw, DeviceMemory.run, DeviceMemory.step, hacq, htex, hrp]

theorem Render_Draw_writes_nothing (state : RenderState)
    (cmdBuf window xCurr yCurr : Handle) (numParticles : Int) (env : DrawEnv)
    (b : Handle) :
    ∀ c ∈ (Render_Draw state cmdBuf window xCurr yCurr numParticles env).2,
      c.writesBuffer b = false := by
  intro c hc
  cases hacq : env.acquireOk <;> by_cases htex : env.swapchainTexture = 0 <;>
    by_cases hrp : env.renderPass = 0 <;>
    simp [Render_Draw, hacq, htex, hrp] at hc <;>
    (try rcases hc with rfl | rfl | rfl | rfl | rfl | rfl | rfl | rfl) <;>
    simp [Call.writesBuffer]

/-- C13 (amended): in a `Render_Draw` call that reaches the render pass, the
single viewport set has origin (0, 0), depth range 0 to 1, width
`(float)max(reported width, 1)` and height `(float)max(reported height, 1)`.
The width is the reported width whenever that lies between 1 and 16777216
(`2 ^ 24`, up to which every integer is a `float`), and is 1 whenever the
reported width is 0 or less; likewise the height.  That is why a size change
between frames changes the viewport of the next call.  Above `2 ^ 24` the
conversion rounds: the reported size 16777217 gives 16777216.  On every path
`Render_Draw` makes no call that writes a buffer, the two position buffers
included, and leaves the device memory as it was. -/
theorem viewport_follows_drawable_size (state : RenderState)
    (cmdBuf window xCurr yCurr : Handle) (numParticles : Int) (env : DrawEnv) :
    (env.acquireOk = true → env.swapchainTexture ≠ 0 → env.renderPass ≠ 0 →
      viewports (Render_Draw state cmdBuf window xCurr yCurr numParticles env).2 =
        [ { x := f32_zero, y := f32_zero,
            w := f32_of_int (SDL_max env.viewportWidth 1),
            h := f32_of_int (SDL_max env.viewportHeight 1),
            min_depth := f32_zero, max_depth := f32_one } ] ∧
      (1 ≤ env.viewportWidth → env.viewportWidth ≤ 16777216 →
        f32_value (f32_of_int (SDL_max env.viewportWidth 1)) =
          ((env.viewportWidth : Int) : ℚ)) ∧
      (1 ≤ env.viewportHeight → env.viewportHeight ≤ 16777216 →
        f32_value (f32_of_int (SDL_max env.viewportHeight 1)) =
          ((env.viewportHeight : Int) : ℚ)) ∧
      (env.viewportWidth ≤ 0 → f32_of_int (SDL_max env.viewportWidth 1) = f32_one) ∧
      (env.viewportHeight ≤ 0 → f32_of_int (SDL_max env.viewportHeight 1) = f32_one)) ∧
    (f32_value f32_zero = 0 ∧ f32_value f32_one = 1 ∧
      f32_value (f32_of_int (SDL_max 16777217 1)) = 16777216) ∧
    (∀ c ∈ (Render_Draw state cmdBuf window xCurr yCurr numParticles env).2,
      c.writesBuffer xCurr = false ∧ c.writesBuffer yCurr = false) ∧
    (∀ m : DeviceMemory,
      m.run (Render_Draw state cmdBuf window xCurr yCurr numParticles env).2 = m) := by
  refine ⟨?_, ⟨f32_value_zero, f32_value_one, f32_of_int_16777217⟩, ?_,
    Render_Draw_memory state cmdBuf window xCurr yCurr numParticles env⟩
  · intro hacq htex hrp
    refine ⟨?_, f32_of_int_exact env.viewportWidth, f32_of_int_exact env.viewportHeight,
      ?_, ?_⟩
    · rw [Render_Draw_drawn state cmdBuf window xCurr yCurr numParticles env hacq htex hrp]
      simp [viewports, drawViewport]
    · intro h
      rw [SDL_max_one_of_nonpos _ h, f32_of_int_one]
    · intro h
      rw [SDL_max_one_of_nonpos _ h, f32_of_int_one]
  · intro c hc
    exact ⟨Render_Draw_writes_nothing state cmdBuf window xCurr yCurr numParticles env
        xCurr c hc,
      Render_Draw_writes_nothing state cmdBuf window xCurr yCurr numParticles env
        yCurr c hc⟩

/-- C13 (witness): the same draw before and after the window is resized from
800 by 600 to 1024 by 768. -/
theorem viewport_follows_drawable_size_witness :
    viewports (Render_Draw sampleState 20 1 7 8 1024 sampleDraw).2 =
      [ { x := f32_zero, y := f32_zero,
          w := f32_of_int (SDL_max sampleDraw.viewportWidth 1),
          h := f32_of_int (SDL_max sampleDraw.viewportHeight 1),
          min_depth := f32_zero, max_depth := f32_one } ] ∧
    f32_value (f32_of_int (SDL_max sampleDraw.viewportWidth 1)) = 800 ∧
    f32_value (f32_of_int (SDL_max sampleDraw.viewportHeight 1)) = 600 ∧
    f32_value (f32_of_int (SDL_max resizedDraw.viewportWidth 1)) = 1024 ∧
    f32_value (f32_of_int (SDL_max resizedDraw.viewportHeight 1)) = 768 :=
  ⟨((viewport_follows_drawable_size sampleState 20 1 7 8 1024 sampleDraw).1
      (by decide) (by decide) (by decide)).1,
    (((viewport_follows_drawable_size sampleState 20 1 7 8 1024 sampleDraw).1
      (by decide) (by decide) (by decide)).2.1 (by decide) (by decide)).trans
      (by norm_num [sampleDraw, sampleFrame]),
    (((viewport_follows_drawable_size sampleState 20 1 7 8 1024 sampleDraw).1
      (by decide) (by decide) (by decide)).2.2.1 (by decide) (by decide)).trans
      (by norm_num [sampleDraw, sampleFrame]),
    (((viewport_follows_drawable_size sampleState 20 1 7 8 1024 resizedDraw).1
      (by decide) (by decide) (by decide)).2.1 (by decide) (by decide)).trans
      (by norm_num [resizedDraw]),
    (((viewport_follows_drawable_size sampleState 20 1 7 8 1024 resizedDraw).1
      (by decide) (by decide) (by decide)).2.2.1 (by decide) (by decide)).trans
      (by norm_num [resizedDraw])⟩

/-! ## C15: sizes and usage of the particle buffers -/

theorem bufferInfos_append (a b : List Call) :
    bufferInfos (a ++ b) = bufferInfos a ++ bufferInfos b := by
  simp [bufferInfos]

theorem transferInfos_append (a b : List Call) :
    transferInfos (a ++ b) = transferInfos a ++ transferInfos b := by
  simp [transferInfos]

theorem Render_Init_infos (state : RenderState) (device : Handle)
    (shaderFormat : SDL_GPUShaderFormat) (vertexShaderPath fragmentShaderPath : String)
    (env : RenderInitEnv) :
    bufferInfos (Render_Init state device shaderFormat vertexShaderPath fragmentShaderPath
      env).2.2 = [] ∧
    transferInfos (Render_Init state device shaderFormat vertexShaderPath fragmentShaderPath
      env).2.2 = [] := by
  unfold Render_Init
  by_cases hv : (LoadShaderFile (env.fs vertexShaderPath) none 0).1 = true <;>
    by_cases hvs : env.vertexShader = 0 <;>
    by_cases hf : (LoadShaderFile (env.fs fragmentShaderPath) none 0).1 = true <;>
    by_cases hfs : env.fragmentShader = 0 <;>
    by_cases hp : env.pipeline = 0 <;>
    simp [hv, hvs, hf, hfs, hp, bufferInfos, transferInfos]

theorem Render_Destroy_infos (state : Option RenderState) (device : Handle) :
    bufferInfos (Render_Destroy state device).2 = [] ∧
    transferInfos (Render_Destroy state device).2 = [] := by
  cases state with
  | none => simp [Render_Destroy, bufferInfos, transferInfos]
  | some st =>
    by_cases hd : device = 0
    · simp [Render_Destroy, bufferInfos, transferInfos, hd]
    · by_cases hp : st.pipeline = 0 <;> by_cases hv : st.vertexShader = 0 <;>
        by_cases hf : st.fragmentShader = 0 <;>
        simp [Render_Destroy, bufferInfos, transferInfos, hd, hp, hv, hf]

theorem mapLoop_infos (device : Handle) (mapOk : Nat → Bool) (us : List Upload) :
    ∀ i, bufferInfos (mapLoop device mapOk i us).1 = [] ∧
      transferInfos (mapLoop device mapOk i us).1 = [] := by
  induction us with
  | nil => intro i; simp [mapLoop, bufferInfos, transferInfos]
  | cons u us ih =>
    intro i
    have h := ih (i + 1)
    simp only [bufferInfos, transferInfos] at h ⊢
    cases hm : mapOk i <;> simp [mapLoop, hm, h.1, h.2]

theorem SDL_AppInit_infos (appState : Option AppContext) (env : InitEnv) :
    (∀ info ∈ bufferInfos (SDL_AppInit appState env).trace, info = bufferCreateInfo) ∧
    (∀ info ∈ transferInfos (SDL_AppInit appState env).trace,
      info = transferCreateInfo) := by
  obtain ⟨hRIb, hRIt⟩ := Render_Init_infos { vertexShader := 0, fragmentShader := 0, pipeline := 0 }
    env.device
    (if decide (env.driverName = some "metal") = true then
      SDL_GPUShaderFormat.SDL_GPU_SHADERFORMAT_MSL
     else SDL_GPUShaderFormat.SDL_GPU_SHADERFORMAT_SPIRV)
    (if decide (env.driverName = some "metal") = true then "assets/particles.vert.msl"
     else "assets/particles.vert.spv")
    (if decide (env.driverName = some "metal") = true then "assets/particles.frag.msl"
     else "assets/particles.frag.spv")
    { fs := env.fs, vertexShader := env.vertexShader,
      fragmentShader := env.fragmentShader, pipeline := env.pipeline }
  obtain ⟨hRDb, hRDt⟩ := Render_Destroy_infos (some (Render_Init { vertexShader := 0, fragmentShader := 0, pipeline := 0 }
      env.device
      (if decide (env.driverName = some "metal") = true then
        SDL_GPUShaderFormat.SDL_GPU_SHADERFORMAT_MSL
       else SDL_GPUShaderFormat.SDL_GPU_SHADERFORMAT_SPIRV)
      (if decide (env.driverName = some "metal") = true then "assets/particles.vert.msl"
       else "assets/particles.vert.spv")
      (if decide (env.driverName = some "metal") = true then "assets/particles.frag.msl"
       else "assets/particles.frag.spv")
      { fs := env.fs, vertexShader := env.vertexShader,
        fragmentShader := env.fragmentShader, pipeline := env.pipeline }).2.1) env.device
  obtain ⟨hmlb, hmlt⟩ := mapLoop_infos env.device env.mapOk (uploads env) 0
  generalize ho : SDL_AppInit appState env = o
  rcases Bool.eq_false_or_eq_true env.sdlInitOk with h1 | h1
  swap
  · simp only [SDL_AppInit, Bool.not_true, Bool.not_false, Bool.false_eq_true, if_true, if_false, h1] at ho
    subst ho
    simp only [bufferInfos_append, transferInfos_append, hRIb, hRIt, hRDb, hRDt, hmlb, hmlt]
    simp [bufferInfos, transferInfos, releaseBuffers, releaseTransferBuffers, copyLoop, uploads]
  by_cases hw : env.window = 0
  · simp only [SDL_AppInit, Bool.not_true, Bool.not_false, Bool.false_eq_true, if_true, if_false, h1, hw] at ho
    subst ho
    simp only [bufferInfos_append, transferInfos_append, hRIb, hRIt, hRDb, hRDt, hmlb, hmlt]
    simp [bufferInfos, transferInfos, releaseBuffers, releaseTransferBuffers, copyLoop, uploads]
  by_cases hd : env.device = 0
  · simp only [SDL_AppInit, Bool.not_true, Bool.not_false, Bool.false_eq_true, if_true, if_false, h1, hw, hd] at ho
    subst ho
    simp only [bufferInfos_append, transferInfos_append, hRIb, hRIt, hRDb, hRDt, hmlb, hmlt]
    simp [bufferInfos, transferInfos, releaseBuffers, releaseTransferBuffers, copyLoop, uploads]
  rcases Bool.eq_false_or_eq_true env.claimOk with hcl | hcl
  swap
  · simp only [SDL_AppInit, Bool.not_true, Bool.not_false, Bool.false_eq_true, if_true, if_false, h1, hw, hd, hcl] at ho
    subst ho
    simp only [bufferInfos_append, transferInfos_append, hRIb, hRIt, hRDb, hRDt, hmlb, hmlt]
    simp [bufferInfos, transferInfos, releaseBuffers, releaseTransferBuffers, copyLoop, uploads]
  rcases Bool.eq_false_or_eq_true (LoadShaderFile (env.fs
      (if decide (env.driverName = some "metal") = true then "assets/particles.comp.msl"
       else "assets/particles.comp.spv")) none 0).1 with hcomp | hcomp
  swap
  · simp only [SDL_AppInit, Bool.not_true, Bool.not_false, Bool.false_eq_true, if_true, if_false, h1, hw, hd, hcl, hcomp] at ho
    subst ho
    simp only [bufferInfos_append, transferInfos_append, hRIb, hRIt, hRDb, hRDt, hmlb, hmlt]
    simp [bufferInfos, transferInfos, releaseBuffers, releaseTransferBuffers, copyLoop, uploads]
  by_cases hcp : env.computePipeline = 0
  · simp only [SDL_AppInit, Bool.not_true, Bool.not_false, Bool.false_eq_true, if_true, if_false, h1, hw, hd, hcl, hcomp, hcp] at ho
    subst ho
    simp only [bufferInfos_append, transferInfos_append, hRIb, hRIt, hRDb, hRDt, hmlb, hmlt]
    simp [bufferInfos, transferInfos, releaseBuffers, releaseTransferBuffers, copyLoop, uploads]
  rcases Bool.eq_false_or_eq_true (Render_Init { vertexShader := 0, fragmentShader := 0, pipeline := 0 }
      env.device
      (if decide (env.driverName = some "metal") = true then
        SDL_GPUShaderFormat.SDL_GPU_SHADERFORMAT_MSL
       else SDL_GPUShaderFormat.SDL_GPU_SHADERFORMAT_SPIRV)
      (if decide (env.driverName = some "metal") = true then "assets/particles.vert.msl"
       else "assets/particles.vert.spv")
      (if decide (env.driverName = some "metal") = true then "assets/particles.frag.msl"
       else "assets/particles.frag.spv")
      { fs := env.fs, vertexShader := env.vertexShader,
        fragmentShader := env.fragmentShader, pipeline := env.pipeline }).1 with hin | hin
  swap
  · simp only [SDL_AppInit, Bool.not_true, Bool.not_false, Bool.false_eq_true, if_true, if_false, h1, hw, hd, hcl, hcomp, hcp, hin] at ho
    subst ho
    simp only [bufferInfos_append, transferInfos_append, hRIb, hRIt, hRDb, hRDt, hmlb, hmlt]
    simp [bufferInfos, transferInfos, releaseBuffers, releaseTransferBuffers, copyLoop, uploads]
  rcases Bool.eq_false_or_eq_true (!env.mallocXCurr || !env.mallocYCurr || !env.mallocXPrev || !env.mallocYPrev ||
      !env.mallocMass || !env.mallocDensity) with hmal | hmal
  · simp only [SDL_AppInit, Bool.not_true, Bool.not_false, Bool.false_eq_true, if_true, if_false, h1, hw, hd, hcl, hcomp, hcp, hin, hmal] at ho
    subst ho
    simp only [bufferInfos_append, transferInfos_append, hRIb, hRIt, hRDb, hRDt, hmlb, hmlt]
    simp [bufferInfos, transferInfos, releaseBuffers, releaseTransferBuffers, copyLoop, uploads]
  by_cases hb : (env.xCurrBuffer = 0 ∨ env.yCurrBuffer = 0 ∨ env.xPrevBuffer = 0 ∨
      env.yPrevBuffer = 0 ∨ env.massBuffer = 0 ∨ env.densityBuffer = 0)
  · simp only [SDL_AppInit, Bool.not_true, Bool.not_false, Bool.false_eq_true, if_true, if_false, h1, hw, hd, hcl, hcomp, hcp, hin, hmal, hb] at ho
    subst ho
    simp only [bufferInfos_append, transferInfos_append, hRIb, hRIt, hRDb, hRDt, hmlb, hmlt]
    simp [bufferInfos, transferInfos, releaseBuffers, releaseTransferBuffers, copyLoop, uploads]
  by_cases htx : (env.txXCurr = 0 ∨ env.txYCurr = 0 ∨ env.txXPrev = 0 ∨
      env.txYPrev = 0 ∨ env.txMass = 0 ∨ env.txDensity = 0)
  · simp only [SDL_AppInit, Bool.not_true, Bool.not_false, Bool.false_eq_true, if_true, if_false, h1, hw, hd, hcl, hcomp, hcp, hin, hmal, hb, htx] at ho
    subst ho
    simp only [bufferInfos_append, transferInfos_append, hRIb, hRIt, hRDb, hRDt, hmlb, hmlt]
    simp [bufferInfos, transferInfos, releaseBuffers, releaseTransferBuffers, copyLoop, uploads]
  rcases Bool.eq_false_or_eq_true (mapLoop env.device env.mapOk 0 (uploads env)).2 with hmap | hmap
  · simp only [SDL_AppInit, Bool.not_true, Bool.not_false, Bool.false_eq_true, if_true, if_false, h1, hw, hd, hcl, hcomp, hcp, hin, hmal, hb, htx, hmap] at ho
    subst ho
    simp only [bufferInfos_append, transferInfos_append, hRIb, hRIt, hRDb, hRDt, hmlb, hmlt]
    simp [bufferInfos, transferInfos, releaseBuffers, releaseTransferBuffers, copyLoop, uploads]
  by_cases hup : env.uploadCmdBuf = 0
  · simp only [SDL_AppInit, Bool.not_true, Bool.not_false, Bool.false_eq_true, if_true, if_false, h1, hw, hd, hcl, hcomp, hcp, hin, hmal, hb, htx, hmap, hup] at ho
    subst ho
    simp only [bufferInfos_append, transferInfos_append, hRIb, hRIt, hRDb, hRDt, hmlb, hmlt]
    simp [bufferInfos, transferInfos, releaseBuffers, releaseTransferBuffers, copyLoop, uploads]
  by_cases hcpass : env.copyPass = 0
  · simp only [SDL_AppInit, Bool.not_true, Bool.not_false, Bool.false_eq_true, if_true, if_false, h1, hw, hd, hcl, hcomp, hcp, hin, hmal, hb, htx, hmap, hup, hcpass] at ho
    subst ho
    simp only [bufferInfos_append, transferInfos_append, hRIb, hRIt, hRDb, hRDt, hmlb, hmlt]
    simp [bufferInfos, transferInfos, releaseBuffers, releaseTransferBuffers, copyLoop, uploads]
  rcases Bool.eq_false_or_eq_true env.contextAllocOk with hctx | hctx
  swap
  · simp only [SDL_AppInit, Bool.not_true, Bool.not_false, Bool.false_eq_true, if_true, if_false, h1, hw, hd, hcl, hcomp, hcp, hin, hmal, hb, htx, hmap, hup, hcpass, hctx] at ho
    subst ho
    simp only [bufferInfos_append, transferInfos_append, hRIb, hRIt, hRDb, hRDt, hmlb, hmlt]
    simp [bufferInfos, transferInfos, releaseBuffers, releaseTransferBuffers, copyLoop, uploads]
  simp only [SDL_AppInit, Bool.not_true, Bool.not_false, Bool.false_eq_true, if_true, if_false, h1, hw, hd, hcl, hcomp, hcp, hin, hmal, hb, htx, hmap, hup, hcpass, hctx] at ho
  subst ho
  simp only [bufferInfos_append, transferInfos_append, hRIb, hRIt, hRDb, hRDt, hmlb, hmlt]
  simp [bufferInfos, transferInfos, releaseBuffers, releaseTransferBuffers, copyLoop, uploads]

/-- C15: every `SDL_CreateGPUBuffer` call of `SDL_AppInit` passes the same
descriptor, of byte size `sizeof(float) * numParticles` = 4 * 1024 and with
the usage flags graphics storage read, compute storage read and compute
storage write; every `SDL_CreateGPUTransferBuffer` call passes an upload
descriptor of that same byte size.  When `SDL_AppInit` succeeds there are six
calls of each kind, the context stores the particle count 1024 that sized
them, and neither `SDL_AppIterate` nor `SDL_AppEvent` changes the context:
every later frame draws that many vertices. -/
theorem particle_buffers_uniform (appState : Option AppContext) (env : InitEnv) :
    (∀ info ∈ bufferInfos (SDL_AppInit appState env).trace,
      (info.size : Int) = sizeof_float * numParticles ∧ info.size = 4 * 1024 ∧
      SDL_GPUBufferUsageFlag.SDL_GPU_BUFFERUSAGE_COMPUTE_STORAGE_READ ∈ info.usage ∧
      SDL_GPUBufferUsageFlag.SDL_GPU_BUFFERUSAGE_COMPUTE_STORAGE_WRITE ∈ info.usage ∧
      SDL_GPUBufferUsageFlag.SDL_GPU_BUFFERUSAGE_GRAPHICS_STORAGE_READ ∈ info.usage) ∧
    (∀ info ∈ transferInfos (SDL_AppInit appState env).trace,
      (info.size : Int) = sizeof_float * numParticles ∧ info.size = 4 * 1024 ∧
      info.usage = SDL_GPUTransferBufferUsage.SDL_GPU_TRANSFERBUFFERUSAGE_UPLOAD) ∧
    ((SDL_AppInit appState env).result = SDL_AppResult.SDL_APP_CONTINUE →
      (bufferInfos (SDL_AppInit appState env).trace).length = 6 ∧
      (transferInfos (SDL_AppInit appState env).trace).length = 6 ∧
      ∃ context, (SDL_AppInit appState env).appState = some context ∧
        context.numParticles = numParticles ∧
        (∀ info ∈ bufferInfos (SDL_AppInit appState env).trace,
          (info.size : Int) = 4 * context.numParticles) ∧
        (∀ info ∈ transferInfos (SDL_AppInit appState env).trace,
          (info.size : Int) = 4 * context.numParticles) ∧
        (∀ frame : FrameEnv,
          (SDL_AppIterate_context context frame).numParticles = context.numParticles ∧
          ∀ d ∈ draws (SDL_AppIterate context frame).2, d = (1024, 1, 0, 0)) ∧
        (∀ event : SDL_Event, (SDL_AppEvent (some context) event).2 = some context)) := by
  obtain ⟨hbi, hti⟩ := SDL_AppInit_infos appState env
  refine ⟨?_, ?_, ?_⟩
  · intro info hinfo
    rw [hbi info hinfo]
    decide
  · intro info hinfo
    rw [hti info hinfo]
    decide
  · intro hres
    rcases SDL_AppInit_cases appState env with
      ⟨hfail, _, _⟩ | ⟨_, _, _, _, hst, code, size, format, vinfo, finfo, htrace⟩
    · rw [hfail] at hres; exact absurd hres (by decide)
    · refine ⟨?_, ?_, _, hst, rfl, ?_, ?_, ?_, ?_⟩
      · rw [htrace]
        simp [bufferInfos, uploads, copyLoop, releaseTransferBuffers]
      · rw [htrace]
        simp [transferInfos, uploads, copyLoop, releaseTransferBuffers]
      · intro info hinfo
        rw [hbi info hinfo]
        show ((bufferCreateInfo.size : Nat) : Int) = 4 * numParticles
        decide
      · intro info hinfo
        rw [hti info hinfo]
        show ((transferCreateInfo.size : Nat) : Int) = 4 * numParticles
        decide
      · intro frame
        refine ⟨rfl, ?_⟩
        intro d hd
        by_cases hcb : frame.cmdBuf = 0 <;> by_cases hcp : frame.computePass = 0 <;>
          cases hacq : frame.draw.acquireOk <;>
          by_cases htex : frame.draw.swapchainTexture = 0 <;>
          by_cases hrp : frame.draw.renderPass = 0 <;>
          simp [SDL_AppIterate, Render_Draw, draws, hcb, hcp, hacq, htex, hrp] at hd
        rw [hd]
        decide
      · intro event
        unfold SDL_AppEvent
        split
        · rfl
        · split <;> rfl

/-- C15 (witness): the sample run, in which every call succeeds. -/
theorem particle_buffers_uniform_witness :
    (SDL_AppInit none sampleInit).result = SDL_AppResult.SDL_APP_CONTINUE ∧
    (bufferInfos (SDL_AppInit none sampleInit).trace).length = 6 ∧
    (transferInfos (SDL_AppInit none sampleInit).trace).length = 6 :=
  ⟨by decide,
    ((particle_buffers_uniform none sampleInit).2.2 (by decide)).1,
    ((particle_buffers_uniform none sampleInit).2.2 (by decide)).2.1⟩

/-! ## C14: fixed-function state of the graphics pipeline -/

/-- C14: every description `Render_Init` passes to
`SDL_CreateGPUGraphicsPipeline` has depth test, depth write and stencil test
disabled, no depth-stencil target, counter-clockwise front face, fill mode and
one colour target blending source ONE, destination ZERO with ADD for colour
and alpha; and every render pass of `Render_Draw` has the single target
cleared to (0, 0, 0, 1).  Its multisample field, however, holds the integer 1,
which as a `SDL_GPUSampleCount` is `SDL_GPU_SAMPLECOUNT_2` (two samples), not
`SDL_GPU_SAMPLECOUNT_1`.  The sample `Render_Init` call creates its pipeline
with this description. -/
theorem graphics_pipeline_fixed_state (state0 : RenderState) (device : Handle)
    (shaderFormat : SDL_GPUShaderFormat) (vertexShaderPath fragmentShaderPath : String)
    (ienv : RenderInitEnv) (state : RenderState) (cmdBuf window xCurr yCurr : Handle)
    (numParticles : Int) (env : DrawEnv) :
    (∀ info ∈ graphicsPipelineInfos
        (Render_Init state0 device shaderFormat vertexShaderPath fragmentShaderPath
          ienv).2.2,
      info.depth_stencil_state.enable_depth_test = false ∧
      info.depth_stencil_state.enable_depth_write = false ∧
      info.depth_stencil_state.enable_stencil_test = false ∧
      info.target_info.has_depth_stencil_target = false ∧
      info.rasterizer_state.front_face =
        SDL_GPUFrontFace.SDL_GPU_FRONTFACE_COUNTER_CLOCKWISE ∧
      info.rasterizer_state.fill_mode = SDL_GPUFillMode.SDL_GPU_FILLMODE_FILL ∧
      info.target_info.num_color_targets = 1 ∧
      (∃ target, info.target_info.color_target_descriptions = [target] ∧
        target.blend_state.src_color_blendfactor =
          SDL_GPUBlendFactor.SDL_GPU_BLENDFACTOR_ONE ∧
        target.blend_state.dst_color_blendfactor =
          SDL_GPUBlendFactor.SDL_GPU_BLENDFACTOR_ZERO ∧
        target.blend_state.color_blend_op = SDL_GPUBlendOp.SDL_GPU_BLENDOP_ADD ∧
        target.blend_state.src_alpha_blendfactor =
          SDL_GPUBlendFactor.SDL_GPU_BLENDFACTOR_ONE ∧
        target.blend_state.dst_alpha_blendfactor =
          SDL_GPUBlendFactor.SDL_GPU_BLENDFACTOR_ZERO ∧
        target.blend_state.alpha_blend_op = SDL_GPUBlendOp.SDL_GPU_BLENDOP_ADD) ∧
      info.multisample_state.sample_count = 1 ∧
      SDL_GPUSampleCount.ofValue info.multisample_state.sample_count =
        some SDL_GPUSampleCount.SDL_GPU_SAMPLECOUNT_2 ∧
      SDL_GPUSampleCount.ofValue info.multisample_state.sample_count ≠
        some SDL_GPUSampleCount.SDL_GPU_SAMPLECOUNT_1) ∧
    graphicsPipelineInfos
        (Render_Init ⟨0, 0, 0⟩ 2 SDL_GPUShaderFormat.SDL_GPU_SHADERFORMAT_SPIRV
          sampleVertexPath sampleFragmentPath sampleRenderInit).2.2 =
      [pipelineCreateInfo 3 4] ∧
    SDL_GPUSampleCount.SDL_GPU_SAMPLECOUNT_2.samples = 2 ∧
    (∀ targets ∈ renderTargets
        (Render_Draw state cmdBuf window xCurr yCurr numParticles env).2,
      ∃ target, targets = [target] ∧
        target.load_op = SDL_GPULoadOp.SDL_GPU_LOADOP_CLEAR ∧
        target.clear_color = (f32_zero, f32_zero, f32_zero, f32_one)) := by
  refine ⟨?_, by decide, rfl, ?_⟩
  · intro info hinfo
    have hi : info = pipelineCreateInfo ienv.vertexShader ienv.fragmentShader := by
      unfold Render_Init at hinfo
      by_cases hv : (LoadShaderFile (ienv.fs vertexShaderPath) none 0).1 = true <;>
        by_cases hvs : ienv.vertexShader = 0 <;>
        by_cases hf : (LoadShaderFile (ienv.fs fragmentShaderPath) none 0).1 = true <;>
        by_cases hfs : ienv.fragmentShader = 0 <;>
        by_cases hp : ienv.pipeline = 0 <;>
        simp [hv, hvs, hf, hfs, hp, graphicsPipelineInfos] at hinfo <;>
        exact hinfo
    rw [hi]
    refine ⟨rfl, rfl, rfl, rfl, rfl, rfl, rfl, ⟨colorTargetDesc, rfl, rfl, rfl, rfl, rfl, rfl,
      rfl⟩, rfl, rfl, ?_⟩
    show SDL_GPUSampleCount.ofValue 1 ≠ some SDL_GPUSampleCount.SDL_GPU_SAMPLECOUNT_1
    decide
  · intro targets ht
    cases hacq : env.acquireOk <;> by_cases htex : env.swapchainTexture = 0 <;>
      by_cases hrp : env.renderPass = 0 <;>
      simp [Render_Draw, renderTargets, hacq, htex, hrp] at ht <;>
      exact ⟨_, ht, rfl, rfl⟩

/-! ## C16: `Render_Init` is all or nothing -/

/-- C16: if loading either shader file, creating either shader, or creating
the graphics pipeline fails, `Render_Init` returns `false`.  Whenever it
returns `false` the `RenderState` is unchanged, only shaders were created, and
the shaders released are exactly the shaders created, in the same order.
Whenever it returns `true` the `RenderState` holds the vertex shader, the
fragment shader and the pipeline the call created, all non-null, and the call
released nothing. -/
theorem renderInit_atomic (state : RenderState) (device : Handle)
    (shaderFormat : SDL_GPUShaderFormat) (vertexShaderPath fragmentShaderPath : String)
    (env : RenderInitEnv) :
    (((LoadShaderFile (env.fs vertexShaderPath) none 0).1 = false ∨
        env.vertexShader = 0 ∨
        (LoadShaderFile (env.fs fragmentShaderPath) none 0).1 = false ∨
        env.fragmentShader = 0 ∨ env.pipeline = 0) →
      (Render_Init state device shaderFormat vertexShaderPath fragmentShaderPath env).1 =
        false) ∧
    ((Render_Init state device shaderFormat vertexShaderPath fragmentShaderPath env).1 =
        false →
      (Render_Init state device shaderFormat vertexShaderPath fragmentShaderPath env).2.1 =
        state ∧
      releasedIn (Render_Init state device shaderFormat vertexShaderPath fragmentShaderPath
        env).2.2 =
        createdIn (Render_Init state device shaderFormat vertexShaderPath fragmentShaderPath
          env).2.2 ∧
      ∀ r ∈ createdIn (Render_Init state device shaderFormat vertexShaderPath
        fragmentShaderPath env).2.2, r.1 = ResourceKind.shader) ∧
    ((Render_Init state device shaderFormat vertexShaderPath fragmentShaderPath env).1 =
        true →
      (Render_Init state device shaderFormat vertexShaderPath fragmentShaderPath env).2.1 =
        { vertexShader := env.vertexShader, fragmentShader := env.fragmentShader,
          pipeline := env.pipeline } ∧
      createdIn (Render_Init state device shaderFormat vertexShaderPath fragmentShaderPath
        env).2.2 =
        [ (ResourceKind.shader, env.vertexShader),
          (ResourceKind.shader, env.fragmentShader),
          (ResourceKind.graphicsPipeline, env.pipeline) ] ∧
      releaseCalls (Render_Init state device shaderFormat vertexShaderPath
        fragmentShaderPath env).2.2 = [] ∧
      env.vertexShader ≠ 0 ∧ env.fragmentShader ≠ 0 ∧ env.pipeline ≠ 0) := by
  unfold Render_Init
  by_cases hv : (LoadShaderFile (env.fs vertexShaderPath) none 0).1 = true <;>
    by_cases hvs : env.vertexShader = 0 <;>
    by_cases hf : (LoadShaderFile (env.fs fragmentShaderPath) none 0).1 = true <;>
    by_cases hfs : env.fragmentShader = 0 <;>
    by_cases hp : env.pipeline = 0 <;>
    simp [hv, hvs, hf, hfs, hp, createdIn, releasedIn, releaseCalls, Call.created,
      Call.released, Resource.live]

/-- C16 (witness): the sample call succeeds; the same call with a pipeline
that cannot be created fails and leaves the state `(0, 0, 0)` as it was. -/
theorem renderInit_atomic_witness :
    (Render_Init ⟨0, 0, 0⟩ 2 SDL_GPUShaderFormat.SDL_GPU_SHADERFORMAT_SPIRV
      sampleVertexPath sampleFragmentPath sampleRenderInit).2.1 = ⟨3, 4, 5⟩ ∧
    pipelineCreationFails.pipeline = 0 ∧
    (Render_Init ⟨0, 0, 0⟩ 2 SDL_GPUShaderFormat.SDL_GPU_SHADERFORMAT_SPIRV
      sampleVertexPath sampleFragmentPath pipelineCreationFails).1 = false ∧
    (Render_Init ⟨0, 0, 0⟩ 2 SDL_GPUShaderFormat.SDL_GPU_SHADERFORMAT_SPIRV
      sampleVertexPath sampleFragmentPath pipelineCreationFails).2.1 = ⟨0, 0, 0⟩ :=
  ⟨((renderInit_atomic ⟨0, 0, 0⟩ 2 SDL_GPUShaderFormat.SDL_GPU_SHADERFORMAT_SPIRV
      sampleVertexPath sampleFragmentPath sampleRenderInit).2.2 (by decide)).1,
    by decide,
    (renderInit_atomic ⟨0, 0, 0⟩ 2 SDL_GPUShaderFormat.SDL_GPU_SHADERFORMAT_SPIRV
      sampleVertexPath sampleFragmentPath pipelineCreationFails).1
      (Or.inr (Or.inr (Or.inr (Or.inr (by decide))))),
    ((renderInit_atomic ⟨0, 0, 0⟩ 2 SDL_GPUShaderFormat.SDL_GPU_SHADERFORMAT_SPIRV
      sampleVertexPath sampleFragmentPath pipelineCreationFails).2.1 (by decide)).1⟩

/-! ## C17: `LoadShaderFile` -/

theorem LoadShaderFile_false_or_true (env : FileEnv) (outBuffer : Option (List Nat))
    (outSize : Nat) :
    LoadShaderFile env outBuffer outSize = (false, outBuffer, outSize) ∨
      (LoadShaderFile env outBuffer outSize).1 = true := by
  unfold LoadShaderFile
  simp only []
  split_ifs <;> simp

/-- C17: for a file that opens, whose two seeks succeed, whose length `ftell`
reports, for which the buffer can be allocated and which `fread` delivers in
full, `LoadShaderFile` returns `true`, sets the output size to the length of
the file and the output buffer to length + 1 bytes: the contents of the file
followed by a zero byte.  If the file cannot be opened, a seek fails, `ftell`
reports a negative value, the allocation fails or the read is short, it
returns `false`; and whenever it returns `false` both output parameters keep
the values they had. -/
theorem loadShaderFile_contract (env : FileEnv) (outBuffer : Option (List Nat))
    (outSize : Nat) :
    (env.fopenOk = true → env.seekEnd = 0 → env.tell = env.contents.length →
      env.seekSet = 0 → env.mallocOk = true → env.contents.length ≤ env.readLimit →
      LoadShaderFile env outBuffer outSize =
        (true, some (env.contents ++ [0]), env.contents.length) ∧
      (env.contents ++ [0]).length = env.contents.length + 1 ∧
      (env.contents ++ [0]).take env.contents.length = env.contents ∧
      (env.contents ++ [0]).getLast? = some 0) ∧
    ((env.fopenOk = false ∨ env.seekEnd ≠ 0 ∨ env.tell < 0 ∨ env.seekSet ≠ 0 ∨
        env.mallocOk = false ∨
        min env.readLimit env.contents.length < env.tell.toNat) →
      (LoadShaderFile env outBuffer outSize).1 = false) ∧
    ((LoadShaderFile env outBuffer outSize).1 = false →
      (LoadShaderFile env outBuffer outSize).2 = (outBuffer, outSize)) := by
  refine ⟨?_, ?_, ?_⟩
  · intro hopen hseek htell hset hmalloc hread
    refine ⟨?_, by simp, by simp, by simp⟩
    have h1 : List.take env.readLimit env.contents = env.contents :=
      List.take_of_length_le hread
    simp [LoadShaderFile, hopen, hseek, htell, hset, hmalloc, h1]
  · intro h
    unfold LoadShaderFile
    cases hopen : env.fopenOk
    · simp
    · by_cases hseek : env.seekEnd = 0
      · by_cases htell : env.tell < 0
        · simp [hseek, htell]
        · by_cases hset : env.seekSet = 0
          · cases hmalloc : env.mallocOk
            · simp [hseek, htell, hset]
            · have hshort : min env.readLimit env.contents.length < env.tell.toNat := by
                rcases h with h | h | h | h | h | h
                · rw [hopen] at h; exact absurd h (by decide)
                · exact absurd hseek h
                · exact absurd h htell
                · exact absurd hset h
                · rw [hmalloc] at h; exact absurd h (by decide)
                · exact h
              have hne : ¬ min env.tell.toNat (min env.readLimit env.contents.length) =
                  env.tell.toNat := by omega
              simp [hseek, htell, hset, hne]
          · simp [hseek, htell, hset]
      · simp [hseek]
  · intro h
    rcases LoadShaderFile_false_or_true env outBuffer outSize with h' | h'
    · rw [h']
    · rw [h'] at h; exact absurd h (by decide)

/-- C17 (witness): the sample file of three bytes is read in full; the same
file with a read that stops after two bytes is refused and the outputs keep
their values. -/
theorem loadShaderFile_contract_witness :
    LoadShaderFile sampleFile none 0 = (true, some [7, 8, 9, 0], 3) ∧
    min shortReadFile.readLimit shortReadFile.contents.length < shortReadFile.tell.toNat ∧
    (LoadShaderFile shortReadFile (some [1]) 5).1 = false ∧
    (LoadShaderFile shortReadFile (some [1]) 5).2 = (some [1], 5) :=
  ⟨((loadShaderFile_contract sampleFile none 0).1 (by decide) (by decide) (by decide)
      (by decide) (by decide) (by decide)).1,
    by decide,
    (loadShaderFile_contract shortReadFile (some [1]) 5).2.1
      (Or.inr (Or.inr (Or.inr (Or.inr (Or.inr (by decide)))))),
    (loadShaderFile_contract shortReadFile (some [1]) 5).2.2 (by decide)⟩

end SdlSph
